import Mathlib

/-!
VImage8.h: the reference-counted handle and the image wrapper.

A shallow embedding of `cplusplus/include/vips/VImage8.h`.

* A native pointer is a natural number, `0` being the C++ null pointer.
* The native object system (GObject reference counts) is a heap mapping every
  address to its reference count; an address with count `0` holds no object.
* Every method of `VObject` is given twice: the list of native reference calls
  its body performs (`*_calls`, in program order) and its effect on the heap.
* A failed `g_assert` aborts the program and `throw( VError() )` raises; both
  are results in `Except Failure`.
* Native functions the header calls are parameters of the embedded methods;
  the metadata store, the `set` overloads of `VOption` and `VImage::call`,
  whose bodies are not in the header, are modelled from the specification.
* The automatically generated member declarations are kept as a table of
  signatures.
-/

namespace vips

/-! ## Native layer -/

/-- Native address, `0` is the null pointer. -/
abbrev Ptr := Nat

/-- The enum `VSteal` of the header: `NOSTEAL = 0`, `STEAL = 1`. -/
inductive VSteal where
  | NOSTEAL
  | STEAL
deriving DecidableEq, Repr

/-- Integer value of a `VSteal` enumerator. -/
def VSteal.toNat : VSteal → Nat
  | .NOSTEAL => 0
  | .STEAL => 1

/-- Ways a call can end without a value: `throw( VError() )`, a failed
`g_assert` (which aborts), or a step whose behaviour C++ leaves undefined. -/
inductive Failure where
  | VError
  | g_assert
  | undefined
deriving DecidableEq, Repr

/-- One call into the native reference counting API. -/
inductive GCall where
  | ref (p : Ptr)
  | unref (p : Ptr)
deriving DecidableEq, Repr

/-- Modelled from the spec: the native object system behind `g_object_ref` and
`g_object_unref` (not part of the header), "ref-counted lifetime". Every address
carries a reference count, and an address holds a live object exactly when the
count is positive. -/
structure GHeap where
  ref_count : Ptr → Nat

/-- Modelled from the spec: `g_object_ref`, "increments the reference". -/
def g_object_ref (h : GHeap) (p : Ptr) : GHeap :=
  { ref_count := fun q => if q = p then h.ref_count q + 1 else h.ref_count q }

/-- Modelled from the spec: `g_object_unref`, "decrements" the reference; the
object is gone once the count is `0`. -/
def g_object_unref (h : GHeap) (p : Ptr) : GHeap :=
  { ref_count := fun q => if q = p then h.ref_count q - 1 else h.ref_count q }

/-- Modelled from the spec: the macro `VIPS_IS_OBJECT` (not part of the header):
the address holds a live object. -/
def VIPS_IS_OBJECT (h : GHeap) (p : Ptr) : Bool :=
  decide (0 < h.ref_count p)

/-- Effect of one native call. -/
def GCall.exec (h : GHeap) : GCall → GHeap
  | .ref p => g_object_ref h p
  | .unref p => g_object_unref h p

/-- Effect of a sequence of native calls, in program order. -/
def GHeap.run (h : GHeap) : List GCall → GHeap
  | [] => h
  | c :: cs => GHeap.run (c.exec h) cs

/-- Every heap seen while a sequence of native calls runs: the initial heap and
the heap after each call. -/
def GHeap.trace (h : GHeap) : List GCall → List GHeap
  | [] => [h]
  | c :: cs => h :: GHeap.trace (c.exec h) cs

/-! ## class VObject -/

/-- The class `VObject`: one private member, `VipsObject *vobject`, which may be
null. -/
structure VObject where
  vobject : Ptr
deriving DecidableEq, Repr

/-- The assertion `g_assert( !p || VIPS_IS_OBJECT( p ) )` that opens every
method of `VObject`. -/
def VObject.g_assert_object (h : GHeap) (p : Ptr) : Bool :=
  p == 0 || VIPS_IS_OBJECT h p

/-- Native calls of `VObject( VipsObject *new_vobject, VSteal steal )`:
`if( !steal && vobject ) g_object_ref( vobject )`. -/
def VObject.new_calls (new_vobject : Ptr) (steal : VSteal) : List GCall :=
  if steal.toNat = 0 ∧ new_vobject ≠ 0 then [GCall.ref new_vobject] else []

/-- The constructor `VObject( VipsObject *new_vobject, VSteal steal )`. -/
def VObject.new (h : GHeap) (new_vobject : Ptr) (steal : VSteal) :
    Except Failure (VObject × GHeap) :=
  if VObject.g_assert_object h new_vobject then
    .ok ({ vobject := new_vobject }, h.run (VObject.new_calls new_vobject steal))
  else
    .error Failure.g_assert

/-- The constructor with the default argument `steal = STEAL`. -/
def VObject.new_steal (h : GHeap) (new_vobject : Ptr) :
    Except Failure (VObject × GHeap) :=
  VObject.new h new_vobject VSteal.STEAL

/-- The default constructor `VObject() : vobject( 0 )`. -/
def VObject.null : VObject :=
  { vobject := 0 }

/-- Native calls of the copy constructor: `if( vobject ) g_object_ref( vobject )`
with `vobject` initialised from `a.vobject`. -/
def VObject.copy_calls (a : VObject) : List GCall :=
  if a.vobject ≠ 0 then [GCall.ref a.vobject] else []

/-- The copy constructor `VObject( const VObject &a )`; the result is the new
handle, the source is passed by const reference and is not written. -/
def VObject.copy (h : GHeap) (a : VObject) : Except Failure (VObject × GHeap) :=
  if VObject.g_assert_object h a.vobject then
    .ok ({ vobject := a.vobject }, h.run (VObject.copy_calls a))
  else
    .error Failure.g_assert

/-- Native calls of `operator=`, in program order:
`if( a.vobject ) g_object_ref( a.vobject ); if( vobject ) g_object_unref( vobject )`. -/
def VObject.assign_calls (self a : VObject) : List GCall :=
  (if a.vobject ≠ 0 then [GCall.ref a.vobject] else []) ++
  (if self.vobject ≠ 0 then [GCall.unref self.vobject] else [])

/-- The assignment `VObject &operator=( const VObject &a )`: both assertions,
the two reference calls, then `vobject = a.vobject`. The result is the target
after the assignment. -/
def VObject.assign (h : GHeap) (self a : VObject) : Except Failure (VObject × GHeap) :=
  if VObject.g_assert_object h self.vobject then
    if VObject.g_assert_object h a.vobject then
      .ok ({ vobject := a.vobject }, h.run (VObject.assign_calls self a))
    else
      .error Failure.g_assert
  else
    .error Failure.g_assert

/-- Native calls of the destructor: `if( vobject ) g_object_unref( vobject )`. -/
def VObject.destroy_calls (self : VObject) : List GCall :=
  if self.vobject ≠ 0 then [GCall.unref self.vobject] else []

/-- The destructor `~VObject()`. -/
def VObject.destroy (h : GHeap) (self : VObject) : Except Failure GHeap :=
  if VObject.g_assert_object h self.vobject then
    .ok (h.run (VObject.destroy_calls self))
  else
    .error Failure.g_assert

/-- The accessor `VipsObject *get_object() const`. -/
def VObject.get_object (h : GHeap) (self : VObject) : Except Failure Ptr :=
  if VObject.g_assert_object h self.vobject then
    .ok self.vobject
  else
    .error Failure.g_assert

/-- The test `bool is_null() const`. -/
def VObject.is_null (self : VObject) : Bool :=
  self.vobject == 0

/-- Native calls of `get_object() const`: the body only asserts and returns the
member. -/
def VObject.get_object_calls (_self : VObject) : List GCall :=
  []

/-- Native calls of `is_null() const`: the body only compares the member. -/
def VObject.is_null_calls (_self : VObject) : List GCall :=
  []

/-- A handle is well formed on a heap when it is null or wraps a live object:
the condition every `g_assert` of `VObject` checks. -/
def VObject.valid (h : GHeap) (self : VObject) : Prop :=
  self.vobject = 0 ∨ 0 < h.ref_count self.vobject

/-! ## class VImage -/

/-- The class `VImage : VObject` adds no data member. -/
structure VImage where
  toVObject : VObject
deriving DecidableEq, Repr

/-- The constructor `VImage( VipsImage *image, VSteal steal )`, which only runs
`VObject( (VipsObject *) image, steal )`. -/
def VImage.new (h : GHeap) (image : Ptr) (steal : VSteal) :
    Except Failure (VImage × GHeap) :=
  match VObject.new h image steal with
  | .ok (o, h1) => .ok ({ toVObject := o }, h1)
  | .error e => .error e

/-- The constructor with the default argument `steal = STEAL`. -/
def VImage.new_steal (h : GHeap) (image : Ptr) : Except Failure (VImage × GHeap) :=
  VImage.new h image VSteal.STEAL

/-- The default constructor `VImage() : VObject( 0 )`: the one-argument form of
the `VObject` constructor, so `steal` is `STEAL`. -/
def VImage.null (h : GHeap) : Except Failure (VImage × GHeap) :=
  VImage.new_steal h 0

/-- The test `is_null`, re-exported by `using VObject::is_null`. -/
def VImage.is_null (self : VImage) : Bool :=
  self.toVObject.is_null

/-- The accessor `VipsImage *get_image() const`. -/
def VImage.get_image (h : GHeap) (self : VImage) : Except Failure Ptr :=
  self.toVObject.get_object h

/-- Native calls of `get_image() const`: those of `VObject::get_object()`. -/
def VImage.get_image_calls (self : VImage) : List GCall :=
  self.toVObject.get_object_calls

/-! ## Image factories -/

/-- A native creation call with its arguments applied: from the heap before
the call to the returned pointer (null on failure) and the heap after it. -/
abbrev NativeNew := GHeap → Ptr × GHeap

/-- The conversion `static_cast<int>( n )` of a `size_t` to a 32-bit `int`. -/
def static_cast_int (n : Nat) : Int :=
  Int.bmod (n : Int) (2 ^ 32)

/-- A C `double`, kept as its 64-bit pattern; the wrapper only moves doubles. -/
structure Double where
  bits : Nat
deriving DecidableEq, Repr

/-- The factory `static VImage new_memory()`:
`return( VImage( vips_image_new_memory() ) )`. -/
def VImage.new_memory (vips_image_new_memory : NativeNew) (h : GHeap) :
    Except Failure (VImage × GHeap) :=
  let r := vips_image_new_memory h
  VImage.new_steal r.2 r.1

/-- The factory `static VImage new_temp_file( const char *file_format )`. -/
def VImage.new_temp_file (vips_image_new_temp_file : String → NativeNew)
    (h : GHeap) (file_format : String) : Except Failure (VImage × GHeap) :=
  let r := vips_image_new_temp_file file_format h
  if r.1 = 0 then .error Failure.VError else VImage.new_steal r.2 r.1

/-- The factory `static VImage new_from_memory( void *data, size_t size,
int width, int height, int bands, VipsBandFormat format )`. -/
def VImage.new_from_memory
    (vips_image_new_from_memory : Ptr → Nat → Int → Int → Int → Int → NativeNew)
    (h : GHeap) (data : Ptr) (size : Nat) (width height bands : Int) (format : Int) :
    Except Failure (VImage × GHeap) :=
  let r := vips_image_new_from_memory data size width height bands format h
  if r.1 = 0 then .error Failure.VError else VImage.new_steal r.2 r.1

/-- The factory `static VImage new_matrix( int width, int height,
double *array, int size )`. -/
def VImage.new_matrix
    (vips_image_new_matrix_from_array : Int → Int → Ptr → Int → NativeNew)
    (h : GHeap) (width height : Int) (array : Ptr) (size : Int) :
    Except Failure (VImage × GHeap) :=
  let r := vips_image_new_matrix_from_array width height array size h
  if r.1 = 0 then .error Failure.VError else VImage.new_steal r.2 r.1

/-- The expression `&v[ i ]` on a `std::vector`: the address of element `i`,
kept as the elements a C function reads from there on; `v[ i ]` is undefined
when `i` is not an index of `v`. -/
def vector_element_address {α : Type} (v : List α) (i : Nat) : Except Failure (List α) :=
  if i < v.length then .ok (v.drop i) else .error Failure.undefined

/-- The method `VImage new_from_image( std::vector<double> pixel ) const`. The
native call receives `this->get_image()`, `&pixel[0]` and
`static_cast<int>( pixel.size() )`. -/
def VImage.new_from_image
    (vips_image_new_from_image : Ptr → List Double → Int → NativeNew)
    (h : GHeap) (self : VImage) (pixel : List Double) :
    Except Failure (VImage × GHeap) :=
  match self.get_image h with
  | .error e => .error e
  | .ok this_image =>
    match vector_element_address pixel 0 with
    | .error e => .error e
    | .ok data =>
      let r := vips_image_new_from_image this_image data (static_cast_int pixel.length) h
      if r.1 = 0 then .error Failure.VError else VImage.new_steal r.2 r.1

/-- The method `VImage copy_memory() const`. -/
def VImage.copy_memory (vips_image_copy_memory : Ptr → NativeNew)
    (h : GHeap) (self : VImage) : Except Failure (VImage × GHeap) :=
  match self.get_image h with
  | .error e => .error e
  | .ok this_image =>
    let r := vips_image_copy_memory this_image h
    if r.1 = 0 then .error Failure.VError else VImage.new_steal r.2 r.1

/-- A native creation call that fails: it returns null and leaves the heap. -/
def nativeNewFails : NativeNew :=
  fun h => (0, h)

/-! ## Metadata accessors -/

/-- A native getter `int vips_image_get_*( image, field, &out )` with its
arguments: from the contents of the out cells before the call to the returned
status and the contents of the out cells after it. -/
abbrev NativeGet (α : Type) := Ptr → String → α → Int × α

/-- The method `void set( const char *field, int value )`. -/
def VImage.set_int {σ : Type} (vips_image_set_int : Ptr → String → Int → σ → σ)
    (h : GHeap) (self : VImage) (field : String) (value : Int) (m : σ) : Except Failure σ :=
  match self.get_image h with
  | .error e => .error e
  | .ok image => .ok (vips_image_set_int image field value m)

/-- The method `void set( const char *field, std::vector<int> value )`: the
native call receives `this->get_image()`, `field`, `&value[0]` and
`static_cast<int>( value.size() )`. -/
def VImage.set_array_int_vector {σ : Type}
    (vips_image_set_array_int : Ptr → String → List Int → Int → σ → σ)
    (h : GHeap) (self : VImage) (field : String) (value : List Int) (m : σ) :
    Except Failure σ :=
  match self.get_image h with
  | .error e => .error e
  | .ok image =>
    match vector_element_address value 0 with
    | .error e => .error e
    | .ok data =>
      .ok (vips_image_set_array_int image field data (static_cast_int value.length) m)

/-- The method `void set( const char *field, double value )`. -/
def VImage.set_double {σ : Type} (vips_image_set_double : Ptr → String → Double → σ → σ)
    (h : GHeap) (self : VImage) (field : String) (value : Double) (m : σ) : Except Failure σ :=
  match self.get_image h with
  | .error e => .error e
  | .ok image => .ok (vips_image_set_double image field value m)

/-- The method `void set( const char *field, const char *value )`. -/
def VImage.set_string {σ : Type} (vips_image_set_string : Ptr → String → String → σ → σ)
    (h : GHeap) (self : VImage) (field : String) (value : String) (m : σ) : Except Failure σ :=
  match self.get_image h with
  | .error e => .error e
  | .ok image => .ok (vips_image_set_string image field value m)

/-- The method `int get_int( const char *field ) const`; `uninit` is the
indeterminate content of the local `int value` before the native call. -/
def VImage.get_int (vips_image_get_int : NativeGet Int)
    (h : GHeap) (self : VImage) (field : String) (uninit : Int) : Except Failure Int :=
  match self.get_image h with
  | .error e => .error e
  | .ok image =>
    let r := vips_image_get_int image field uninit
    if r.1 ≠ 0 then .error Failure.VError else .ok r.2

/-- The method `void get_array_int( const char *field, int **out, int *n ) const`.
An `int *` is the function from index to element; the value returned is the
content of the two caller cells `*out` and `*n` after the call. -/
def VImage.get_array_int_out (vips_image_get_array_int : NativeGet ((Nat → Int) × Int))
    (h : GHeap) (self : VImage) (field : String) (out : Nat → Int) (n : Int) :
    Except Failure ((Nat → Int) × Int) :=
  match self.get_image h with
  | .error e => .error e
  | .ok image =>
    let r := vips_image_get_array_int image field (out, n)
    if r.1 ≠ 0 then .error Failure.VError else .ok r.2

/-- The range constructor `std::vector<int>( array, array + length )`: the
elements `array[0]`, ..., `array[length - 1]` in order. A range whose end
precedes its start (`length < 0`) is undefined. -/
def vector_of_range (array : Nat → Int) (length : Int) : Except Failure (List Int) :=
  if length < 0 then .error Failure.undefined
  else .ok ((List.range length.toNat).map array)

/-- The method `std::vector<int> get_array_int( const char *field ) const`;
`uninit` is the indeterminate content of the locals `array` and `length`. -/
def VImage.get_array_int (vips_image_get_array_int : NativeGet ((Nat → Int) × Int))
    (h : GHeap) (self : VImage) (field : String) (uninit : (Nat → Int) × Int) :
    Except Failure (List Int) :=
  match self.get_image h with
  | .error e => .error e
  | .ok image =>
    let r := vips_image_get_array_int image field uninit
    if r.1 ≠ 0 then .error Failure.VError else vector_of_range r.2.1 r.2.2

/-- The method `double get_double( const char *field ) const`. -/
def VImage.get_double (vips_image_get_double : NativeGet Double)
    (h : GHeap) (self : VImage) (field : String) (uninit : Double) : Except Failure Double :=
  match self.get_image h with
  | .error e => .error e
  | .ok image =>
    let r := vips_image_get_double image field uninit
    if r.1 ≠ 0 then .error Failure.VError else .ok r.2

/-- The method `const char *get_string( const char *field ) const`; a C string
is kept as its characters. -/
def VImage.get_string (vips_image_get_string : NativeGet String)
    (h : GHeap) (self : VImage) (field : String) (uninit : String) : Except Failure String :=
  match self.get_image h with
  | .error e => .error e
  | .ok image =>
    let r := vips_image_get_string image field uninit
    if r.1 ≠ 0 then .error Failure.VError else .ok r.2

/-- The method `const void *get_blob( const char *field, size_t *length ) const`.
The out cells are the local `value` and the caller cell `*length`; the result
is the returned pointer with the content of `*length` after the call. -/
def VImage.get_blob (vips_image_get_blob : NativeGet (Ptr × Nat))
    (h : GHeap) (self : VImage) (field : String) (uninit : Ptr) (length : Nat) :
    Except Failure (Ptr × Nat) :=
  match self.get_image h with
  | .error e => .error e
  | .ok image =>
    let r := vips_image_get_blob image field (uninit, length)
    if r.1 ≠ 0 then .error Failure.VError else .ok r.2

/-! ## Native metadata store -/

/-- A value held by a metadata field, tagged with its type. -/
inductive MetaValue where
  | int (v : Int)
  | double (v : Double)
  | string (v : String)
  | array_int (v : List Int)
  | blob (data : Ptr) (length : Nat)
deriving DecidableEq, Repr

/-- Modelled from the spec: the metadata store of the native image object
(`vips_image_set_*`, `vips_image_get_*`, not part of the header), "an opaque
metadata key/value store (typed get/set by field name, with type-mismatch and
missing-field failures)". Every image address maps field names to typed
values. -/
structure MetaStore where
  fields : Ptr → String → Option MetaValue

/-- Modelled from the spec: a typed set stores the value under the field name
of the image. -/
def MetaStore.set (m : MetaStore) (image : Ptr) (field : String) (v : MetaValue) : MetaStore :=
  { fields := fun i f => if i = image ∧ f = field then some v else m.fields i f }

/-- Modelled from the spec: `vips_image_set_int`. -/
def vips_image_set_int (image : Ptr) (field : String) (value : Int) (m : MetaStore) :
    MetaStore :=
  m.set image field (MetaValue.int value)

/-- Modelled from the spec: `vips_image_set_double`. -/
def vips_image_set_double (image : Ptr) (field : String) (value : Double) (m : MetaStore) :
    MetaStore :=
  m.set image field (MetaValue.double value)

/-- Modelled from the spec: `vips_image_set_string`. -/
def vips_image_set_string (image : Ptr) (field : String) (value : String) (m : MetaStore) :
    MetaStore :=
  m.set image field (MetaValue.string value)

/-- Modelled from the spec: `vips_image_get_int`; status `0` and the value
written when the field holds an int, status `-1` and the out cell untouched on
a missing field or a field of another type. -/
def vips_image_get_int (m : MetaStore) : NativeGet Int :=
  fun image field out =>
    match m.fields image field with
    | some (MetaValue.int v) => (0, v)
    | _ => (-1, out)

/-- Modelled from the spec: `vips_image_get_double`, as `vips_image_get_int`. -/
def vips_image_get_double (m : MetaStore) : NativeGet Double :=
  fun image field out =>
    match m.fields image field with
    | some (MetaValue.double v) => (0, v)
    | _ => (-1, out)

/-- Modelled from the spec: `vips_image_get_string`, as `vips_image_get_int`. -/
def vips_image_get_string (m : MetaStore) : NativeGet String :=
  fun image field out =>
    match m.fields image field with
    | some (MetaValue.string v) => (0, v)
    | _ => (-1, out)

/-- Modelled from the spec: `vips_image_get_array_int`, as `vips_image_get_int`;
on success the out cells receive the stored array and its length. -/
def vips_image_get_array_int (m : MetaStore) : NativeGet ((Nat → Int) × Int) :=
  fun image field out =>
    match m.fields image field with
    | some (MetaValue.array_int v) => (0, (fun i => v.getD i 0, (v.length : Int)))
    | _ => (-1, out)

/-- Modelled from the spec: `vips_image_get_blob`, as `vips_image_get_int`; on
success the out cells receive the address and the length of the stored blob. -/
def vips_image_get_blob (m : MetaStore) : NativeGet (Ptr × Nat) :=
  fun image field out =>
    match m.fields image field with
    | some (MetaValue.blob data length) => (0, (data, length))
    | _ => (-1, out)

/-- An empty metadata store. -/
def emptyStore : MetaStore :=
  { fields := fun _ _ => none }

/-- A native int getter that always succeeds and writes `42`. -/
def nativeGetAnswer : NativeGet Int :=
  fun _ _ _ => (0, 42)

/-! ## class VOption -/

/-- Types a value slot can be initialised for, one per kind of argument the
`set` overloads of `VOption` accept. -/
inductive GType where
  | boolean
  | int
  | double
  | string
  | image
  | interpolate
  | source
  | target
  | array_image
  | array_double
  | array_int
  | blob
deriving DecidableEq, Repr

/-- The value slot `GValue value` of a pair: all zero (as `memset` leaves it),
initialised for a type with nothing stored yet, or holding a value. Native
objects are kept as their addresses. -/
inductive GValue where
  | zero
  | init (t : GType)
  | boolean (v : Bool)
  | int (v : Int)
  | double (v : Double)
  | string (v : String)
  | image (v : Ptr)
  | interpolate (v : Ptr)
  | source (v : Ptr)
  | target (v : Ptr)
  | array_image (v : List Ptr)
  | array_double (v : List Double)
  | array_int (v : List Int)
  | blob (v : Ptr)
deriving DecidableEq, Repr

/-- The type a value slot is initialised for; none for the all-zero slot. -/
def GValue.g_type : GValue → Option GType
  | .zero => none
  | .init t => some t
  | .boolean _ => some GType.boolean
  | .int _ => some GType.int
  | .double _ => some GType.double
  | .string _ => some GType.string
  | .image _ => some GType.image
  | .interpolate _ => some GType.interpolate
  | .source _ => some GType.source
  | .target _ => some GType.target
  | .array_image _ => some GType.array_image
  | .array_double _ => some GType.array_double
  | .array_int _ => some GType.array_int
  | .blob _ => some GType.blob

/-- The struct `VOption::Pair`: `name`, `value`, the direction flag `input`, and
the anonymous union of output pointers, whose members all share the one cell
kept here under the name of the member the constructor initialises. -/
structure Pair where
  name : String
  value : GValue
  input : Bool
  vimage : Ptr
deriving DecidableEq, Repr

/-- The constructor `Pair( const char *name ) : name( name ), input( false ),
vimage( 0 )`, whose body zeroes `value` with `memset`. -/
def Pair.new (name : String) : Pair :=
  { name := name, value := GValue.zero, input := false, vimage := 0 }

/-- Union member `bool *vbool`. -/
def Pair.vbool (p : Pair) : Ptr := p.vimage

/-- Union member `int *vint`. -/
def Pair.vint (p : Pair) : Ptr := p.vimage

/-- Union member `double *vdouble`. -/
def Pair.vdouble (p : Pair) : Ptr := p.vimage

/-- Union member `std::vector<double> *vvector`. -/
def Pair.vvector (p : Pair) : Ptr := p.vimage

/-- Union member `VipsBlob **vblob`. -/
def Pair.vblob (p : Pair) : Ptr := p.vimage

/-- The class `VOption`: the member `std::list<Pair *> options`. -/
structure VOption where
  options : List Pair
deriving DecidableEq, Repr

/-- The constructor `VOption()`, with an empty body. -/
def VOption.new : VOption :=
  { options := [] }

/-- The second argument of the eighteen `set` overloads declared in the
header: twelve take a value, six (`*_out`) take a pointer to caller storage. -/
inductive Arg where
  | bool (value : Bool)
  | int (value : Int)
  | double (value : Double)
  | string (value : String)
  | image (value : VImage)
  | interpolate (value : Ptr)
  | source (value : Ptr)
  | target (value : Ptr)
  | image_array (value : List VImage)
  | double_array (value : List Double)
  | int_array (value : List Int)
  | blob (value : Ptr)
  | bool_out (value : Ptr)
  | int_out (value : Ptr)
  | double_out (value : Ptr)
  | image_out (value : Ptr)
  | double_array_out (value : Ptr)
  | blob_out (blob : Ptr)
deriving DecidableEq, Repr

/-- Whether the overload takes a value (true) or a pointer to caller storage
(false), read off the parameter type in the declaration. -/
def Arg.is_value : Arg → Bool
  | .bool _ => true
  | .int _ => true
  | .double _ => true
  | .string _ => true
  | .image _ => true
  | .interpolate _ => true
  | .source _ => true
  | .target _ => true
  | .image_array _ => true
  | .double_array _ => true
  | .int_array _ => true
  | .blob _ => true
  | .bool_out _ => false
  | .int_out _ => false
  | .double_out _ => false
  | .image_out _ => false
  | .double_array_out _ => false
  | .blob_out _ => false

/-- The caller storage a pointer-taking overload is given; none for the
value-taking overloads. -/
def Arg.storage : Arg → Option Ptr
  | .bool_out p => some p
  | .int_out p => some p
  | .double_out p => some p
  | .image_out p => some p
  | .double_array_out p => some p
  | .blob_out p => some p
  | _ => none

/-- Modelled from the spec: the pair a `set` overload builds (the bodies are
not part of the header). A value overload "stores the value into a generic
tagged-union value slot and marks the pair as input"; a pointer overload
records the pointer to "caller-owned storage" and "marks the pair as
output", its slot initialised for the kind of the output. -/
def Pair.of_arg (name : String) : Arg → Pair
  | .bool v => { Pair.new name with input := true, value := GValue.boolean v }
  | .int v => { Pair.new name with input := true, value := GValue.int v }
  | .double v => { Pair.new name with input := true, value := GValue.double v }
  | .string v => { Pair.new name with input := true, value := GValue.string v }
  | .image v => { Pair.new name with input := true, value := GValue.image v.toVObject.vobject }
  | .interpolate v => { Pair.new name with input := true, value := GValue.interpolate v }
  | .source v => { Pair.new name with input := true, value := GValue.source v }
  | .target v => { Pair.new name with input := true, value := GValue.target v }
  | .image_array v =>
    { Pair.new name with
      input := true, value := GValue.array_image (v.map fun i => i.toVObject.vobject) }
  | .double_array v => { Pair.new name with input := true, value := GValue.array_double v }
  | .int_array v => { Pair.new name with input := true, value := GValue.array_int v }
  | .blob v => { Pair.new name with input := true, value := GValue.blob v }
  | .bool_out p =>
    { Pair.new name with input := false, vimage := p, value := GValue.init GType.boolean }
  | .int_out p =>
    { Pair.new name with input := false, vimage := p, value := GValue.init GType.int }
  | .double_out p =>
    { Pair.new name with input := false, vimage := p, value := GValue.init GType.double }
  | .image_out p =>
    { Pair.new name with input := false, vimage := p, value := GValue.init GType.image }
  | .double_array_out p =>
    { Pair.new name with
      input := false, vimage := p, value := GValue.init GType.array_double }
  | .blob_out p =>
    { Pair.new name with input := false, vimage := p, value := GValue.init GType.blob }

/-- Modelled from the spec: `VOption *set( const char *name, ... )` (the bodies
are not part of the header): the new pair goes to the end of the "ordered
sequence of argument pairs". -/
def VOption.set (self : VOption) (name : String) (arg : Arg) : VOption :=
  { options := self.options ++ [Pair.of_arg name arg] }

/-- A chain of `set` calls, `o->set( n1, a1 )->set( n2, a2 )->...`, in call
order. -/
def VOption.set_all (self : VOption) : List (String × Arg) → VOption
  | [] => self
  | c :: cs => VOption.set_all (self.set c.1 c.2) cs

/-- Modelled from the spec: a native operation object of the "operation
registry" (not part of the header): the declared type of each named property,
and its execution, which from the assigned inputs produces the output
properties or fails. -/
structure VipsOperation where
  property_type : String → Option GType
  build : List (String × GValue) → Option (List (String × GValue))

/-- Modelled from the spec: `void set_operation( VipsOperation *operation )` on
the pairs of the list (the body is not part of the header): "for every input
pair, translate the tagged value into the native property system's
representation and assign it to the named property"; an "unknown property
name" and a "type mismatch between declared value and the operation's declared
property type" are each "surfaced as an invocation error". The result lists
the assignments made, in the order made. -/
def VOption.set_operation (operation : VipsOperation) :
    List Pair → Except Failure (List (String × GValue))
  | [] => .ok []
  | p :: ps =>
    if p.input then
      match operation.property_type p.name with
      | none => .error Failure.VError
      | some t =>
        if p.value.g_type = some t then
          match VOption.set_operation operation ps with
          | .ok done => .ok ((p.name, p.value) :: done)
          | .error e => .error e
        else .error Failure.VError
    else VOption.set_operation operation ps

/-- Modelled from the spec: `void get_operation( VipsOperation *operation )` on
the pairs of the list (the body is not part of the header): "for every output
pair, read the resulting property back out of the operation and write it into
the caller's registered storage ... per the pair's recorded kind"; "a required
output not produced" is "surfaced as an invocation error". The result lists
the writes to caller storage, in the order made. -/
def VOption.get_operation (produced : List (String × GValue)) :
    List Pair → Except Failure (List (Ptr × GValue))
  | [] => .ok []
  | p :: ps =>
    if p.input then VOption.get_operation produced ps
    else
      match produced.lookup p.name with
      | none => .error Failure.VError
      | some v =>
        if v.g_type = p.value.g_type then
          match VOption.get_operation produced ps with
          | .ok done => .ok ((p.vimage, v) :: done)
          | .error e => .error e
        else .error Failure.VError

/-! ## Generic operation invocation -/

/-- Modelled from the spec: the native "operation registry providing
lookup-by-name" (not part of the header); an unknown name gives no operation. -/
structure Registry where
  vips_operation_new : String → Option VipsOperation

/-- What `call` does with the resources it holds: the operation object is
created by the lookup, executed, and released; the argument list is deleted
together with its pairs, given by name. -/
inductive CallEvent where
  | operation_new
  | build
  | operation_unref
  | options_delete (pairs : List String)
deriving DecidableEq, Repr

/-- Outcome of `call`: the writes made to caller storage or the error raised,
and the resource events in the order they happened. -/
structure CallResult where
  result : Except Failure (List (Ptr × GValue))
  events : List CallEvent

/-- The pairs of an optional argument list (`VOption *options = 0`). -/
def pairs_of (options : Option VOption) : List Pair :=
  match options with
  | none => []
  | some o => o.options

/-- The statement `delete options`: nothing for a null pointer, else the list
goes with all its pairs. -/
def delete_options (options : Option VOption) : List CallEvent :=
  match options with
  | none => []
  | some o => [CallEvent.options_delete (o.options.map Pair.name)]

/-- Modelled from the spec: `static void call( const char *operation_name,
VOption *options = 0 )` (declared in the header, body not part of it): "look up
the operation, apply all registered input arguments, execute it, apply all
registered output arguments back to caller storage, and release the operation.
On any lookup, build, or execution failure, propagate a descriptive error and
guarantee no resource leak"; "an argument list is consumed exactly once per
invocation and then discarded". -/
def VImage.call (registry : Registry) (operation_name : String) (options : Option VOption) :
    CallResult :=
  match registry.vips_operation_new operation_name with
  | none =>
    { result := .error Failure.VError, events := delete_options options }
  | some operation =>
    match VOption.set_operation operation (pairs_of options) with
    | .error _ =>
      { result := .error Failure.VError,
        events := [CallEvent.operation_new, CallEvent.operation_unref] ++
          delete_options options }
    | .ok inputs =>
      match operation.build inputs with
      | none =>
        { result := .error Failure.VError,
          events := [CallEvent.operation_new, CallEvent.build, CallEvent.operation_unref] ++
            delete_options options }
      | some produced =>
        match VOption.get_operation produced (pairs_of options) with
        | .error _ =>
          { result := .error Failure.VError,
            events := [CallEvent.operation_new, CallEvent.build, CallEvent.operation_unref] ++
              delete_options options }
        | .ok writes =>
          { result := .ok writes,
            events := [CallEvent.operation_new, CallEvent.build] ++ delete_options options ++
              [CallEvent.operation_unref] }

/-- Whether an event is the deletion of the argument list. -/
def CallEvent.is_delete : CallEvent → Bool
  | .options_delete _ => true
  | _ => false

/-- A native operation with one input `"in"` of type image, whose execution
produces the int output `"top"`. -/
def sampleOperation : VipsOperation :=
  { property_type := fun n => if n = "in" then some GType.image else none,
    build := fun _ => some [("top", GValue.int 3)] }

/-- A registry that knows one operation, `"find_top"`. -/
def sampleRegistry : Registry :=
  { vips_operation_new := fun n => if n = "find_top" then some sampleOperation else none }

/-! ## Generated members -/

/-- The C++ types that occur as return or parameter type in the declarations
of the automatically generated members; enumerations are kept by name. -/
inductive CType where
  | void
  | bool
  | int
  | double
  | const_char_ptr
  | VImage
  | VSource
  | VTarget
  | VipsBlob
  | vector_double
  | vector_int
  | vector_VImage
  | enum (name : String)
  | ptr (t : CType)
deriving DecidableEq, Repr

/-- One generated member declaration: its name, whether it is `static`, its
return type, and its parameters in order, without the trailing
`VOption *options = 0` that every generated member has. -/
structure Member where
  name : String
  is_static : Bool
  ret : CType
  params : List (CType × String)
deriving DecidableEq, Repr

/-- The pointer types through which an output is written: the parameter types
of the six pointer-taking `set` overloads of `VOption` (`bool *`, `int *`,
`double *`, `VImage *`, `std::vector<double> *`, `VipsBlob **`). A
`VipsBlob *` or `const char *` parameter is an input. -/
def CType.is_output_pointer : CType → Bool
  | .ptr .bool => true
  | .ptr .int => true
  | .ptr .double => true
  | .ptr .VImage => true
  | .ptr .vector_double => true
  | .ptr (.ptr .VipsBlob) => true
  | _ => false

/-- The parameters of a member through which an output is written. -/
def Member.output_pointers (m : Member) : List (CType × String) :=
  m.params.filter (fun p => p.1.is_output_pointer)

/-- The generated declarations from `CMC2LCh` to `avg`, in file order. -/
def generated_members_1 : List Member :=
  [
    ⟨"CMC2LCh", false, .VImage, []⟩,
    ⟨"CMYK2XYZ", false, .VImage, []⟩,
    ⟨"HSV2sRGB", false, .VImage, []⟩,
    ⟨"LCh2CMC", false, .VImage, []⟩,
    ⟨"LCh2Lab", false, .VImage, []⟩,
    ⟨"Lab2LCh", false, .VImage, []⟩,
    ⟨"Lab2LabQ", false, .VImage, []⟩,
    ⟨"Lab2LabS", false, .VImage, []⟩,
    ⟨"Lab2XYZ", false, .VImage, []⟩,
    ⟨"LabQ2Lab", false, .VImage, []⟩,
    ⟨"LabQ2LabS", false, .VImage, []⟩,
    ⟨"LabQ2sRGB", false, .VImage, []⟩,
    ⟨"LabS2Lab", false, .VImage, []⟩,
    ⟨"LabS2LabQ", false, .VImage, []⟩,
    ⟨"XYZ2CMYK", false, .VImage, []⟩,
    ⟨"XYZ2Lab", false, .VImage, []⟩,
    ⟨"XYZ2Yxy", false, .VImage, []⟩,
    ⟨"XYZ2scRGB", false, .VImage, []⟩,
    ⟨"Yxy2XYZ", false, .VImage, []⟩,
    ⟨"abs", false, .VImage, []⟩,
    ⟨"add", false, .VImage, [(.VImage, "right")]⟩,
    ⟨"affine", false, .VImage, [(.vector_double, "matrix")]⟩,
    ⟨"analyzeload", true, .VImage, [(.const_char_ptr, "filename")]⟩,
    ⟨"arrayjoin", true, .VImage, [(.vector_VImage, "in")]⟩,
    ⟨"autorot", false, .VImage, []⟩,
    ⟨"avg", false, .double, []⟩
  ]

/-- The generated declarations from `bandbool` to `conva`, in file order. -/
def generated_members_2 : List Member :=
  [
    ⟨"bandbool", false, .VImage, [(.enum "VipsOperationBoolean", "boolean")]⟩,
    ⟨"bandfold", false, .VImage, []⟩,
    ⟨"bandjoin", true, .VImage, [(.vector_VImage, "in")]⟩,
    ⟨"bandjoin_const", false, .VImage, [(.vector_double, "c")]⟩,
    ⟨"bandmean", false, .VImage, []⟩,
    ⟨"bandrank", true, .VImage, [(.vector_VImage, "in")]⟩,
    ⟨"bandunfold", false, .VImage, []⟩,
    ⟨"black", true, .VImage, [(.int, "width"), (.int, "height")]⟩,
    ⟨"boolean", false, .VImage, [(.VImage, "right"), (.enum "VipsOperationBoolean", "boolean")]⟩,
    ⟨"boolean_const", false, .VImage, [(.enum "VipsOperationBoolean", "boolean"),
      (.vector_double, "c")]⟩,
    ⟨"buildlut", false, .VImage, []⟩,
    ⟨"byteswap", false, .VImage, []⟩,
    ⟨"cache", false, .VImage, []⟩,
    ⟨"canny", false, .VImage, []⟩,
    ⟨"case_image", false, .VImage, [(.vector_VImage, "cases")]⟩,
    ⟨"cast", false, .VImage, [(.enum "VipsBandFormat", "format")]⟩,
    ⟨"colourspace", false, .VImage, [(.enum "VipsInterpretation", "space")]⟩,
    ⟨"compass", false, .VImage, [(.VImage, "mask")]⟩,
    ⟨"complex", false, .VImage, [(.enum "VipsOperationComplex", "cmplx")]⟩,
    ⟨"complex2", false, .VImage, [(.VImage, "right"), (.enum "VipsOperationComplex2", "cmplx")]⟩,
    ⟨"complexform", false, .VImage, [(.VImage, "right")]⟩,
    ⟨"complexget", false, .VImage, [(.enum "VipsOperationComplexget", "get")]⟩,
    ⟨"composite", true, .VImage, [(.vector_VImage, "in"), (.vector_int, "mode")]⟩,
    ⟨"composite2", false, .VImage, [(.VImage, "overlay"), (.enum "VipsBlendMode", "mode")]⟩,
    ⟨"conv", false, .VImage, [(.VImage, "mask")]⟩,
    ⟨"conva", false, .VImage, [(.VImage, "mask")]⟩
  ]

/-- The generated declarations from `convasep` to `embed`, in file order. -/
def generated_members_3 : List Member :=
  [
    ⟨"convasep", false, .VImage, [(.VImage, "mask")]⟩,
    ⟨"convf", false, .VImage, [(.VImage, "mask")]⟩,
    ⟨"convi", false, .VImage, [(.VImage, "mask")]⟩,
    ⟨"convsep", false, .VImage, [(.VImage, "mask")]⟩,
    ⟨"copy", false, .VImage, []⟩,
    ⟨"countlines", false, .double, [(.enum "VipsDirection", "direction")]⟩,
    ⟨"crop", false, .VImage, [(.int, "left"), (.int, "top"), (.int, "width"), (.int, "height")]⟩,
    ⟨"csvload", true, .VImage, [(.const_char_ptr, "filename")]⟩,
    ⟨"csvload_source", true, .VImage, [(.VSource, "source")]⟩,
    ⟨"csvsave", false, .void, [(.const_char_ptr, "filename")]⟩,
    ⟨"csvsave_target", false, .void, [(.VTarget, "target")]⟩,
    ⟨"dE00", false, .VImage, [(.VImage, "right")]⟩,
    ⟨"dE76", false, .VImage, [(.VImage, "right")]⟩,
    ⟨"dECMC", false, .VImage, [(.VImage, "right")]⟩,
    ⟨"deviate", false, .double, []⟩,
    ⟨"divide", false, .VImage, [(.VImage, "right")]⟩,
    ⟨"draw_circle", false, .void, [(.vector_double, "ink"), (.int, "cx"), (.int, "cy"),
      (.int, "radius")]⟩,
    ⟨"draw_flood", false, .void, [(.vector_double, "ink"), (.int, "x"), (.int, "y")]⟩,
    ⟨"draw_image", false, .void, [(.VImage, "sub"), (.int, "x"), (.int, "y")]⟩,
    ⟨"draw_line", false, .void, [(.vector_double, "ink"), (.int, "x1"), (.int, "y1"),
      (.int, "x2"), (.int, "y2")]⟩,
    ⟨"draw_mask", false, .void, [(.vector_double, "ink"), (.VImage, "mask"), (.int, "x"),
      (.int, "y")]⟩,
    ⟨"draw_rect", false, .void, [(.vector_double, "ink"), (.int, "left"), (.int, "top"),
      (.int, "width"), (.int, "height")]⟩,
    ⟨"draw_smudge", false, .void, [(.int, "left"), (.int, "top"), (.int, "width"),
      (.int, "height")]⟩,
    ⟨"dzsave", false, .void, [(.const_char_ptr, "filename")]⟩,
    ⟨"dzsave_buffer", false, .ptr .VipsBlob, []⟩,
    ⟨"embed", false, .VImage, [(.int, "x"), (.int, "y"), (.int, "width"), (.int, "height")]⟩
  ]

/-- The generated declarations from `extract_area` to `grey`, in file order. -/
def generated_members_4 : List Member :=
  [
    ⟨"extract_area", false, .VImage, [(.int, "left"), (.int, "top"), (.int, "width"),
      (.int, "height")]⟩,
    ⟨"extract_band", false, .VImage, [(.int, "band")]⟩,
    ⟨"eye", true, .VImage, [(.int, "width"), (.int, "height")]⟩,
    ⟨"falsecolour", false, .VImage, []⟩,
    ⟨"fastcor", false, .VImage, [(.VImage, "ref")]⟩,
    ⟨"fill_nearest", false, .VImage, []⟩,
    ⟨"find_trim", false, .int, [(.ptr .int, "top"), (.ptr .int, "width"), (.ptr .int, "height")]⟩,
    ⟨"fitsload", true, .VImage, [(.const_char_ptr, "filename")]⟩,
    ⟨"fitssave", false, .void, [(.const_char_ptr, "filename")]⟩,
    ⟨"flatten", false, .VImage, []⟩,
    ⟨"flip", false, .VImage, [(.enum "VipsDirection", "direction")]⟩,
    ⟨"float2rad", false, .VImage, []⟩,
    ⟨"fractsurf", true, .VImage, [(.int, "width"), (.int, "height"),
      (.double, "fractal_dimension")]⟩,
    ⟨"freqmult", false, .VImage, [(.VImage, "mask")]⟩,
    ⟨"fwfft", false, .VImage, []⟩,
    ⟨"gamma", false, .VImage, []⟩,
    ⟨"gaussblur", false, .VImage, [(.double, "sigma")]⟩,
    ⟨"gaussmat", true, .VImage, [(.double, "sigma"), (.double, "min_ampl")]⟩,
    ⟨"gaussnoise", true, .VImage, [(.int, "width"), (.int, "height")]⟩,
    ⟨"getpoint", false, .vector_double, [(.int, "x"), (.int, "y")]⟩,
    ⟨"gifload", true, .VImage, [(.const_char_ptr, "filename")]⟩,
    ⟨"gifload_buffer", true, .VImage, [(.ptr .VipsBlob, "buffer")]⟩,
    ⟨"gifload_source", true, .VImage, [(.VSource, "source")]⟩,
    ⟨"globalbalance", false, .VImage, []⟩,
    ⟨"gravity", false, .VImage, [(.enum "VipsCompassDirection", "direction"), (.int, "width"),
      (.int, "height")]⟩,
    ⟨"grey", true, .VImage, [(.int, "width"), (.int, "height")]⟩
  ]

/-- The generated declarations from `grid` to `insert`, in file order. -/
def generated_members_5 : List Member :=
  [
    ⟨"grid", false, .VImage, [(.int, "tile_height"), (.int, "across"), (.int, "down")]⟩,
    ⟨"heifload", true, .VImage, [(.const_char_ptr, "filename")]⟩,
    ⟨"heifload_buffer", true, .VImage, [(.ptr .VipsBlob, "buffer")]⟩,
    ⟨"heifload_source", true, .VImage, [(.VSource, "source")]⟩,
    ⟨"heifsave", false, .void, [(.const_char_ptr, "filename")]⟩,
    ⟨"heifsave_buffer", false, .ptr .VipsBlob, []⟩,
    ⟨"heifsave_target", false, .void, [(.VTarget, "target")]⟩,
    ⟨"hist_cum", false, .VImage, []⟩,
    ⟨"hist_entropy", false, .double, []⟩,
    ⟨"hist_equal", false, .VImage, []⟩,
    ⟨"hist_find", false, .VImage, []⟩,
    ⟨"hist_find_indexed", false, .VImage, [(.VImage, "index")]⟩,
    ⟨"hist_find_ndim", false, .VImage, []⟩,
    ⟨"hist_ismonotonic", false, .bool, []⟩,
    ⟨"hist_local", false, .VImage, [(.int, "width"), (.int, "height")]⟩,
    ⟨"hist_match", false, .VImage, [(.VImage, "ref")]⟩,
    ⟨"hist_norm", false, .VImage, []⟩,
    ⟨"hist_plot", false, .VImage, []⟩,
    ⟨"hough_circle", false, .VImage, []⟩,
    ⟨"hough_line", false, .VImage, []⟩,
    ⟨"icc_export", false, .VImage, []⟩,
    ⟨"icc_import", false, .VImage, []⟩,
    ⟨"icc_transform", false, .VImage, [(.const_char_ptr, "output_profile")]⟩,
    ⟨"identity", true, .VImage, []⟩,
    ⟨"ifthenelse", false, .VImage, [(.VImage, "in1"), (.VImage, "in2")]⟩,
    ⟨"insert", false, .VImage, [(.VImage, "sub"), (.int, "x"), (.int, "y")]⟩
  ]

/-- The generated declarations from `invert` to `mask_gaussian`, in file order. -/
def generated_members_6 : List Member :=
  [
    ⟨"invert", false, .VImage, []⟩,
    ⟨"invertlut", false, .VImage, []⟩,
    ⟨"invfft", false, .VImage, []⟩,
    ⟨"join", false, .VImage, [(.VImage, "in2"), (.enum "VipsDirection", "direction")]⟩,
    ⟨"jpegload", true, .VImage, [(.const_char_ptr, "filename")]⟩,
    ⟨"jpegload_buffer", true, .VImage, [(.ptr .VipsBlob, "buffer")]⟩,
    ⟨"jpegload_source", true, .VImage, [(.VSource, "source")]⟩,
    ⟨"jpegsave", false, .void, [(.const_char_ptr, "filename")]⟩,
    ⟨"jpegsave_buffer", false, .ptr .VipsBlob, []⟩,
    ⟨"jpegsave_mime", false, .void, []⟩,
    ⟨"jpegsave_target", false, .void, [(.VTarget, "target")]⟩,
    ⟨"labelregions", false, .VImage, []⟩,
    ⟨"linear", false, .VImage, [(.vector_double, "a"), (.vector_double, "b")]⟩,
    ⟨"linecache", false, .VImage, []⟩,
    ⟨"logmat", true, .VImage, [(.double, "sigma"), (.double, "min_ampl")]⟩,
    ⟨"magickload", true, .VImage, [(.const_char_ptr, "filename")]⟩,
    ⟨"magickload_buffer", true, .VImage, [(.ptr .VipsBlob, "buffer")]⟩,
    ⟨"magicksave", false, .void, [(.const_char_ptr, "filename")]⟩,
    ⟨"magicksave_buffer", false, .ptr .VipsBlob, []⟩,
    ⟨"mapim", false, .VImage, [(.VImage, "index")]⟩,
    ⟨"maplut", false, .VImage, [(.VImage, "lut")]⟩,
    ⟨"mask_butterworth", true, .VImage, [(.int, "width"), (.int, "height"), (.double, "order"),
      (.double, "frequency_cutoff"), (.double, "amplitude_cutoff")]⟩,
    ⟨"mask_butterworth_band", true, .VImage, [(.int, "width"), (.int, "height"),
      (.double, "order"), (.double, "frequency_cutoff_x"), (.double, "frequency_cutoff_y"),
      (.double, "radius"), (.double, "amplitude_cutoff")]⟩,
    ⟨"mask_butterworth_ring", true, .VImage, [(.int, "width"), (.int, "height"),
      (.double, "order"), (.double, "frequency_cutoff"), (.double, "amplitude_cutoff"),
      (.double, "ringwidth")]⟩,
    ⟨"mask_fractal", true, .VImage, [(.int, "width"), (.int, "height"),
      (.double, "fractal_dimension")]⟩,
    ⟨"mask_gaussian", true, .VImage, [(.int, "width"), (.int, "height"),
      (.double, "frequency_cutoff"), (.double, "amplitude_cutoff")]⟩
  ]

/-- The generated declarations from `mask_gaussian_band` to `niftiload`, in file order. -/
def generated_members_7 : List Member :=
  [
    ⟨"mask_gaussian_band", true, .VImage, [(.int, "width"), (.int, "height"),
      (.double, "frequency_cutoff_x"), (.double, "frequency_cutoff_y"), (.double, "radius"),
      (.double, "amplitude_cutoff")]⟩,
    ⟨"mask_gaussian_ring", true, .VImage, [(.int, "width"), (.int, "height"),
      (.double, "frequency_cutoff"), (.double, "amplitude_cutoff"), (.double, "ringwidth")]⟩,
    ⟨"mask_ideal", true, .VImage, [(.int, "width"), (.int, "height"),
      (.double, "frequency_cutoff")]⟩,
    ⟨"mask_ideal_band", true, .VImage, [(.int, "width"), (.int, "height"),
      (.double, "frequency_cutoff_x"), (.double, "frequency_cutoff_y"), (.double, "radius")]⟩,
    ⟨"mask_ideal_ring", true, .VImage, [(.int, "width"), (.int, "height"),
      (.double, "frequency_cutoff"), (.double, "ringwidth")]⟩,
    ⟨"match", false, .VImage, [(.VImage, "sec"), (.int, "xr1"), (.int, "yr1"), (.int, "xs1"),
      (.int, "ys1"), (.int, "xr2"), (.int, "yr2"), (.int, "xs2"), (.int, "ys2")]⟩,
    ⟨"math", false, .VImage, [(.enum "VipsOperationMath", "math")]⟩,
    ⟨"math2", false, .VImage, [(.VImage, "right"), (.enum "VipsOperationMath2", "math2")]⟩,
    ⟨"math2_const", false, .VImage, [(.enum "VipsOperationMath2", "math2"), (.vector_double, "c")]⟩,
    ⟨"matload", true, .VImage, [(.const_char_ptr, "filename")]⟩,
    ⟨"matrixinvert", false, .VImage, []⟩,
    ⟨"matrixload", true, .VImage, [(.const_char_ptr, "filename")]⟩,
    ⟨"matrixload_source", true, .VImage, [(.VSource, "source")]⟩,
    ⟨"matrixprint", false, .void, []⟩,
    ⟨"matrixsave", false, .void, [(.const_char_ptr, "filename")]⟩,
    ⟨"matrixsave_target", false, .void, [(.VTarget, "target")]⟩,
    ⟨"max", false, .double, []⟩,
    ⟨"measure", false, .VImage, [(.int, "h"), (.int, "v")]⟩,
    ⟨"merge", false, .VImage, [(.VImage, "sec"), (.enum "VipsDirection", "direction"),
      (.int, "dx"), (.int, "dy")]⟩,
    ⟨"min", false, .double, []⟩,
    ⟨"morph", false, .VImage, [(.VImage, "mask"), (.enum "VipsOperationMorphology", "morph")]⟩,
    ⟨"mosaic", false, .VImage, [(.VImage, "sec"), (.enum "VipsDirection", "direction"),
      (.int, "xref"), (.int, "yref"), (.int, "xsec"), (.int, "ysec")]⟩,
    ⟨"mosaic1", false, .VImage, [(.VImage, "sec"), (.enum "VipsDirection", "direction"),
      (.int, "xr1"), (.int, "yr1"), (.int, "xs1"), (.int, "ys1"), (.int, "xr2"), (.int, "yr2"),
      (.int, "xs2"), (.int, "ys2")]⟩,
    ⟨"msb", false, .VImage, []⟩,
    ⟨"multiply", false, .VImage, [(.VImage, "right")]⟩,
    ⟨"niftiload", true, .VImage, [(.const_char_ptr, "filename")]⟩
  ]

/-- The generated declarations from `niftisave` to `radload`, in file order. -/
def generated_members_8 : List Member :=
  [
    ⟨"niftisave", false, .void, [(.const_char_ptr, "filename")]⟩,
    ⟨"openexrload", true, .VImage, [(.const_char_ptr, "filename")]⟩,
    ⟨"openslideload", true, .VImage, [(.const_char_ptr, "filename")]⟩,
    ⟨"pdfload", true, .VImage, [(.const_char_ptr, "filename")]⟩,
    ⟨"pdfload_buffer", true, .VImage, [(.ptr .VipsBlob, "buffer")]⟩,
    ⟨"pdfload_source", true, .VImage, [(.VSource, "source")]⟩,
    ⟨"percent", false, .int, [(.double, "percent")]⟩,
    ⟨"perlin", true, .VImage, [(.int, "width"), (.int, "height")]⟩,
    ⟨"phasecor", false, .VImage, [(.VImage, "in2")]⟩,
    ⟨"pngload", true, .VImage, [(.const_char_ptr, "filename")]⟩,
    ⟨"pngload_buffer", true, .VImage, [(.ptr .VipsBlob, "buffer")]⟩,
    ⟨"pngload_source", true, .VImage, [(.VSource, "source")]⟩,
    ⟨"pngsave", false, .void, [(.const_char_ptr, "filename")]⟩,
    ⟨"pngsave_buffer", false, .ptr .VipsBlob, []⟩,
    ⟨"pngsave_target", false, .void, [(.VTarget, "target")]⟩,
    ⟨"ppmload", true, .VImage, [(.const_char_ptr, "filename")]⟩,
    ⟨"ppmload_source", true, .VImage, [(.VSource, "source")]⟩,
    ⟨"ppmsave", false, .void, [(.const_char_ptr, "filename")]⟩,
    ⟨"ppmsave_target", false, .void, [(.VTarget, "target")]⟩,
    ⟨"premultiply", false, .VImage, []⟩,
    ⟨"profile", false, .VImage, [(.ptr .VImage, "rows")]⟩,
    ⟨"profile_load", true, .ptr .VipsBlob, [(.const_char_ptr, "name")]⟩,
    ⟨"project", false, .VImage, [(.ptr .VImage, "rows")]⟩,
    ⟨"quadratic", false, .VImage, [(.VImage, "coeff")]⟩,
    ⟨"rad2float", false, .VImage, []⟩,
    ⟨"radload", true, .VImage, [(.const_char_ptr, "filename")]⟩
  ]

/-- The generated declarations from `radload_buffer` to `scRGB2BW`, in file order. -/
def generated_members_9 : List Member :=
  [
    ⟨"radload_buffer", true, .VImage, [(.ptr .VipsBlob, "buffer")]⟩,
    ⟨"radload_source", true, .VImage, [(.VSource, "source")]⟩,
    ⟨"radsave", false, .void, [(.const_char_ptr, "filename")]⟩,
    ⟨"radsave_buffer", false, .ptr .VipsBlob, []⟩,
    ⟨"radsave_target", false, .void, [(.VTarget, "target")]⟩,
    ⟨"rank", false, .VImage, [(.int, "width"), (.int, "height"), (.int, "index")]⟩,
    ⟨"rawload", true, .VImage, [(.const_char_ptr, "filename"), (.int, "width"), (.int, "height"),
      (.int, "bands")]⟩,
    ⟨"rawsave", false, .void, [(.const_char_ptr, "filename")]⟩,
    ⟨"rawsave_fd", false, .void, [(.int, "fd")]⟩,
    ⟨"recomb", false, .VImage, [(.VImage, "m")]⟩,
    ⟨"reduce", false, .VImage, [(.double, "hshrink"), (.double, "vshrink")]⟩,
    ⟨"reduceh", false, .VImage, [(.double, "hshrink")]⟩,
    ⟨"reducev", false, .VImage, [(.double, "vshrink")]⟩,
    ⟨"relational", false, .VImage, [(.VImage, "right"),
      (.enum "VipsOperationRelational", "relational")]⟩,
    ⟨"relational_const", false, .VImage, [(.enum "VipsOperationRelational", "relational"),
      (.vector_double, "c")]⟩,
    ⟨"remainder", false, .VImage, [(.VImage, "right")]⟩,
    ⟨"remainder_const", false, .VImage, [(.vector_double, "c")]⟩,
    ⟨"replicate", false, .VImage, [(.int, "across"), (.int, "down")]⟩,
    ⟨"resize", false, .VImage, [(.double, "scale")]⟩,
    ⟨"rot", false, .VImage, [(.enum "VipsAngle", "angle")]⟩,
    ⟨"rot45", false, .VImage, []⟩,
    ⟨"rotate", false, .VImage, [(.double, "angle")]⟩,
    ⟨"round", false, .VImage, [(.enum "VipsOperationRound", "round")]⟩,
    ⟨"sRGB2HSV", false, .VImage, []⟩,
    ⟨"sRGB2scRGB", false, .VImage, []⟩,
    ⟨"scRGB2BW", false, .VImage, []⟩
  ]

/-- The generated declarations from `scRGB2XYZ` to `text`, in file order. -/
def generated_members_10 : List Member :=
  [
    ⟨"scRGB2XYZ", false, .VImage, []⟩,
    ⟨"scRGB2sRGB", false, .VImage, []⟩,
    ⟨"scale", false, .VImage, []⟩,
    ⟨"sequential", false, .VImage, []⟩,
    ⟨"sharpen", false, .VImage, []⟩,
    ⟨"shrink", false, .VImage, [(.double, "hshrink"), (.double, "vshrink")]⟩,
    ⟨"shrinkh", false, .VImage, [(.int, "hshrink")]⟩,
    ⟨"shrinkv", false, .VImage, [(.int, "vshrink")]⟩,
    ⟨"sign", false, .VImage, []⟩,
    ⟨"similarity", false, .VImage, []⟩,
    ⟨"sines", true, .VImage, [(.int, "width"), (.int, "height")]⟩,
    ⟨"smartcrop", false, .VImage, [(.int, "width"), (.int, "height")]⟩,
    ⟨"sobel", false, .VImage, []⟩,
    ⟨"spcor", false, .VImage, [(.VImage, "ref")]⟩,
    ⟨"spectrum", false, .VImage, []⟩,
    ⟨"stats", false, .VImage, []⟩,
    ⟨"stdif", false, .VImage, [(.int, "width"), (.int, "height")]⟩,
    ⟨"subsample", false, .VImage, [(.int, "xfac"), (.int, "yfac")]⟩,
    ⟨"subtract", false, .VImage, [(.VImage, "right")]⟩,
    ⟨"sum", true, .VImage, [(.vector_VImage, "in")]⟩,
    ⟨"svgload", true, .VImage, [(.const_char_ptr, "filename")]⟩,
    ⟨"svgload_buffer", true, .VImage, [(.ptr .VipsBlob, "buffer")]⟩,
    ⟨"svgload_source", true, .VImage, [(.VSource, "source")]⟩,
    ⟨"switch_image", true, .VImage, [(.vector_VImage, "tests")]⟩,
    ⟨"system", true, .void, [(.const_char_ptr, "cmd_format")]⟩,
    ⟨"text", true, .VImage, [(.const_char_ptr, "text")]⟩
  ]

/-- The generated declarations from `thumbnail` to `zoom`, in file order. -/
def generated_members_11 : List Member :=
  [
    ⟨"thumbnail", true, .VImage, [(.const_char_ptr, "filename"), (.int, "width")]⟩,
    ⟨"thumbnail_buffer", true, .VImage, [(.ptr .VipsBlob, "buffer"), (.int, "width")]⟩,
    ⟨"thumbnail_image", false, .VImage, [(.int, "width")]⟩,
    ⟨"thumbnail_source", true, .VImage, [(.VSource, "source"), (.int, "width")]⟩,
    ⟨"tiffload", true, .VImage, [(.const_char_ptr, "filename")]⟩,
    ⟨"tiffload_buffer", true, .VImage, [(.ptr .VipsBlob, "buffer")]⟩,
    ⟨"tiffload_source", true, .VImage, [(.VSource, "source")]⟩,
    ⟨"tiffsave", false, .void, [(.const_char_ptr, "filename")]⟩,
    ⟨"tiffsave_buffer", false, .ptr .VipsBlob, []⟩,
    ⟨"tilecache", false, .VImage, []⟩,
    ⟨"tonelut", true, .VImage, []⟩,
    ⟨"transpose3d", false, .VImage, []⟩,
    ⟨"unpremultiply", false, .VImage, []⟩,
    ⟨"vipsload", true, .VImage, [(.const_char_ptr, "filename")]⟩,
    ⟨"vipssave", false, .void, [(.const_char_ptr, "filename")]⟩,
    ⟨"webpload", true, .VImage, [(.const_char_ptr, "filename")]⟩,
    ⟨"webpload_buffer", true, .VImage, [(.ptr .VipsBlob, "buffer")]⟩,
    ⟨"webpload_source", true, .VImage, [(.VSource, "source")]⟩,
    ⟨"webpsave", false, .void, [(.const_char_ptr, "filename")]⟩,
    ⟨"webpsave_buffer", false, .ptr .VipsBlob, []⟩,
    ⟨"webpsave_target", false, .void, [(.VTarget, "target")]⟩,
    ⟨"worley", true, .VImage, [(.int, "width"), (.int, "height")]⟩,
    ⟨"wrap", false, .VImage, []⟩,
    ⟨"xyz", true, .VImage, [(.int, "width"), (.int, "height")]⟩,
    ⟨"zone", true, .VImage, [(.int, "width"), (.int, "height")]⟩,
    ⟨"zoom", false, .VImage, [(.int, "xfac"), (.int, "yfac")]⟩
  ]

/-- The declarations below the line `// headers for vips operations` of the
header, in file order. -/
def generated_members : List Member :=
  generated_members_1 ++ generated_members_2 ++ generated_members_3 ++
  generated_members_4 ++ generated_members_5 ++ generated_members_6 ++
  generated_members_7 ++ generated_members_8 ++ generated_members_9 ++
  generated_members_10 ++ generated_members_11

/-! ## Hand-written convenience members -/

/-- The enumerators of `VipsDirection` that the header names; the enumeration itself is
declared by the native headers. -/
inductive VipsDirection where
  | VIPS_DIRECTION_HORIZONTAL
  | VIPS_DIRECTION_VERTICAL
deriving DecidableEq, Repr

/-- The enumerators of `VipsAngle` that the header names; the enumeration itself is
declared by the native headers. -/
inductive VipsAngle where
  | VIPS_ANGLE_D90
  | VIPS_ANGLE_D180
  | VIPS_ANGLE_D270
deriving DecidableEq, Repr

/-- The enumerators of `VipsOperationMorphology` that the header names; the enumeration itself is
declared by the native headers. -/
inductive VipsOperationMorphology where
  | VIPS_OPERATION_MORPHOLOGY_DILATE
  | VIPS_OPERATION_MORPHOLOGY_ERODE
deriving DecidableEq, Repr

/-- The enumerators of `VipsOperationRound` that the header names; the enumeration itself is
declared by the native headers. -/
inductive VipsOperationRound where
  | VIPS_OPERATION_ROUND_FLOOR
  | VIPS_OPERATION_ROUND_CEIL
  | VIPS_OPERATION_ROUND_RINT
deriving DecidableEq, Repr

/-- The enumerators of `VipsOperationBoolean` that the header names; the enumeration itself is
declared by the native headers. -/
inductive VipsOperationBoolean where
  | VIPS_OPERATION_BOOLEAN_AND
  | VIPS_OPERATION_BOOLEAN_OR
  | VIPS_OPERATION_BOOLEAN_EOR
deriving DecidableEq, Repr

/-- The enumerators of `VipsOperationComplexget` that the header names; the enumeration itself is
declared by the native headers. -/
inductive VipsOperationComplexget where
  | VIPS_OPERATION_COMPLEXGET_REAL
  | VIPS_OPERATION_COMPLEXGET_IMAG
deriving DecidableEq, Repr

/-- The enumerators of `VipsOperationComplex` that the header names; the enumeration itself is
declared by the native headers. -/
inductive VipsOperationComplex where
  | VIPS_OPERATION_COMPLEX_POLAR
  | VIPS_OPERATION_COMPLEX_RECT
  | VIPS_OPERATION_COMPLEX_CONJ
deriving DecidableEq, Repr

/-- The enumerators of `VipsOperationMath` that the header names; the enumeration itself is
declared by the native headers. -/
inductive VipsOperationMath where
  | VIPS_OPERATION_MATH_SIN
  | VIPS_OPERATION_MATH_COS
  | VIPS_OPERATION_MATH_TAN
  | VIPS_OPERATION_MATH_ASIN
  | VIPS_OPERATION_MATH_ACOS
  | VIPS_OPERATION_MATH_ATAN
  | VIPS_OPERATION_MATH_LOG
  | VIPS_OPERATION_MATH_LOG10
  | VIPS_OPERATION_MATH_EXP
  | VIPS_OPERATION_MATH_EXP10
deriving DecidableEq, Repr

/-- The enumerators of `VipsOperationMath2` that the header names; the enumeration itself is
declared by the native headers. -/
inductive VipsOperationMath2 where
  | VIPS_OPERATION_MATH2_POW
  | VIPS_OPERATION_MATH2_WOP
deriving DecidableEq, Repr

/-- An argument handed to a generated member. -/
inductive CallArg where
  | direction (v : VipsDirection)
  | angle (v : VipsAngle)
  | morphology (v : VipsOperationMorphology)
  | round (v : VipsOperationRound)
  | boolean (v : VipsOperationBoolean)
  | complexget (v : VipsOperationComplexget)
  | complex (v : VipsOperationComplex)
  | math (v : VipsOperationMath)
  | math2 (v : VipsOperationMath2)
  | int (v : Int)
  | image (v : VImage)
  | doubles (v : List Double)
deriving DecidableEq, Repr

/-- A call of a generated member: the header only declares the generated
members, so a call of one is kept as its name, the image it is called on, its
arguments in order, and the `VOption *options` argument (none for `0`). -/
structure MemberCall where
  member : String
  self : VImage
  args : List CallArg
  options : Option VOption
deriving DecidableEq, Repr

/-- The generated member `VImage flip( VipsDirection direction, VOption
*options = 0 ) const`. -/
def VImage.flip (self : VImage) (direction : VipsDirection) (options : Option VOption) :
    MemberCall :=
  { member := "flip", self := self, args := [CallArg.direction direction], options := options }

/-- The generated member `VImage rot( VipsAngle angle, VOption *options = 0 )
const`. -/
def VImage.rot (self : VImage) (angle : VipsAngle) (options : Option VOption) :
    MemberCall :=
  { member := "rot", self := self, args := [CallArg.angle angle], options := options }

/-- The generated member `VImage morph( VImage mask, VipsOperationMorphology
morph, VOption *options = 0 ) const`. -/
def VImage.morph (self : VImage) (mask : VImage) (morph : VipsOperationMorphology) (options : Option VOption) :
    MemberCall :=
  { member := "morph", self := self, args := [CallArg.image mask, CallArg.morphology morph], options := options }

/-- The generated member `VImage rank( int width, int height, int index,
VOption *options = 0 ) const`. -/
def VImage.rank (self : VImage) (width height index : Int) (options : Option VOption) :
    MemberCall :=
  { member := "rank", self := self, args := [CallArg.int width, CallArg.int height, CallArg.int index], options := options }

/-- The generated member `VImage round( VipsOperationRound round, VOption
*options = 0 ) const`. -/
def VImage.round (self : VImage) (round : VipsOperationRound) (options : Option VOption) :
    MemberCall :=
  { member := "round", self := self, args := [CallArg.round round], options := options }

/-- The generated member `VImage bandbool( VipsOperationBoolean boolean,
VOption *options = 0 ) const`. -/
def VImage.bandbool (self : VImage) (boolean : VipsOperationBoolean) (options : Option VOption) :
    MemberCall :=
  { member := "bandbool", self := self, args := [CallArg.boolean boolean], options := options }

/-- The generated member `VImage complexget( VipsOperationComplexget get,
VOption *options = 0 ) const`. -/
def VImage.complexget (self : VImage) (get : VipsOperationComplexget) (options : Option VOption) :
    MemberCall :=
  { member := "complexget", self := self, args := [CallArg.complexget get], options := options }

/-- The generated member `VImage complex( VipsOperationComplex cmplx, VOption
*options = 0 ) const`. -/
def VImage.complex (self : VImage) (cmplx : VipsOperationComplex) (options : Option VOption) :
    MemberCall :=
  { member := "complex", self := self, args := [CallArg.complex cmplx], options := options }

/-- The generated member `VImage math( VipsOperationMath math, VOption *options
= 0 ) const`. -/
def VImage.math (self : VImage) (math : VipsOperationMath) (options : Option VOption) :
    MemberCall :=
  { member := "math", self := self, args := [CallArg.math math], options := options }

/-- The generated member `VImage math2( VImage right, VipsOperationMath2 math2,
VOption *options = 0 ) const`. -/
def VImage.math2 (self : VImage) (right : VImage) (math2 : VipsOperationMath2) (options : Option VOption) :
    MemberCall :=
  { member := "math2", self := self, args := [CallArg.image right, CallArg.math2 math2], options := options }

/-- The generated member `VImage math2_const( VipsOperationMath2 math2,
std::vector<double> c, VOption *options = 0 ) const`. -/
def VImage.math2_const (self : VImage) (math2 : VipsOperationMath2) (c : List Double) (options : Option VOption) :
    MemberCall :=
  { member := "math2_const", self := self, args := [CallArg.math2 math2, CallArg.doubles c], options := options }

/-- The generated member `VImage linear( std::vector<double> a,
std::vector<double> b, VOption *options = 0 ) const`. -/
def VImage.linear (self : VImage) (a b : List Double) (options : Option VOption) :
    MemberCall :=
  { member := "linear", self := self, args := [CallArg.doubles a, CallArg.doubles b], options := options }

/-- The generated member `VImage bandjoin_const( std::vector<double> c, VOption
*options = 0 ) const`. -/
def VImage.bandjoin_const (self : VImage) (c : List Double) (options : Option VOption) :
    MemberCall :=
  { member := "bandjoin_const", self := self, args := [CallArg.doubles c], options := options }

/-- The generated member `VImage ifthenelse( VImage in1, VImage in2, VOption
*options = 0 ) const`. -/
def VImage.ifthenelse (self : VImage) (in1 in2 : VImage) (options : Option VOption) :
    MemberCall :=
  { member := "ifthenelse", self := self, args := [CallArg.image in1, CallArg.image in2], options := options }

/-- The member `VImage fliphor( VOption *options = 0 ) const`:
`return( flip( VIPS_DIRECTION_HORIZONTAL, options ) )`. -/
def VImage.fliphor (self : VImage) (options : Option VOption) : MemberCall :=
  self.flip VipsDirection.VIPS_DIRECTION_HORIZONTAL options

/-- The member `VImage flipver( VOption *options = 0 ) const`:
`return( flip( VIPS_DIRECTION_VERTICAL, options ) )`. -/
def VImage.flipver (self : VImage) (options : Option VOption) : MemberCall :=
  self.flip VipsDirection.VIPS_DIRECTION_VERTICAL options

/-- The member `VImage rot90( VOption *options = 0 ) const`:
`return( rot( VIPS_ANGLE_D90, options ) )`. -/
def VImage.rot90 (self : VImage) (options : Option VOption) : MemberCall :=
  self.rot VipsAngle.VIPS_ANGLE_D90 options

/-- The member `VImage rot180( VOption *options = 0 ) const`:
`return( rot( VIPS_ANGLE_D180, options ) )`. -/
def VImage.rot180 (self : VImage) (options : Option VOption) : MemberCall :=
  self.rot VipsAngle.VIPS_ANGLE_D180 options

/-- The member `VImage rot270( VOption *options = 0 ) const`:
`return( rot( VIPS_ANGLE_D270, options ) )`. -/
def VImage.rot270 (self : VImage) (options : Option VOption) : MemberCall :=
  self.rot VipsAngle.VIPS_ANGLE_D270 options

/-- The member `VImage floor( VOption *options = 0 ) const`:
`return( round( VIPS_OPERATION_ROUND_FLOOR, options ) )`. -/
def VImage.floor (self : VImage) (options : Option VOption) : MemberCall :=
  self.round VipsOperationRound.VIPS_OPERATION_ROUND_FLOOR options

/-- The member `VImage ceil( VOption *options = 0 ) const`:
`return( round( VIPS_OPERATION_ROUND_CEIL, options ) )`. -/
def VImage.ceil (self : VImage) (options : Option VOption) : MemberCall :=
  self.round VipsOperationRound.VIPS_OPERATION_ROUND_CEIL options

/-- The member `VImage rint( VOption *options = 0 ) const`:
`return( round( VIPS_OPERATION_ROUND_RINT, options ) )`. -/
def VImage.rint (self : VImage) (options : Option VOption) : MemberCall :=
  self.round VipsOperationRound.VIPS_OPERATION_ROUND_RINT options

/-- The member `VImage bandand( VOption *options = 0 ) const`:
`return( bandbool( VIPS_OPERATION_BOOLEAN_AND, options ) )`. -/
def VImage.bandand (self : VImage) (options : Option VOption) : MemberCall :=
  self.bandbool VipsOperationBoolean.VIPS_OPERATION_BOOLEAN_AND options

/-- The member `VImage bandor( VOption *options = 0 ) const`:
`return( bandbool( VIPS_OPERATION_BOOLEAN_OR, options ) )`. -/
def VImage.bandor (self : VImage) (options : Option VOption) : MemberCall :=
  self.bandbool VipsOperationBoolean.VIPS_OPERATION_BOOLEAN_OR options

/-- The member `VImage bandeor( VOption *options = 0 ) const`:
`return( bandbool( VIPS_OPERATION_BOOLEAN_EOR, options ) )`. -/
def VImage.bandeor (self : VImage) (options : Option VOption) : MemberCall :=
  self.bandbool VipsOperationBoolean.VIPS_OPERATION_BOOLEAN_EOR options

/-- The member `VImage real( VOption *options = 0 ) const`:
`return( complexget( VIPS_OPERATION_COMPLEXGET_REAL, options ) )`. -/
def VImage.real (self : VImage) (options : Option VOption) : MemberCall :=
  self.complexget VipsOperationComplexget.VIPS_OPERATION_COMPLEXGET_REAL options

/-- The member `VImage imag( VOption *options = 0 ) const`:
`return( complexget( VIPS_OPERATION_COMPLEXGET_IMAG, options ) )`. -/
def VImage.imag (self : VImage) (options : Option VOption) : MemberCall :=
  self.complexget VipsOperationComplexget.VIPS_OPERATION_COMPLEXGET_IMAG options

/-- The member `VImage polar( VOption *options = 0 ) const`:
`return( complex( VIPS_OPERATION_COMPLEX_POLAR, options ) )`. -/
def VImage.polar (self : VImage) (options : Option VOption) : MemberCall :=
  self.complex VipsOperationComplex.VIPS_OPERATION_COMPLEX_POLAR options

/-- The member `VImage rect( VOption *options = 0 ) const`:
`return( complex( VIPS_OPERATION_COMPLEX_RECT, options ) )`. -/
def VImage.rect (self : VImage) (options : Option VOption) : MemberCall :=
  self.complex VipsOperationComplex.VIPS_OPERATION_COMPLEX_RECT options

/-- The member `VImage conj( VOption *options = 0 ) const`:
`return( complex( VIPS_OPERATION_COMPLEX_CONJ, options ) )`. -/
def VImage.conj (self : VImage) (options : Option VOption) : MemberCall :=
  self.complex VipsOperationComplex.VIPS_OPERATION_COMPLEX_CONJ options

/-- The member `VImage sin( VOption *options = 0 ) const`:
`return( math( VIPS_OPERATION_MATH_SIN, options ) )`. -/
def VImage.sin (self : VImage) (options : Option VOption) : MemberCall :=
  self.math VipsOperationMath.VIPS_OPERATION_MATH_SIN options

/-- The member `VImage cos( VOption *options = 0 ) const`:
`return( math( VIPS_OPERATION_MATH_COS, options ) )`. -/
def VImage.cos (self : VImage) (options : Option VOption) : MemberCall :=
  self.math VipsOperationMath.VIPS_OPERATION_MATH_COS options

/-- The member `VImage tan( VOption *options = 0 ) const`:
`return( math( VIPS_OPERATION_MATH_TAN, options ) )`. -/
def VImage.tan (self : VImage) (options : Option VOption) : MemberCall :=
  self.math VipsOperationMath.VIPS_OPERATION_MATH_TAN options

/-- The member `VImage asin( VOption *options = 0 ) const`:
`return( math( VIPS_OPERATION_MATH_ASIN, options ) )`. -/
def VImage.asin (self : VImage) (options : Option VOption) : MemberCall :=
  self.math VipsOperationMath.VIPS_OPERATION_MATH_ASIN options

/-- The member `VImage acos( VOption *options = 0 ) const`:
`return( math( VIPS_OPERATION_MATH_ACOS, options ) )`. -/
def VImage.acos (self : VImage) (options : Option VOption) : MemberCall :=
  self.math VipsOperationMath.VIPS_OPERATION_MATH_ACOS options

/-- The member `VImage atan( VOption *options = 0 ) const`:
`return( math( VIPS_OPERATION_MATH_ATAN, options ) )`. -/
def VImage.atan (self : VImage) (options : Option VOption) : MemberCall :=
  self.math VipsOperationMath.VIPS_OPERATION_MATH_ATAN options

/-- The member `VImage log( VOption *options = 0 ) const`:
`return( math( VIPS_OPERATION_MATH_LOG, options ) )`. -/
def VImage.log (self : VImage) (options : Option VOption) : MemberCall :=
  self.math VipsOperationMath.VIPS_OPERATION_MATH_LOG options

/-- The member `VImage log10( VOption *options = 0 ) const`:
`return( math( VIPS_OPERATION_MATH_LOG10, options ) )`. -/
def VImage.log10 (self : VImage) (options : Option VOption) : MemberCall :=
  self.math VipsOperationMath.VIPS_OPERATION_MATH_LOG10 options

/-- The member `VImage exp( VOption *options = 0 ) const`:
`return( math( VIPS_OPERATION_MATH_EXP, options ) )`. -/
def VImage.exp (self : VImage) (options : Option VOption) : MemberCall :=
  self.math VipsOperationMath.VIPS_OPERATION_MATH_EXP options

/-- The member `VImage exp10( VOption *options = 0 ) const`:
`return( math( VIPS_OPERATION_MATH_EXP10, options ) )`. -/
def VImage.exp10 (self : VImage) (options : Option VOption) : MemberCall :=
  self.math VipsOperationMath.VIPS_OPERATION_MATH_EXP10 options

/-- The member `VImage dilate( VImage mask, VOption *options = 0 ) const`:
`return( morph( mask, VIPS_OPERATION_MORPHOLOGY_DILATE, options ) )`. -/
def VImage.dilate (self : VImage) (mask : VImage) (options : Option VOption) : MemberCall :=
  self.morph mask VipsOperationMorphology.VIPS_OPERATION_MORPHOLOGY_DILATE options

/-- The member `VImage erode( VImage mask, VOption *options = 0 ) const`:
`return( morph( mask, VIPS_OPERATION_MORPHOLOGY_ERODE, options ) )`. -/
def VImage.erode (self : VImage) (mask : VImage) (options : Option VOption) : MemberCall :=
  self.morph mask VipsOperationMorphology.VIPS_OPERATION_MORPHOLOGY_ERODE options

/-- The product of two 32-bit `int`s, wrapped to 32 bits. -/
def int_mul (a b : Int) : Int :=
  Int.bmod (a * b) (2 ^ 32)

/-- The member `VImage median( int size = 3, VOption *options = 0 ) const`:
`return( rank( size, size, (size * size) / 2, options ) )`, where `/` on `int`
truncates toward zero. -/
def VImage.median (self : VImage) (size : Int) (options : Option VOption) : MemberCall :=
  self.rank size size (Int.tdiv (int_mul size size) 2) options

/-- The call `median()` with both default arguments, `size = 3` and
`options = 0`. -/
def VImage.median_default (self : VImage) : MemberCall :=
  self.median 3 none

/-- The member `linear( double a, double b, VOption *options = 0 ) const`:
`return( this->linear( to_vector( a ), to_vector( b ), options ) )`. The helper
`to_vector( double )` is only declared in the header and is a parameter. -/
def VImage.linear_dd (to_vector : Double → List Double) (self : VImage) (a b : Double)
    (options : Option VOption) : MemberCall :=
  self.linear (to_vector a) (to_vector b) options

/-- The member `linear( std::vector<double> a, double b, VOption *options = 0 )
const`: `return( this->linear( a, to_vector( b ), options ) )`. -/
def VImage.linear_vd (to_vector : Double → List Double) (self : VImage) (a : List Double)
    (b : Double) (options : Option VOption) : MemberCall :=
  self.linear a (to_vector b) options

/-- The member `linear( double a, std::vector<double> b, VOption *options = 0 )
const`: `return( this->linear( to_vector( a ), b, options ) )`. -/
def VImage.linear_dv (to_vector : Double → List Double) (self : VImage) (a : Double)
    (b : List Double) (options : Option VOption) : MemberCall :=
  self.linear (to_vector a) b options

/-- The member `bandjoin( std::vector<double> other, VOption *options = 0 )
const`: `return( bandjoin_const( other, options ) )`. -/
def VImage.bandjoin_v (self : VImage) (other : List Double) (options : Option VOption) :
    MemberCall :=
  self.bandjoin_const other options

/-- The member `bandjoin( double other, VOption *options = 0 ) const`:
`return( bandjoin( to_vector( other ), options ) )`. -/
def VImage.bandjoin_d (to_vector : Double → List Double) (self : VImage) (other : Double)
    (options : Option VOption) : MemberCall :=
  self.bandjoin_v (to_vector other) options

/-- The member `pow( VImage other, VOption *options = 0 ) const`:
`return( math2( other, VIPS_OPERATION_MATH2_POW, options ) )`. -/
def VImage.pow_i (self : VImage) (other : VImage) (options : Option VOption) : MemberCall :=
  self.math2 other VipsOperationMath2.VIPS_OPERATION_MATH2_POW options

/-- The member `pow( double other, VOption *options = 0 ) const`:
`return( math2_const( VIPS_OPERATION_MATH2_POW, to_vector( other ), options ) )`. -/
def VImage.pow_d (to_vector : Double → List Double) (self : VImage) (other : Double)
    (options : Option VOption) : MemberCall :=
  self.math2_const VipsOperationMath2.VIPS_OPERATION_MATH2_POW (to_vector other) options

/-- The member `pow( std::vector<double> other, VOption *options = 0 ) const`:
`return( math2_const( VIPS_OPERATION_MATH2_POW, other, options ) )`. -/
def VImage.pow_v (self : VImage) (other : List Double) (options : Option VOption) :
    MemberCall :=
  self.math2_const VipsOperationMath2.VIPS_OPERATION_MATH2_POW other options

/-- The member `wop( VImage other, VOption *options = 0 ) const`:
`return( math2( other, VIPS_OPERATION_MATH2_WOP, options ) )`. -/
def VImage.wop_i (self : VImage) (other : VImage) (options : Option VOption) : MemberCall :=
  self.math2 other VipsOperationMath2.VIPS_OPERATION_MATH2_WOP options

/-- The member `wop( double other, VOption *options = 0 ) const`:
`return( math2_const( VIPS_OPERATION_MATH2_WOP, to_vector( other ), options ) )`. -/
def VImage.wop_d (to_vector : Double → List Double) (self : VImage) (other : Double)
    (options : Option VOption) : MemberCall :=
  self.math2_const VipsOperationMath2.VIPS_OPERATION_MATH2_WOP (to_vector other) options

/-- The member `wop( std::vector<double> other, VOption *options = 0 ) const`:
`return( math2_const( VIPS_OPERATION_MATH2_WOP, other, options ) )`. -/
def VImage.wop_v (self : VImage) (other : List Double) (options : Option VOption) :
    MemberCall :=
  self.math2_const VipsOperationMath2.VIPS_OPERATION_MATH2_WOP other options

/-- The member `ifthenelse( std::vector<double> th, VImage el, VOption *options
= 0 ) const`: `return( ifthenelse( el.new_from_image( th ), el, options ) )`.
The result is the call of the generated `ifthenelse` and the heap after the
native creation call; the temporary copies made by passing handles by value
are not traced. -/
def VImage.ifthenelse_vi (vips_image_new_from_image : Ptr → List Double → Int → NativeNew)
    (h : GHeap) (self : VImage) (th : List Double) (el : VImage) (options : Option VOption) :
    Except Failure (MemberCall × GHeap) :=
  match el.new_from_image vips_image_new_from_image h th with
  | .error e => .error e
  | .ok (c, h1) => .ok (self.ifthenelse c el options, h1)

/-- The member `ifthenelse( VImage th, std::vector<double> el, VOption *options
= 0 ) const`: `return( ifthenelse( th, th.new_from_image( el ), options ) )`. -/
def VImage.ifthenelse_iv (vips_image_new_from_image : Ptr → List Double → Int → NativeNew)
    (h : GHeap) (self : VImage) (th : VImage) (el : List Double) (options : Option VOption) :
    Except Failure (MemberCall × GHeap) :=
  match th.new_from_image vips_image_new_from_image h el with
  | .error e => .error e
  | .ok (c, h1) => .ok (self.ifthenelse th c options, h1)

/-- The member `ifthenelse( std::vector<double> th, std::vector<double> el,
VOption *options = 0 ) const`:
`return( ifthenelse( new_from_image( th ), new_from_image( el ), options ) )`.
C++ leaves the order of the two argument evaluations open; they are taken
left to right. -/
def VImage.ifthenelse_vv (vips_image_new_from_image : Ptr → List Double → Int → NativeNew)
    (h : GHeap) (self : VImage) (th el : List Double) (options : Option VOption) :
    Except Failure (MemberCall × GHeap) :=
  match self.new_from_image vips_image_new_from_image h th with
  | .error e => .error e
  | .ok (c1, h1) =>
    match self.new_from_image vips_image_new_from_image h1 el with
    | .error e => .error e
    | .ok (c2, h2) => .ok (self.ifthenelse c1 c2 options, h2)

/-- The member `ifthenelse( double th, VImage el, VOption *options = 0 ) const`:
`return( ifthenelse( to_vector( th ), el, options ) )`. -/
def VImage.ifthenelse_di (to_vector : Double → List Double)
    (vips_image_new_from_image : Ptr → List Double → Int → NativeNew)
    (h : GHeap) (self : VImage) (th : Double) (el : VImage) (options : Option VOption) :
    Except Failure (MemberCall × GHeap) :=
  self.ifthenelse_vi vips_image_new_from_image h (to_vector th) el options

/-- The member `ifthenelse( VImage th, double el, VOption *options = 0 ) const`:
`return( ifthenelse( th, to_vector( el ), options ) )`. -/
def VImage.ifthenelse_id (to_vector : Double → List Double)
    (vips_image_new_from_image : Ptr → List Double → Int → NativeNew)
    (h : GHeap) (self : VImage) (th : VImage) (el : Double) (options : Option VOption) :
    Except Failure (MemberCall × GHeap) :=
  self.ifthenelse_iv vips_image_new_from_image h th (to_vector el) options

/-- The member `ifthenelse( double th, double el, VOption *options = 0 ) const`:
`return( ifthenelse( to_vector( th ), to_vector( el ), options ) )`. -/
def VImage.ifthenelse_dd (to_vector : Double → List Double)
    (vips_image_new_from_image : Ptr → List Double → Int → NativeNew)
    (h : GHeap) (self : VImage) (th el : Double) (options : Option VOption) :
    Except Failure (MemberCall × GHeap) :=
  self.ifthenelse_vv vips_image_new_from_image h (to_vector th) (to_vector el) options

/-- A native `vips_image_new_from_image` for examples: it makes the new image
at the address after that of the template, with one reference. -/
def sampleNewFromImage : Ptr → List Double → Int → NativeNew :=
  fun image _ _ h => (image + 1, g_object_ref h (image + 1))

/-- A `to_vector` for examples: the one-element vector. -/
def sampleToVector : Double → List Double :=
  fun c => [c]

/-! ## Programs of handle operations -/

/-- One statement of a program that works on handles; the live handles are
numbered by position. -/
inductive HandleOp where
  | new (p : Ptr) (steal : VSteal)
  | copy (i : Nat)
  | assign (i j : Nat)
  | destroy (i : Nat)
deriving DecidableEq, Repr

/-- The state such a program runs on: the native heap, the live handles, and
for every object the number of references to it that are owned outside the
handles (by the code that made the object). -/
structure HandleState where
  heap : GHeap
  handles : List VObject
  outside : Ptr → Nat

/-- The number of handles in a list that wrap the object at `p`. -/
def wrapping (p : Ptr) : List VObject → Nat
  | [] => 0
  | x :: xs => (if x.vobject = p then 1 else 0) + wrapping p xs

/-- The state before any handle exists: every reference is owned outside. -/
def HandleState.init (heap : GHeap) : HandleState :=
  { heap := heap, handles := [], outside := heap.ref_count }

/-- One statement. `new p steal` runs the constructor on `p`; under `STEAL` the
caller hands over a reference it owns (there is no step when it owns none).
`copy i` copy-constructs a new handle from handle `i`; `assign i j` runs
`operator=` on handle `i` with handle `j` as source; `destroy i` runs the
destructor of handle `i`. There is no step when an index names no live handle
or when a `g_assert` fails. -/
def HandleState.step (s : HandleState) : HandleOp → Option HandleState
  | .new p steal =>
    if steal = VSteal.STEAL ∧ p ≠ 0 ∧ s.outside p = 0 then none
    else
      match VObject.new s.heap p steal with
      | .error _ => none
      | .ok (x, h1) =>
        some { heap := h1, handles := s.handles ++ [x],
               outside := fun q =>
                 if steal = VSteal.STEAL ∧ p ≠ 0 ∧ q = p then s.outside q - 1
                 else s.outside q }
  | .copy i =>
    match s.handles.get? i with
    | none => none
    | some a =>
      match VObject.copy s.heap a with
      | .error _ => none
      | .ok (c, h1) => some { heap := h1, handles := s.handles ++ [c], outside := s.outside }
  | .assign i j =>
    match s.handles.get? i, s.handles.get? j with
    | some x, some a =>
      match VObject.assign s.heap x a with
      | .error _ => none
      | .ok (x1, h1) =>
        some { heap := h1, handles := s.handles.set i x1, outside := s.outside }
    | _, _ => none
  | .destroy i =>
    match s.handles.get? i with
    | none => none
    | some x =>
      match VObject.destroy s.heap x with
      | .error _ => none
      | .ok h1 => some { heap := h1, handles := s.handles.eraseIdx i, outside := s.outside }

/-- A sequence of statements, in order. -/
def HandleState.run (s : HandleState) : List HandleOp → Option HandleState
  | [] => some s
  | op :: ops =>
    match s.step op with
    | none => none
    | some s1 => HandleState.run s1 ops

/-- Reference-count balance: the count of every object is the number of live
handles wrapping it plus the references owned outside handles. -/
def HandleState.balanced (s : HandleState) : Prop :=
  ∀ p, p ≠ 0 → s.heap.ref_count p = wrapping p s.handles + s.outside p

/-! ## Sample states -/

/-- A heap with one live object at address `7`, reference count `2`. -/
def sampleHeap : GHeap :=
  { ref_count := fun p => if p = 7 then 2 else 0 }

/-- A heap with live objects at `7` (count `2`) and `9` (count `1`). -/
def sampleHeap2 : GHeap :=
  { ref_count := fun p => if p = 7 then 2 else if p = 9 then 1 else 0 }

/-- A program of handle statements: a handle is made on the object at `7` with
`NOSTEAL`, copied, a second made with `STEAL`, a null handle made and assigned
the first, and all four destroyed. -/
def sampleProgram : List HandleOp :=
  [HandleOp.new 7 VSteal.NOSTEAL, HandleOp.copy 0, HandleOp.new 7 VSteal.STEAL,
    HandleOp.new 0 VSteal.STEAL, HandleOp.assign 3 0, HandleOp.destroy 1,
    HandleOp.destroy 0, HandleOp.destroy 0, HandleOp.destroy 0]

/-! ## Helper lemmas -/

theorem g_assert_object_of_valid (h : GHeap) (x : VObject) (hv : x.valid h) :
    VObject.g_assert_object h x.vobject = true := by
  unfold VObject.g_assert_object VIPS_IS_OBJECT
  rcases hv with h0 | hpos
  · simp [h0]
  · simp [hpos]

theorem g_assert_object_of_pos (h : GHeap) (p : Ptr) (hpos : 0 < h.ref_count p) :
    VObject.g_assert_object h p = true := by
  unfold VObject.g_assert_object VIPS_IS_OBJECT
  simp [hpos]

theorem ref_count_ref_self (h : GHeap) (p : Ptr) :
    (g_object_ref h p).ref_count p = h.ref_count p + 1 := by
  simp [g_object_ref]

theorem ref_count_ref_other (h : GHeap) (p q : Ptr) (hq : q ≠ p) :
    (g_object_ref h p).ref_count q = h.ref_count q := by
  simp [g_object_ref, hq]

theorem ref_count_unref_self (h : GHeap) (p : Ptr) :
    (g_object_unref h p).ref_count p = h.ref_count p - 1 := by
  simp [g_object_unref]

theorem ref_count_unref_other (h : GHeap) (p q : Ptr) (hq : q ≠ p) :
    (g_object_unref h p).ref_count q = h.ref_count q := by
  simp [g_object_unref, hq]

theorem ref_then_unref_count (h : GHeap) (p q : Ptr) :
    (g_object_unref (g_object_ref h p) p).ref_count q = h.ref_count q := by
  by_cases hq : q = p
  · subst hq
    simp [g_object_unref, g_object_ref]
  · simp [g_object_unref, g_object_ref, hq]

/-! ## The reference-counted handle -/

/-- C1: for a handle holding a non-null object with reference count `n ≥ 1`,
copy-constructing a handle from it and then destroying the copy succeeds, leaves
the count at `n` (indeed leaves every count as it was), the count of the object
is at least `1` at every step in between (it is never released), and the
original handle, which neither call writes, still wraps a live non-null
object. -/
theorem copy_then_destroy_restores_count (h : GHeap) (x : VObject) (n : Nat)
    (hnn : x.vobject ≠ 0) (hn : h.ref_count x.vobject = n) (hpos : 1 ≤ n) :
    ∃ c h1 h2, VObject.copy h x = .ok (c, h1) ∧ VObject.destroy h1 c = .ok h2 ∧
      c.vobject = x.vobject ∧
      h2.ref_count x.vobject = n ∧
      (∀ q, h2.ref_count q = h.ref_count q) ∧
      (∀ s ∈ h.trace (VObject.copy_calls x ++ VObject.destroy_calls c),
        1 ≤ s.ref_count x.vobject) ∧
      x.vobject ≠ 0 ∧ x.valid h2 := by
  have hlive : 0 < h.ref_count x.vobject := by omega
  refine ⟨{ vobject := x.vobject }, g_object_ref h x.vobject,
    g_object_unref (g_object_ref h x.vobject) x.vobject, ?_, ?_, rfl, ?_, ?_, ?_, hnn, ?_⟩
  · simp [VObject.copy, g_assert_object_of_pos h _ hlive, VObject.copy_calls, hnn,
      GHeap.run, GCall.exec]
  · have hlive1 : 0 < (g_object_ref h x.vobject).ref_count x.vobject := by
      rw [ref_count_ref_self]; omega
    simp [VObject.destroy, g_assert_object_of_pos _ _ hlive1, VObject.destroy_calls, hnn,
      GHeap.run, GCall.exec]
  · rw [ref_then_unref_count, hn]
  · intro q
    exact ref_then_unref_count h x.vobject q
  · intro s hs
    simp [VObject.copy_calls, VObject.destroy_calls, hnn, GHeap.trace, GCall.exec] at hs
    rcases hs with rfl | rfl | rfl
    · omega
    · rw [ref_count_ref_self]; omega
    · rw [ref_then_unref_count]; omega
  · right
    rw [ref_then_unref_count]
    exact hlive

/-- Witness for C1 on the sample heap: the object at `7` has count `2`. -/
theorem copy_then_destroy_restores_count_witness :
    ∃ c h1 h2, VObject.copy sampleHeap { vobject := 7 } = .ok (c, h1) ∧
      VObject.destroy h1 c = .ok h2 ∧ c.vobject = 7 ∧ h2.ref_count 7 = 2 := by
  obtain ⟨c, h1, h2, hc, hd, hp, hk, -⟩ :=
    copy_then_destroy_restores_count sampleHeap { vobject := 7 } 2 (by decide) rfl (by decide)
  exact ⟨c, h1, h2, hc, hd, hp, hk⟩

/-- C2: assignment from a handle that holds the same native object (so also
`a = a`) succeeds on a well-formed handle and is a no-op: the target holds the
same pointer, its null-ness is unchanged, and every reference count equals its
value before the assignment. -/
theorem assign_same_object_is_noop (h : GHeap) (x a : VObject)
    (hsame : a.vobject = x.vobject) (hv : x.valid h) :
    ∃ x1 h2, VObject.assign h x a = .ok (x1, h2) ∧
      x1.vobject = x.vobject ∧ x1.is_null = x.is_null ∧
      ∀ q, h2.ref_count q = h.ref_count q := by
  have hax : VObject.g_assert_object h x.vobject = true := g_assert_object_of_valid h x hv
  refine ⟨{ vobject := a.vobject }, h.run (VObject.assign_calls x a), ?_, hsame, ?_, ?_⟩
  · simp [VObject.assign, hsame, hax]
  · simp [VObject.is_null, hsame]
  · intro q
    by_cases h0 : x.vobject = 0
    · simp [VObject.assign_calls, hsame, h0, GHeap.run]
    · simp only [VObject.assign_calls, hsame, h0, ne_eq, not_false_eq_true, if_true,
        List.singleton_append, GHeap.run, GCall.exec]
      exact ref_then_unref_count h x.vobject q

/-- Witness for C2: self-assignment of the handle of the object at `7`. -/
theorem assign_same_object_is_noop_witness :
    ∃ x1 h2, VObject.assign sampleHeap { vobject := 7 } { vobject := 7 } = .ok (x1, h2) ∧
      x1.vobject = 7 ∧ x1.is_null = false ∧ h2.ref_count 7 = 2 := by
  obtain ⟨x1, h2, ha, hp, hnull, hk⟩ :=
    assign_same_object_is_noop sampleHeap { vobject := 7 } { vobject := 7 } rfl
      (Or.inr (by decide))
  exact ⟨x1, h2, ha, hp, hnull, hk 7⟩

/-- C3: in `operator=` with both handles non-null the native calls are, in
order, the ref of the source object and then the unref of the old object of
the target; and when both hold the same object, with count `n ≥ 1`, the
assignment succeeds with the heap these calls produce and the count of the
object is at least `n` in every heap seen while they run, so it never reaches
zero. -/
theorem assign_refs_source_before_unref (h : GHeap) (self a : VObject) (n : Nat)
    (hself : self.vobject ≠ 0) (ha : a.vobject ≠ 0)
    (hn : h.ref_count self.vobject = n) (hpos : 1 ≤ n) :
    VObject.assign_calls self a = [GCall.ref a.vobject, GCall.unref self.vobject] ∧
    (a.vobject = self.vobject →
      VObject.assign h self a = .ok (self, h.run (VObject.assign_calls self a)) ∧
      h.trace (VObject.assign_calls self a) =
        [h, g_object_ref h self.vobject,
          g_object_unref (g_object_ref h self.vobject) self.vobject] ∧
      (∀ s ∈ h.trace (VObject.assign_calls self a), n ≤ s.ref_count self.vobject) ∧
      (∀ s ∈ h.trace (VObject.assign_calls self a), 0 < s.ref_count self.vobject)) := by
  have hcalls : VObject.assign_calls self a =
      [GCall.ref a.vobject, GCall.unref self.vobject] := by
    simp [VObject.assign_calls, hself, ha]
  refine ⟨hcalls, ?_⟩
  intro hsame
  have hlive : 0 < h.ref_count self.vobject := by omega
  have hbound : ∀ s ∈ h.trace (VObject.assign_calls self a), n ≤ s.ref_count self.vobject := by
    intro s hs
    rw [hcalls, hsame] at hs
    simp [GHeap.trace, GCall.exec] at hs
    rcases hs with rfl | rfl | rfl
    · omega
    · rw [ref_count_ref_self]; omega
    · rw [ref_then_unref_count]; omega
  refine ⟨?_, ?_, hbound, ?_⟩
  · have hself_eq : ({ vobject := self.vobject } : VObject) = self := rfl
    simp [VObject.assign, hsame, g_assert_object_of_pos h _ hlive, hself_eq]
  · rw [hcalls, hsame]
    simp [GHeap.trace, GCall.exec]
  · intro s hs
    have := hbound s hs
    omega

/-- Witness for C3: self-assignment of the handle of the object at `7`, whose
count is `2`. -/
theorem assign_refs_source_before_unref_witness :
    VObject.assign_calls { vobject := 7 } { vobject := 7 } = [GCall.ref 7, GCall.unref 7] ∧
    ∀ s ∈ sampleHeap.trace (VObject.assign_calls { vobject := 7 } { vobject := 7 }),
      2 ≤ s.ref_count 7 :=
  have w := assign_refs_source_before_unref sampleHeap { vobject := 7 } { vobject := 7 } 2
    (by decide) (by decide) rfl (by decide)
  ⟨w.1, (w.2 rfl).2.2.1⟩

/-- C4: for well-formed handles `a` and `b` holding different pointers (either
may be null), `a = b` succeeds; afterwards `a` holds the pointer of `b` (which
is passed by const reference and is not written), the count of the object of
`b`, if non-null, is one more, the count of the old object of `a`, if non-null,
is one less, and every other count is unchanged. -/
theorem assign_distinct_moves_reference (h : GHeap) (a b : VObject)
    (hne : a.vobject ≠ b.vobject) (hva : a.valid h) (hvb : b.valid h) :
    ∃ a1 h2, VObject.assign h a b = .ok (a1, h2) ∧
      a1.vobject = b.vobject ∧
      (b.vobject ≠ 0 → h2.ref_count b.vobject = h.ref_count b.vobject + 1) ∧
      (a.vobject ≠ 0 → h2.ref_count a.vobject + 1 = h.ref_count a.vobject) ∧
      (∀ q, (q ≠ a.vobject ∨ a.vobject = 0) → (q ≠ b.vobject ∨ b.vobject = 0) →
        h2.ref_count q = h.ref_count q) := by
  have haa := g_assert_object_of_valid h a hva
  have hab := g_assert_object_of_valid h b hvb
  refine ⟨{ vobject := b.vobject }, h.run (VObject.assign_calls a b), ?_, rfl, ?_, ?_, ?_⟩
  · simp [VObject.assign, haa, hab]
  · intro hb
    by_cases ha : a.vobject = 0
    · simp [VObject.assign_calls, ha, hb, GHeap.run, GCall.exec, g_object_ref]
    · have hne2 : b.vobject ≠ a.vobject := fun e => hne e.symm
      simp [VObject.assign_calls, ha, hb, GHeap.run, GCall.exec, g_object_ref,
        g_object_unref, hne2]
  · intro ha
    have hlive : 0 < h.ref_count a.vobject := by
      rcases hva with h0 | hp
      · exact absurd h0 ha
      · exact hp
    by_cases hb : b.vobject = 0
    · simp [VObject.assign_calls, ha, hb, GHeap.run, GCall.exec, g_object_unref]
      omega
    · simp [VObject.assign_calls, ha, hb, GHeap.run, GCall.exec, g_object_ref,
        g_object_unref, hne]
      omega
  · intro q hqa hqb
    by_cases ha : a.vobject = 0 <;> by_cases hb : b.vobject = 0
    · simp [VObject.assign_calls, ha, hb, GHeap.run]
    · have hq : q ≠ b.vobject := by
        rcases hqb with hq | hq
        · exact hq
        · exact absurd hq hb
      simp [VObject.assign_calls, ha, hb, GHeap.run, GCall.exec, g_object_ref, hq]
    · have hq : q ≠ a.vobject := by
        rcases hqa with hq | hq
        · exact hq
        · exact absurd hq ha
      simp [VObject.assign_calls, ha, hb, GHeap.run, GCall.exec, g_object_unref, hq]
    · have hq1 : q ≠ a.vobject := by
        rcases hqa with hq | hq
        · exact hq
        · exact absurd hq ha
      have hq2 : q ≠ b.vobject := by
        rcases hqb with hq | hq
        · exact hq
        · exact absurd hq hb
      simp [VObject.assign_calls, ha, hb, GHeap.run, GCall.exec, g_object_ref,
        g_object_unref, hq1, hq2]

/-- Witness for C4: the handle of the object at `9` is assigned the handle of
the object at `7`. -/
theorem assign_distinct_moves_reference_witness :
    ∃ a1 h2, VObject.assign sampleHeap2 { vobject := 9 } { vobject := 7 } = .ok (a1, h2) ∧
      a1.vobject = 7 ∧ h2.ref_count 7 = 3 ∧ h2.ref_count 9 + 1 = 1 := by
  obtain ⟨a1, h2, hr, hp, hb, ha, -⟩ :=
    assign_distinct_moves_reference sampleHeap2 { vobject := 9 } { vobject := 7 }
      (by decide) (Or.inr (by decide)) (Or.inr (by decide))
  exact ⟨a1, h2, hr, hp, hb (by decide), ha (by decide)⟩

/-- C5: constructing a handle from a native pointer `p`. With `p` null the
handle is null, no native call is made and the heap is unchanged under either
mode. With `p` a live object: under `STEAL` (also as the default argument, and
through `VImage`) the handle holds `p`, no native call is made and the heap is
unchanged; under `NOSTEAL` and `p` non-null the handle holds `p`, the single
native call is a ref of `p`, its count is one more and no other count
changes. -/
theorem new_steal_or_add_reference (h : GHeap) (p : Ptr) :
    (p = 0 → ∀ steal, VObject.new_calls p steal = [] ∧
      VObject.new h p steal = .ok (VObject.null, h) ∧
      VImage.new h p steal = .ok ({ toVObject := VObject.null }, h) ∧
      VObject.null.is_null = true) ∧
    (0 < h.ref_count p →
      (VObject.new_calls p VSteal.STEAL = [] ∧
        VObject.new h p VSteal.STEAL = .ok ({ vobject := p }, h) ∧
        VObject.new_steal h p = .ok ({ vobject := p }, h) ∧
        VImage.new h p VSteal.STEAL = .ok ({ toVObject := { vobject := p } }, h) ∧
        VImage.new_steal h p = .ok ({ toVObject := { vobject := p } }, h)) ∧
      (p ≠ 0 → VObject.new_calls p VSteal.NOSTEAL = [GCall.ref p] ∧
        ∃ h2, VObject.new h p VSteal.NOSTEAL = .ok ({ vobject := p }, h2) ∧
          VImage.new h p VSteal.NOSTEAL = .ok ({ toVObject := { vobject := p } }, h2) ∧
          h2.ref_count p = h.ref_count p + 1 ∧
          ∀ q, q ≠ p → h2.ref_count q = h.ref_count q)) := by
  constructor
  · intro hp steal
    subst hp
    refine ⟨?_, ?_, ?_, rfl⟩
    · simp [VObject.new_calls]
    · simp [VObject.new, VObject.g_assert_object, VObject.new_calls, GHeap.run, VObject.null]
    · simp [VImage.new, VObject.new, VObject.g_assert_object, VObject.new_calls, GHeap.run,
        VObject.null]
  · intro hlive
    have hassert := g_assert_object_of_pos h p hlive
    refine ⟨⟨?_, ?_, ?_, ?_, ?_⟩, ?_⟩
    · simp [VObject.new_calls, VSteal.toNat]
    · simp [VObject.new, hassert, VObject.new_calls, VSteal.toNat, GHeap.run]
    · simp [VObject.new_steal, VObject.new, hassert, VObject.new_calls, VSteal.toNat, GHeap.run]
    · simp [VImage.new, VObject.new, hassert, VObject.new_calls, VSteal.toNat, GHeap.run]
    · simp [VImage.new_steal, VImage.new, VObject.new, hassert, VObject.new_calls,
        VSteal.toNat, GHeap.run]
    · intro hp
      refine ⟨?_, g_object_ref h p, ?_, ?_, ref_count_ref_self h p, ?_⟩
      · simp [VObject.new_calls, VSteal.toNat, hp]
      · simp [VObject.new, hassert, VObject.new_calls, VSteal.toNat, hp, GHeap.run, GCall.exec]
      · simp [VImage.new, VObject.new, hassert, VObject.new_calls, VSteal.toNat, hp,
          GHeap.run, GCall.exec]
      · intro q hq
        exact ref_count_ref_other h p q hq

/-- Witness for C5: a handle on the object at `7` under `NOSTEAL`. -/
theorem new_steal_or_add_reference_witness :
    VObject.new_calls 7 VSteal.NOSTEAL = [GCall.ref 7] ∧
    ∃ h2, VObject.new sampleHeap 7 VSteal.NOSTEAL = .ok ({ vobject := 7 }, h2) ∧
      h2.ref_count 7 = 3 := by
  obtain ⟨hc, h2, hr, -, hk, -⟩ :=
    ((new_steal_or_add_reference sampleHeap 7).2 (by decide)).2 (by decide)
  exact ⟨hc, h2, hr, hk⟩

/-- C6: copy-constructing from a well-formed handle succeeds and yields a
handle with the same pointer (the source is passed by const reference and is
not written). If the source is non-null the single native call is a ref of its
object, whose count is one more, and no other count changes; if the source is
null the copy is null, no native call is made and the heap is unchanged. -/
theorem copy_adds_one_reference (h : GHeap) (a : VObject) (hv : a.valid h) :
    ∃ c h2, VObject.copy h a = .ok (c, h2) ∧ c.vobject = a.vobject ∧
      (a.vobject ≠ 0 → VObject.copy_calls a = [GCall.ref a.vobject] ∧
        h2.ref_count a.vobject = h.ref_count a.vobject + 1 ∧
        ∀ q, q ≠ a.vobject → h2.ref_count q = h.ref_count q) ∧
      (a.vobject = 0 → c.is_null = true ∧ VObject.copy_calls a = [] ∧ h2 = h) := by
  have hassert := g_assert_object_of_valid h a hv
  refine ⟨{ vobject := a.vobject }, h.run (VObject.copy_calls a), ?_, rfl, ?_, ?_⟩
  · simp [VObject.copy, hassert]
  · intro ha
    refine ⟨?_, ?_, ?_⟩
    · simp [VObject.copy_calls, ha]
    · simp [VObject.copy_calls, ha, GHeap.run, GCall.exec, g_object_ref]
    · intro q hq
      simp [VObject.copy_calls, ha, GHeap.run, GCall.exec, g_object_ref, hq]
  · intro ha
    refine ⟨?_, ?_, ?_⟩
    · simp [VObject.is_null, ha]
    · simp [VObject.copy_calls, ha]
    · simp [VObject.copy_calls, ha, GHeap.run]

/-- Witness for C6: copying the handle of the object at `7`. -/
theorem copy_adds_one_reference_witness :
    ∃ c h2, VObject.copy sampleHeap { vobject := 7 } = .ok (c, h2) ∧ c.vobject = 7 ∧
      h2.ref_count 7 = 3 := by
  obtain ⟨c, h2, hr, hp, hnn, -⟩ :=
    copy_adds_one_reference sampleHeap { vobject := 7 } (Or.inr (by decide))
  exact ⟨c, h2, hr, hp, (hnn (by decide)).2.1⟩

/-- C7: destroying a well-formed handle succeeds. If the handle is non-null the
single native call is an unref of its object, whose count is one less; if the
handle is null no native call is made and the heap is unchanged; in both cases
no other count changes. -/
theorem destroy_releases_one_reference (h : GHeap) (x : VObject) (hv : x.valid h) :
    ∃ h2, VObject.destroy h x = .ok h2 ∧
      (x.vobject ≠ 0 → VObject.destroy_calls x = [GCall.unref x.vobject] ∧
        h2.ref_count x.vobject + 1 = h.ref_count x.vobject) ∧
      (x.vobject = 0 → VObject.destroy_calls x = [] ∧ h2 = h) ∧
      (∀ q, q ≠ x.vobject → h2.ref_count q = h.ref_count q) := by
  have hassert := g_assert_object_of_valid h x hv
  refine ⟨h.run (VObject.destroy_calls x), ?_, ?_, ?_, ?_⟩
  · simp [VObject.destroy, hassert]
  · intro hx
    have hlive : 0 < h.ref_count x.vobject := by
      rcases hv with h0 | hp
      · exact absurd h0 hx
      · exact hp
    refine ⟨?_, ?_⟩
    · simp [VObject.destroy_calls, hx]
    · simp [VObject.destroy_calls, hx, GHeap.run, GCall.exec, g_object_unref]
      omega
  · intro hx
    refine ⟨?_, ?_⟩
    · simp [VObject.destroy_calls, hx]
    · simp [VObject.destroy_calls, hx, GHeap.run]
  · intro q hq
    by_cases hx : x.vobject = 0
    · simp [VObject.destroy_calls, hx, GHeap.run]
    · simp [VObject.destroy_calls, hx, GHeap.run, GCall.exec, g_object_unref, hq]

/-- Witness for C7: destroying the handle of the object at `7`. -/
theorem destroy_releases_one_reference_witness :
    ∃ h2, VObject.destroy sampleHeap { vobject := 7 } = .ok h2 ∧ h2.ref_count 7 + 1 = 2 := by
  obtain ⟨h2, hr, hnn, -⟩ :=
    destroy_releases_one_reference sampleHeap { vobject := 7 } (Or.inr (by decide))
  exact ⟨h2, hr, (hnn (by decide)).2⟩

/-! ## Image factories -/

theorem get_image_of_valid (h : GHeap) (self : VImage) (hv : self.toVObject.valid h) :
    self.get_image h = .ok self.toVObject.vobject := by
  simp [VImage.get_image, VObject.get_object, g_assert_object_of_valid h _ hv]

theorem new_steal_ok_pointer (h : GHeap) (p : Ptr) (v : VImage) (h1 : GHeap)
    (hr : VImage.new_steal h p = .ok (v, h1)) : v.toVObject.vobject = p ∧ h1 = h := by
  unfold VImage.new_steal VImage.new VObject.new at hr
  split at hr
  · rename_i o h2 heq
    split at heq
    · simp only [Except.ok.injEq, Prod.mk.injEq] at heq hr
      obtain ⟨ho, hh⟩ := heq
      obtain ⟨hv, hh1⟩ := hr
      subst hv ho
      refine ⟨rfl, ?_⟩
      rw [← hh1, ← hh]
      simp [VObject.new_calls, VSteal.toNat, GHeap.run]
    · simp at heq
  · simp at hr

/-- The factories that test the native result (`new_temp_file`,
`new_from_memory`, `new_matrix`, `new_from_image`, `copy_memory`) never return
a null handle: a returned handle wraps the pointer the native call returned,
which is not null. -/
theorem checked_factories_never_null (h : GHeap) (v : VImage) (h1 : GHeap) :
    (∀ native file_format, VImage.new_temp_file native h file_format = .ok (v, h1) →
      v.is_null = false ∧ v.toVObject.vobject = (native file_format h).1) ∧
    (∀ native data size width height bands format,
      VImage.new_from_memory native h data size width height bands format = .ok (v, h1) →
      v.is_null = false ∧
        v.toVObject.vobject = (native data size width height bands format h).1) ∧
    (∀ native width height array size,
      VImage.new_matrix native h width height array size = .ok (v, h1) →
      v.is_null = false ∧ v.toVObject.vobject = (native width height array size h).1) ∧
    (∀ native self pixel, VImage.new_from_image native h self pixel = .ok (v, h1) →
      v.is_null = false ∧
        v.toVObject.vobject =
          (native self.toVObject.vobject pixel (static_cast_int pixel.length) h).1) ∧
    (∀ native self, VImage.copy_memory native h self = .ok (v, h1) →
      v.is_null = false ∧ v.toVObject.vobject = (native self.toVObject.vobject h).1) := by
  have key : ∀ (r : Ptr × GHeap),
      (if r.1 = 0 then (.error Failure.VError : Except Failure (VImage × GHeap))
        else VImage.new_steal r.2 r.1) = .ok (v, h1) →
      v.is_null = false ∧ v.toVObject.vobject = r.1 := by
    intro r hr
    by_cases h0 : r.1 = 0
    · simp [h0] at hr
    · simp only [h0, if_false] at hr
      have hp := (new_steal_ok_pointer _ _ _ _ hr).1
      exact ⟨by simp [VImage.is_null, VObject.is_null, hp, h0], hp⟩
  have himg : ∀ (self : VImage) (i : Ptr), self.get_image h = .ok i →
      i = self.toVObject.vobject := by
    intro self i hi
    unfold VImage.get_image VObject.get_object at hi
    split at hi
    · simp only [Except.ok.injEq] at hi
      exact hi.symm
    · simp at hi
  refine ⟨?_, ?_, ?_, ?_, ?_⟩
  · intro native file_format hr
    exact key _ hr
  · intro native data size width height bands format hr
    exact key _ hr
  · intro native width height array size hr
    exact key _ hr
  · intro native self pixel hr
    unfold VImage.new_from_image at hr
    split at hr
    · simp at hr
    · rename_i i hi
      split at hr
      · simp at hr
      · rename_i data hdata
        have hd : data = pixel := by
          unfold vector_element_address at hdata
          split at hdata
          · simpa using hdata.symm
          · simp at hdata
        subst hd
        rw [← himg self i hi]
        exact key _ hr
  · intro native self hr
    unfold VImage.copy_memory at hr
    split at hr
    · simp at hr
    · rename_i i hi
      rw [← himg self i hi]
      exact key _ hr

/-- C8: when the native creation call fails (returns null), `new_memory` does
not raise: it returns a handle, and that handle is null; on the same native
outcome the sibling `new_temp_file` raises `VError`. -/
theorem new_memory_returns_null_handle :
    VImage.new_memory nativeNewFails sampleHeap =
      .ok ({ toVObject := { vobject := 0 } }, sampleHeap) ∧
    VImage.is_null { toVObject := { vobject := 0 } } = true ∧
    VImage.new_temp_file (fun _ => nativeNewFails) sampleHeap ".v" =
      .error Failure.VError := by
  refine ⟨?_, rfl, ?_⟩
  · simp [VImage.new_memory, nativeNewFails, VImage.new_steal, VImage.new, VObject.new,
      VObject.g_assert_object, VObject.new_calls, VSteal.toNat, GHeap.run]
  · simp [VImage.new_temp_file, nativeNewFails]

/-! ## Metadata accessors -/

/-- C9: on a well-formed handle each typed getter raises `VError` exactly when
the native getter returns a non-zero status, and on status zero returns exactly
what the native getter wrote to the out cells (for the vector form of
`get_array_int`, the written `length` elements of the written array when
`length` is not negative); the indeterminate content of the locals before the
call is never returned on failure. -/
theorem getters_raise_iff_native_fails (h : GHeap) (self : VImage) (field : String)
    (hv : self.toVObject.valid h) :
    (∀ (native : NativeGet Int) (uninit : Int),
      (VImage.get_int native h self field uninit = .error Failure.VError ↔
        (native self.toVObject.vobject field uninit).1 ≠ 0) ∧
      ((native self.toVObject.vobject field uninit).1 = 0 →
        VImage.get_int native h self field uninit =
          .ok (native self.toVObject.vobject field uninit).2)) ∧
    (∀ (native : NativeGet Double) (uninit : Double),
      (VImage.get_double native h self field uninit = .error Failure.VError ↔
        (native self.toVObject.vobject field uninit).1 ≠ 0) ∧
      ((native self.toVObject.vobject field uninit).1 = 0 →
        VImage.get_double native h self field uninit =
          .ok (native self.toVObject.vobject field uninit).2)) ∧
    (∀ (native : NativeGet String) (uninit : String),
      (VImage.get_string native h self field uninit = .error Failure.VError ↔
        (native self.toVObject.vobject field uninit).1 ≠ 0) ∧
      ((native self.toVObject.vobject field uninit).1 = 0 →
        VImage.get_string native h self field uninit =
          .ok (native self.toVObject.vobject field uninit).2)) ∧
    (∀ (native : NativeGet (Ptr × Nat)) (uninit : Ptr) (length : Nat),
      (VImage.get_blob native h self field uninit length = .error Failure.VError ↔
        (native self.toVObject.vobject field (uninit, length)).1 ≠ 0) ∧
      ((native self.toVObject.vobject field (uninit, length)).1 = 0 →
        VImage.get_blob native h self field uninit length =
          .ok (native self.toVObject.vobject field (uninit, length)).2)) ∧
    (∀ (native : NativeGet ((Nat → Int) × Int)) (out : Nat → Int) (n : Int),
      (VImage.get_array_int_out native h self field out n = .error Failure.VError ↔
        (native self.toVObject.vobject field (out, n)).1 ≠ 0) ∧
      ((native self.toVObject.vobject field (out, n)).1 = 0 →
        VImage.get_array_int_out native h self field out n =
          .ok (native self.toVObject.vobject field (out, n)).2)) ∧
    (∀ (native : NativeGet ((Nat → Int) × Int)) (uninit : (Nat → Int) × Int),
      (VImage.get_array_int native h self field uninit = .error Failure.VError ↔
        (native self.toVObject.vobject field uninit).1 ≠ 0) ∧
      ((native self.toVObject.vobject field uninit).1 = 0 →
        0 ≤ (native self.toVObject.vobject field uninit).2.2 →
        VImage.get_array_int native h self field uninit =
          .ok ((List.range (native self.toVObject.vobject field uninit).2.2.toNat).map
            (native self.toVObject.vobject field uninit).2.1))) := by
  have himg := get_image_of_valid h self hv
  refine ⟨?_, ?_, ?_, ?_, ?_, ?_⟩
  · intro native uninit
    constructor
    · by_cases hs : (native self.toVObject.vobject field uninit).1 = 0 <;>
        simp [VImage.get_int, himg, hs]
    · intro hs
      simp [VImage.get_int, himg, hs]
  · intro native uninit
    constructor
    · by_cases hs : (native self.toVObject.vobject field uninit).1 = 0 <;>
        simp [VImage.get_double, himg, hs]
    · intro hs
      simp [VImage.get_double, himg, hs]
  · intro native uninit
    constructor
    · by_cases hs : (native self.toVObject.vobject field uninit).1 = 0 <;>
        simp [VImage.get_string, himg, hs]
    · intro hs
      simp [VImage.get_string, himg, hs]
  · intro native uninit length
    constructor
    · by_cases hs : (native self.toVObject.vobject field (uninit, length)).1 = 0 <;>
        simp [VImage.get_blob, himg, hs]
    · intro hs
      simp [VImage.get_blob, himg, hs]
  · intro native out n
    constructor
    · by_cases hs : (native self.toVObject.vobject field (out, n)).1 = 0 <;>
        simp [VImage.get_array_int_out, himg, hs]
    · intro hs
      simp [VImage.get_array_int_out, himg, hs]
  · intro native uninit
    constructor
    · by_cases hs : (native self.toVObject.vobject field uninit).1 = 0
      · by_cases hl : (native self.toVObject.vobject field uninit).2.2 < 0 <;>
          simp [VImage.get_array_int, himg, hs, vector_of_range, hl]
      · simp [VImage.get_array_int, himg, hs]
    · intro hs hl
      have hl2 : ¬ (native self.toVObject.vobject field uninit).2.2 < 0 := by omega
      simp [VImage.get_array_int, himg, hs, vector_of_range, hl2]

/-- Witness for C9: `get_int` on the handle of the object at `7` with a native
getter that succeeds and writes `42`, the local holding `-1` before. -/
theorem getters_raise_iff_native_fails_witness :
    VImage.get_int nativeGetAnswer sampleHeap { toVObject := { vobject := 7 } } "width" (-1) =
      .ok 42 :=
  ((getters_raise_iff_native_fails sampleHeap { toVObject := { vobject := 7 } } "width"
    (Or.inr (by decide))).1 nativeGetAnswer (-1)).2 rfl

/-- C10: on a handle wrapping a live image, `set( field, v )` with the int,
double or string overload succeeds, and the matching getter called next on the
same field returns `v` and does not raise, whatever the local of the getter
held before. Doubles are compared as bit patterns and strings as their
characters. -/
theorem set_then_get_round_trip (h : GHeap) (m : MetaStore) (self : VImage) (field : String)
    (hlive : 0 < h.ref_count self.toVObject.vobject) :
    (∀ v : Int, ∃ m1, VImage.set_int vips_image_set_int h self field v m = .ok m1 ∧
      ∀ uninit, VImage.get_int (vips_image_get_int m1) h self field uninit = .ok v) ∧
    (∀ v : Double, ∃ m1, VImage.set_double vips_image_set_double h self field v m = .ok m1 ∧
      ∀ uninit, VImage.get_double (vips_image_get_double m1) h self field uninit = .ok v) ∧
    (∀ v : String, ∃ m1, VImage.set_string vips_image_set_string h self field v m = .ok m1 ∧
      ∀ uninit, VImage.get_string (vips_image_get_string m1) h self field uninit = .ok v) := by
  have himg := get_image_of_valid h self (Or.inr hlive)
  refine ⟨?_, ?_, ?_⟩
  · intro v
    refine ⟨vips_image_set_int self.toVObject.vobject field v m, ?_, ?_⟩
    · simp [VImage.set_int, himg]
    · intro uninit
      simp [VImage.get_int, himg, vips_image_get_int, vips_image_set_int, MetaStore.set]
  · intro v
    refine ⟨vips_image_set_double self.toVObject.vobject field v m, ?_, ?_⟩
    · simp [VImage.set_double, himg]
    · intro uninit
      simp [VImage.get_double, himg, vips_image_get_double, vips_image_set_double,
        MetaStore.set]
  · intro v
    refine ⟨vips_image_set_string self.toVObject.vobject field v m, ?_, ?_⟩
    · simp [VImage.set_string, himg]
    · intro uninit
      simp [VImage.get_string, himg, vips_image_get_string, vips_image_set_string,
        MetaStore.set]

/-- Witness for C10: the int `5` stored under `"orientation"` on the image at
`7` and read back. -/
theorem set_then_get_round_trip_witness :
    ∃ m1, VImage.set_int vips_image_set_int sampleHeap { toVObject := { vobject := 7 } }
        "orientation" 5 emptyStore = .ok m1 ∧
      VImage.get_int (vips_image_get_int m1) sampleHeap { toVObject := { vobject := 7 } }
        "orientation" 0 = .ok 5 := by
  obtain ⟨m1, hset, hget⟩ :=
    (set_then_get_round_trip sampleHeap emptyStore { toVObject := { vobject := 7 } }
      "orientation" (by decide)).1 5
  exact ⟨m1, hset, hget 0⟩

theorem getter_mismatch_of_stored (h : GHeap) (m : MetaStore) (self : VImage) (field : String)
    (hlive : 0 < h.ref_count self.toVObject.vobject) (w : MetaValue)
    (hw : m.fields self.toVObject.vobject field = some w) :
    ((∀ i, w ≠ MetaValue.int i) → ∀ uninit,
      VImage.get_int (vips_image_get_int m) h self field uninit = .error Failure.VError) ∧
    ((∀ d, w ≠ MetaValue.double d) → ∀ uninit,
      VImage.get_double (vips_image_get_double m) h self field uninit =
        .error Failure.VError) ∧
    ((∀ t, w ≠ MetaValue.string t) → ∀ uninit,
      VImage.get_string (vips_image_get_string m) h self field uninit =
        .error Failure.VError) ∧
    ((∀ d l, w ≠ MetaValue.blob d l) → ∀ uninit length,
      VImage.get_blob (vips_image_get_blob m) h self field uninit length =
        .error Failure.VError) ∧
    ((∀ a, w ≠ MetaValue.array_int a) → ∀ out n,
      VImage.get_array_int_out (vips_image_get_array_int m) h self field out n =
        .error Failure.VError) ∧
    ((∀ a, w ≠ MetaValue.array_int a) → ∀ uninit,
      VImage.get_array_int (vips_image_get_array_int m) h self field uninit =
        .error Failure.VError) := by
  have himg := get_image_of_valid h self (Or.inr hlive)
  refine ⟨?_, ?_, ?_, ?_, ?_, ?_⟩
  · intro hne uninit
    cases w <;> first
      | exact absurd rfl (hne _)
      | simp [VImage.get_int, himg, vips_image_get_int, hw]
  · intro hne uninit
    cases w <;> first
      | exact absurd rfl (hne _)
      | simp [VImage.get_double, himg, vips_image_get_double, hw]
  · intro hne uninit
    cases w <;> first
      | exact absurd rfl (hne _)
      | simp [VImage.get_string, himg, vips_image_get_string, hw]
  · intro hne uninit length
    cases w <;> first
      | exact absurd rfl (hne _ _)
      | simp [VImage.get_blob, himg, vips_image_get_blob, hw]
  · intro hne out n
    cases w <;> first
      | exact absurd rfl (hne _)
      | simp [VImage.get_array_int_out, himg, vips_image_get_array_int, hw]
  · intro hne uninit
    cases w <;> first
      | exact absurd rfl (hne _)
      | simp [VImage.get_array_int, himg, vips_image_get_array_int, hw]

theorem fields_set_self (m : MetaStore) (image : Ptr) (field : String) (v : MetaValue) :
    (m.set image field v).fields image field = some v := by
  simp [MetaStore.set]

/-- C11: on a handle wrapping a live image, every typed getter (`get_int`,
`get_double`, `get_string`, `get_blob`, both forms of `get_array_int`) called
for a field name that the metadata store of the image does not hold raises
`VError`. -/
theorem getters_raise_on_missing_field (h : GHeap) (m : MetaStore) (self : VImage)
    (field : String) (hlive : 0 < h.ref_count self.toVObject.vobject)
    (hmiss : m.fields self.toVObject.vobject field = none) :
    (∀ uninit, VImage.get_int (vips_image_get_int m) h self field uninit =
      .error Failure.VError) ∧
    (∀ uninit, VImage.get_double (vips_image_get_double m) h self field uninit =
      .error Failure.VError) ∧
    (∀ uninit, VImage.get_string (vips_image_get_string m) h self field uninit =
      .error Failure.VError) ∧
    (∀ uninit length, VImage.get_blob (vips_image_get_blob m) h self field uninit length =
      .error Failure.VError) ∧
    (∀ out n, VImage.get_array_int_out (vips_image_get_array_int m) h self field out n =
      .error Failure.VError) ∧
    (∀ uninit, VImage.get_array_int (vips_image_get_array_int m) h self field uninit =
      .error Failure.VError) := by
  have himg := get_image_of_valid h self (Or.inr hlive)
  refine ⟨?_, ?_, ?_, ?_, ?_, ?_⟩
  · intro uninit
    simp [VImage.get_int, himg, vips_image_get_int, hmiss]
  · intro uninit
    simp [VImage.get_double, himg, vips_image_get_double, hmiss]
  · intro uninit
    simp [VImage.get_string, himg, vips_image_get_string, hmiss]
  · intro uninit length
    simp [VImage.get_blob, himg, vips_image_get_blob, hmiss]
  · intro out n
    simp [VImage.get_array_int_out, himg, vips_image_get_array_int, hmiss]
  · intro uninit
    simp [VImage.get_array_int, himg, vips_image_get_array_int, hmiss]

/-- Witness for C11: `get_int` of `"orientation"` on the image at `7` with an
empty metadata store. -/
theorem getters_raise_on_missing_field_witness :
    VImage.get_int (vips_image_get_int emptyStore) sampleHeap
      { toVObject := { vobject := 7 } } "orientation" 0 = .error Failure.VError :=
  (getters_raise_on_missing_field sampleHeap emptyStore { toVObject := { vobject := 7 } }
    "orientation" (by decide) rfl).1 0

/-- C12: on a handle wrapping a live image, after `set( field, v )` with the
int, double or string overload every getter of another type called on that
field raises `VError` and returns no value; more generally a getter raises
`VError` whenever the field holds a value of a type other than its own. -/
theorem getters_raise_on_type_mismatch (h : GHeap) (m : MetaStore) (self : VImage)
    (field : String) (hlive : 0 < h.ref_count self.toVObject.vobject) :
    (∀ v : Int, ∃ m1, VImage.set_int vips_image_set_int h self field v m = .ok m1 ∧
      (∀ u, VImage.get_double (vips_image_get_double m1) h self field u =
        .error Failure.VError) ∧
      (∀ u, VImage.get_string (vips_image_get_string m1) h self field u =
        .error Failure.VError) ∧
      (∀ u l, VImage.get_blob (vips_image_get_blob m1) h self field u l =
        .error Failure.VError) ∧
      (∀ o n, VImage.get_array_int_out (vips_image_get_array_int m1) h self field o n =
        .error Failure.VError) ∧
      (∀ u, VImage.get_array_int (vips_image_get_array_int m1) h self field u =
        .error Failure.VError)) ∧
    (∀ v : Double, ∃ m1, VImage.set_double vips_image_set_double h self field v m = .ok m1 ∧
      (∀ u, VImage.get_int (vips_image_get_int m1) h self field u =
        .error Failure.VError) ∧
      (∀ u, VImage.get_string (vips_image_get_string m1) h self field u =
        .error Failure.VError) ∧
      (∀ u l, VImage.get_blob (vips_image_get_blob m1) h self field u l =
        .error Failure.VError) ∧
      (∀ o n, VImage.get_array_int_out (vips_image_get_array_int m1) h self field o n =
        .error Failure.VError) ∧
      (∀ u, VImage.get_array_int (vips_image_get_array_int m1) h self field u =
        .error Failure.VError)) ∧
    (∀ v : String, ∃ m1, VImage.set_string vips_image_set_string h self field v m = .ok m1 ∧
      (∀ u, VImage.get_int (vips_image_get_int m1) h self field u =
        .error Failure.VError) ∧
      (∀ u, VImage.get_double (vips_image_get_double m1) h self field u =
        .error Failure.VError) ∧
      (∀ u l, VImage.get_blob (vips_image_get_blob m1) h self field u l =
        .error Failure.VError) ∧
      (∀ o n, VImage.get_array_int_out (vips_image_get_array_int m1) h self field o n =
        .error Failure.VError) ∧
      (∀ u, VImage.get_array_int (vips_image_get_array_int m1) h self field u =
        .error Failure.VError)) ∧
    (∀ w, m.fields self.toVObject.vobject field = some w →
      ((∀ i, w ≠ MetaValue.int i) → ∀ u,
        VImage.get_int (vips_image_get_int m) h self field u = .error Failure.VError) ∧
      ((∀ d, w ≠ MetaValue.double d) → ∀ u,
        VImage.get_double (vips_image_get_double m) h self field u = .error Failure.VError) ∧
      ((∀ t, w ≠ MetaValue.string t) → ∀ u,
        VImage.get_string (vips_image_get_string m) h self field u =
          .error Failure.VError)) := by
  have himg := get_image_of_valid h self (Or.inr hlive)
  refine ⟨?_, ?_, ?_, ?_⟩
  · intro v
    have key := getter_mismatch_of_stored h
      (vips_image_set_int self.toVObject.vobject field v m) self field hlive
      (MetaValue.int v) (fields_set_self m _ _ _)
    refine ⟨vips_image_set_int self.toVObject.vobject field v m, ?_, ?_, ?_, ?_, ?_, ?_⟩
    · simp [VImage.set_int, himg]
    · exact key.2.1 (by intro d; simp)
    · exact key.2.2.1 (by intro t; simp)
    · exact key.2.2.2.1 (by intro d l; simp)
    · exact key.2.2.2.2.1 (by intro a; simp)
    · exact key.2.2.2.2.2 (by intro a; simp)
  · intro v
    have key := getter_mismatch_of_stored h
      (vips_image_set_double self.toVObject.vobject field v m) self field hlive
      (MetaValue.double v) (fields_set_self m _ _ _)
    refine ⟨vips_image_set_double self.toVObject.vobject field v m, ?_, ?_, ?_, ?_, ?_, ?_⟩
    · simp [VImage.set_double, himg]
    · exact key.1 (by intro i; simp)
    · exact key.2.2.1 (by intro t; simp)
    · exact key.2.2.2.1 (by intro d l; simp)
    · exact key.2.2.2.2.1 (by intro a; simp)
    · exact key.2.2.2.2.2 (by intro a; simp)
  · intro v
    have key := getter_mismatch_of_stored h
      (vips_image_set_string self.toVObject.vobject field v m) self field hlive
      (MetaValue.string v) (fields_set_self m _ _ _)
    refine ⟨vips_image_set_string self.toVObject.vobject field v m, ?_, ?_, ?_, ?_, ?_, ?_⟩
    · simp [VImage.set_string, himg]
    · exact key.1 (by intro i; simp)
    · exact key.2.1 (by intro d; simp)
    · exact key.2.2.2.1 (by intro d l; simp)
    · exact key.2.2.2.2.1 (by intro a; simp)
    · exact key.2.2.2.2.2 (by intro a; simp)
  · intro w hw
    have key := getter_mismatch_of_stored h m self field hlive w hw
    exact ⟨key.1, key.2.1, key.2.2.1⟩

/-- Witness for C12: `"hello"` stored under `"comment"` on the image at `7`,
then read with `get_int`. -/
theorem getters_raise_on_type_mismatch_witness :
    ∃ m1, VImage.set_string vips_image_set_string sampleHeap
        { toVObject := { vobject := 7 } } "comment" "hello" emptyStore = .ok m1 ∧
      VImage.get_int (vips_image_get_int m1) sampleHeap { toVObject := { vobject := 7 } }
        "comment" 0 = .error Failure.VError := by
  obtain ⟨m1, hset, hint, -⟩ :=
    (getters_raise_on_type_mismatch sampleHeap emptyStore { toVObject := { vobject := 7 } }
      "comment" (by decide)).2.2.1 "hello"
  exact ⟨m1, hset, hint 0⟩

/-! ## Observers of the handle -/

theorem new_of_valid (h : GHeap) (p : Ptr) (steal : VSteal)
    (hp : p = 0 ∨ 0 < h.ref_count p) :
    VObject.new h p steal = .ok ({ vobject := p }, h.run (VObject.new_calls p steal)) := by
  have hassert : VObject.g_assert_object h p = true :=
    g_assert_object_of_valid h { vobject := p } hp
  simp [VObject.new, hassert]

theorem run_new_calls_live (h : GHeap) (p : Ptr) (steal : VSteal)
    (hp : 0 < h.ref_count p) : 0 < (h.run (VObject.new_calls p steal)).ref_count p := by
  unfold VObject.new_calls
  split
  · simp only [GHeap.run, GCall.exec]
    rw [ref_count_ref_self]
    omega
  · simpa [GHeap.run] using hp

theorem run_assign_calls_live (h : GHeap) (x a : VObject)
    (ha : 0 < h.ref_count a.vobject) (hnn : a.vobject ≠ 0) :
    0 < (h.run (VObject.assign_calls x a)).ref_count a.vobject := by
  by_cases hx : x.vobject = 0
  · simp [VObject.assign_calls, hx, hnn, GHeap.run, GCall.exec, g_object_ref]
  · by_cases hsame : a.vobject = x.vobject
    · simp only [VObject.assign_calls, hx, hnn, ne_eq, not_false_eq_true, if_true,
        List.singleton_append, GHeap.run, GCall.exec]
      rw [← hsame, ref_then_unref_count]
      exact ha
    · simp [VObject.assign_calls, hx, hnn, GHeap.run, GCall.exec, g_object_ref,
        g_object_unref, hsame]

/-- C13: `is_null()` is true exactly when the wrapped pointer is null, for
`VObject` and for `VImage`; the default-constructed `VObject` and `VImage` are
null; and a handle constructed from a non-null pointer to a live object, under
either mode, is not null. -/
theorem is_null_iff_null_pointer :
    (∀ x : VObject, x.is_null = true ↔ x.vobject = 0) ∧
    (∀ v : VImage, v.is_null = true ↔ v.toVObject.vobject = 0) ∧
    VObject.null.is_null = true ∧
    (∀ h : GHeap, ∃ v, VImage.null h = .ok (v, h) ∧ v.is_null = true) ∧
    (∀ (h : GHeap) (p : Ptr) (steal : VSteal), p ≠ 0 → 0 < h.ref_count p →
      ∃ o v h1, VObject.new h p steal = .ok (o, h1) ∧ o.is_null = false ∧
        VImage.new h p steal = .ok (v, h1) ∧ v.is_null = false) := by
  refine ⟨?_, ?_, rfl, ?_, ?_⟩
  · intro x
    simp [VObject.is_null]
  · intro v
    simp [VImage.is_null, VObject.is_null]
  · intro h
    refine ⟨{ toVObject := { vobject := 0 } }, ?_, rfl⟩
    simp [VImage.null, VImage.new_steal, VImage.new, VObject.new, VObject.g_assert_object,
      VObject.new_calls, GHeap.run]
  · intro h p steal hp hlive
    have hnew := new_of_valid h p steal (Or.inr hlive)
    refine ⟨{ vobject := p }, { toVObject := { vobject := p } },
      h.run (VObject.new_calls p steal), hnew, ?_, ?_, ?_⟩
    · simp [VObject.is_null, hp]
    · simp [VImage.new, hnew]
    · simp [VImage.is_null, VObject.is_null, hp]

/-- Witness for C13: a handle made from the live object at `7`. -/
theorem is_null_iff_null_pointer_witness :
    ∃ o v h1, VObject.new sampleHeap 7 VSteal.NOSTEAL = .ok (o, h1) ∧ o.is_null = false ∧
      VImage.new sampleHeap 7 VSteal.NOSTEAL = .ok (v, h1) ∧ v.is_null = false :=
  is_null_iff_null_pointer.2.2.2.2 sampleHeap 7 VSteal.NOSTEAL (by decide) (by decide)

/-- C14: on a well-formed handle `get_object()` and `get_image()` return the
wrapped pointer: the pointer given at construction, the pointer of the source
after a copy, and the pointer of the source after an assignment. The observers
`get_object`, `get_image` and `is_null` are const, make no native call, and so
leave every reference count as it was. -/
theorem get_object_returns_wrapped_pointer (h : GHeap) :
    (∀ x : VObject, x.valid h →
      x.get_object h = .ok x.vobject ∧
      VImage.get_image h { toVObject := x } = .ok x.vobject) ∧
    (∀ (p : Ptr) (steal : VSteal), (p = 0 ∨ 0 < h.ref_count p) →
      ∃ o h1, VObject.new h p steal = .ok (o, h1) ∧ o.get_object h1 = .ok p ∧
        VImage.get_image h1 { toVObject := o } = .ok p) ∧
    (∀ a : VObject, a.valid h →
      ∃ c h1, VObject.copy h a = .ok (c, h1) ∧ c.get_object h1 = .ok a.vobject) ∧
    (∀ x a : VObject, x.valid h → a.valid h →
      ∃ x1 h1, VObject.assign h x a = .ok (x1, h1) ∧ x1.get_object h1 = .ok a.vobject) ∧
    (∀ x : VObject,
      VObject.get_object_calls x = [] ∧ VObject.is_null_calls x = [] ∧
      VImage.get_image_calls { toVObject := x } = [] ∧
      h.run (VObject.get_object_calls x) = h ∧ h.run (VObject.is_null_calls x) = h ∧
      h.run (VImage.get_image_calls { toVObject := x }) = h) := by
  refine ⟨?_, ?_, ?_, ?_, ?_⟩
  · intro x hv
    have hassert := g_assert_object_of_valid h x hv
    constructor
    · simp [VObject.get_object, hassert]
    · simp [VImage.get_image, VObject.get_object, hassert]
  · intro p steal hp
    have hnew := new_of_valid h p steal hp
    have hassert : VObject.g_assert_object (h.run (VObject.new_calls p steal)) p = true := by
      rcases hp with h0 | hlive
      · simp [VObject.g_assert_object, h0]
      · exact g_assert_object_of_pos _ _ (run_new_calls_live h p steal hlive)
    refine ⟨{ vobject := p }, h.run (VObject.new_calls p steal), hnew, ?_, ?_⟩
    · simp [VObject.get_object, hassert]
    · simp [VImage.get_image, VObject.get_object, hassert]
  · intro a hv
    have hassert := g_assert_object_of_valid h a hv
    have hassert1 : VObject.g_assert_object (h.run (VObject.copy_calls a)) a.vobject = true := by
      by_cases h0 : a.vobject = 0
      · simp [VObject.g_assert_object, h0]
      · apply g_assert_object_of_pos
        simp [VObject.copy_calls, h0, GHeap.run, GCall.exec, g_object_ref]
    refine ⟨{ vobject := a.vobject }, h.run (VObject.copy_calls a), ?_, ?_⟩
    · simp [VObject.copy, hassert]
    · simp [VObject.get_object, hassert1]
  · intro x a hvx hva
    have hax := g_assert_object_of_valid h x hvx
    have haa := g_assert_object_of_valid h a hva
    have hassert1 :
        VObject.g_assert_object (h.run (VObject.assign_calls x a)) a.vobject = true := by
      by_cases h0 : a.vobject = 0
      · simp [VObject.g_assert_object, h0]
      · have hlive : 0 < h.ref_count a.vobject := by
          rcases hva with hz | hp
          · exact absurd hz h0
          · exact hp
        exact g_assert_object_of_pos _ _ (run_assign_calls_live h x a hlive h0)
    refine ⟨{ vobject := a.vobject }, h.run (VObject.assign_calls x a), ?_, ?_⟩
    · simp [VObject.assign, hax, haa]
    · simp [VObject.get_object, hassert1]
  · intro x
    exact ⟨rfl, rfl, rfl, rfl, rfl, rfl⟩

/-- Witness for C14: the handle of the live object at `7`, and a copy of it. -/
theorem get_object_returns_wrapped_pointer_witness :
    VObject.get_object sampleHeap { vobject := 7 } = .ok 7 ∧
    ∃ c h1, VObject.copy sampleHeap { vobject := 7 } = .ok (c, h1) ∧
      c.get_object h1 = .ok 7 :=
  have w := get_object_returns_wrapped_pointer sampleHeap
  ⟨(w.1 { vobject := 7 } (Or.inr (by decide))).1,
    w.2.2.1 { vobject := 7 } (Or.inr (by decide))⟩

/-! ## The argument list -/

theorem set_all_options (o : VOption) (calls : List (String × Arg)) :
    (o.set_all calls).options = o.options ++ calls.map (fun c => Pair.of_arg c.1 c.2) := by
  induction calls generalizing o with
  | nil => simp [VOption.set_all]
  | cons c cs ih =>
    simp [VOption.set_all, ih, VOption.set]

theorem of_arg_name (name : String) (arg : Arg) : (Pair.of_arg name arg).name = name := by
  cases arg <;> rfl

theorem of_arg_input (name : String) (arg : Arg) :
    (Pair.of_arg name arg).input = arg.is_value := by
  cases arg <;> rfl

theorem of_arg_storage (name : String) (arg : Arg) (p : Ptr) (hp : arg.storage = some p) :
    (Pair.of_arg name arg).vimage = p := by
  cases arg <;> simp [Arg.storage] at hp <;> simp [Pair.of_arg, Pair.new, hp]

theorem of_arg_typed (name : String) (arg : Arg) :
    ∃ t, (Pair.of_arg name arg).value.g_type = some t := by
  cases arg <;> exact ⟨_, rfl⟩

/-- C15: every `set` overload appends one pair carrying the given name; the
pair is marked input exactly when the overload takes a value (the twelve value
overloads) and is marked output when it takes a pointer to caller storage (the
six pointer overloads), in which case the pair records that pointer, readable
through every member of the union; and whatever `set` calls follow, the pair
stays in place unchanged, so its direction never changes. -/
theorem set_marks_direction (o : VOption) (name : String) (arg : Arg) :
    ∃ pair, (o.set name arg).options = o.options ++ [pair] ∧
      pair.name = name ∧
      pair.input = arg.is_value ∧
      (arg.is_value = true ↔ arg.storage = none) ∧
      (∀ p, arg.storage = some p →
        pair.input = false ∧ pair.vimage = p ∧ pair.vbool = p ∧ pair.vint = p ∧
        pair.vdouble = p ∧ pair.vvector = p ∧ pair.vblob = p) ∧
      (∀ later : List (String × Arg), ∃ rest,
        ((o.set name arg).set_all later).options = o.options ++ pair :: rest ∧
        (o.options ++ pair :: rest).get? o.options.length = some pair) := by
  refine ⟨Pair.of_arg name arg, rfl, of_arg_name name arg, of_arg_input name arg, ?_, ?_, ?_⟩
  · cases arg <;> simp [Arg.is_value, Arg.storage]
  · intro p hp
    have hv := of_arg_storage name arg p hp
    refine ⟨?_, hv, hv, hv, hv, hv, hv⟩
    rw [of_arg_input]
    cases arg <;> simp [Arg.storage] at hp <;> rfl
  · intro later
    refine ⟨later.map (fun c => Pair.of_arg c.1 c.2), ?_, ?_⟩
    · rw [set_all_options]
      simp [VOption.set]
    · rw [List.get?_eq_getElem?, List.getElem?_append_right (le_refl _)]
      simp

/-- Witness for C15: an `int *` output registered under `"top"` at address
`100`, followed by an input. -/
theorem set_marks_direction_witness :
    ∃ pair, (VOption.new.set "top" (Arg.int_out 100)).options = [pair] ∧
      pair.input = false ∧ pair.vint = 100 ∧
      ((VOption.new.set "top" (Arg.int_out 100)).set_all
        [("threshold", Arg.double { bits := 0 })]).options.get? 0 = some pair := by
  obtain ⟨pair, hopt, -, -, -, hout, hlater⟩ :=
    set_marks_direction VOption.new "top" (Arg.int_out 100)
  obtain ⟨rest, hrest, hget⟩ := hlater [("threshold", Arg.double { bits := 0 })]
  have hone : (VOption.new.set "top" (Arg.int_out 100)).options = [pair] := by
    rw [hopt]
    rfl
  refine ⟨pair, hone, (hout 100 rfl).1, (hout 100 rfl).2.2.2.1, ?_⟩
  rw [hrest]
  exact hget

theorem set_operation_of_typed (operation : VipsOperation) (calls : List (String × Arg))
    (htyped : ∀ c ∈ calls, c.2.is_value = true →
      operation.property_type c.1 = (Pair.of_arg c.1 c.2).value.g_type) :
    VOption.set_operation operation (calls.map (fun c => Pair.of_arg c.1 c.2)) =
      .ok ((calls.filter (fun c => c.2.is_value)).map
        (fun c => (c.1, (Pair.of_arg c.1 c.2).value))) := by
  induction calls with
  | nil => simp [VOption.set_operation]
  | cons c cs ih =>
    have ih1 := ih (fun d hd => htyped d (List.mem_cons_of_mem c hd))
    simp only [List.map_cons, VOption.set_operation, of_arg_input, of_arg_name]
    by_cases hv : c.2.is_value = true
    · obtain ⟨t, ht⟩ := of_arg_typed c.1 c.2
      have hty := htyped c (List.mem_cons_self c cs) hv
      rw [ht] at hty
      simp [hv, hty, ht, ih1]
    · simp [hv, ih1]

theorem get_operation_of_produced (produced : List (String × GValue))
    (calls : List (String × Arg))
    (hprod : ∀ c ∈ calls, c.2.is_value = false →
      ∃ v, produced.lookup c.1 = some v ∧ v.g_type = (Pair.of_arg c.1 c.2).value.g_type) :
    VOption.get_operation produced (calls.map (fun c => Pair.of_arg c.1 c.2)) =
      .ok ((calls.filter (fun c => !c.2.is_value)).filterMap
        (fun c => (produced.lookup c.1).map (fun v => ((Pair.of_arg c.1 c.2).vimage, v)))) := by
  induction calls with
  | nil => simp [VOption.get_operation]
  | cons c cs ih =>
    have ih1 := ih (fun d hd => hprod d (List.mem_cons_of_mem c hd))
    simp only [List.map_cons, VOption.get_operation, of_arg_input, of_arg_name]
    by_cases hv : c.2.is_value = true
    · simp [hv, ih1]
    · have hv2 : c.2.is_value = false := by simpa using hv
      obtain ⟨v, hlook, hty⟩ := hprod c (List.mem_cons_self c cs) hv2
      simp [hv2, hlook, hty, ih1]

/-- C16: after a chain of `set` calls on a new `VOption` the list holds exactly
one pair per call, in call order. On an operation that declares every input
with the type given, `set_operation` succeeds and assigns the input pairs in
call order; on outputs that were all produced with the recorded kind,
`get_operation` succeeds and writes the output pairs to their storage in call
order. -/
theorem options_keep_call_order (calls : List (String × Arg)) (operation : VipsOperation)
    (produced : List (String × GValue)) :
    (VOption.new.set_all calls).options = calls.map (fun c => Pair.of_arg c.1 c.2) ∧
    (VOption.new.set_all calls).options.length = calls.length ∧
    (VOption.new.set_all calls).options.map Pair.name = calls.map Prod.fst ∧
    ((∀ c ∈ calls, c.2.is_value = true →
        operation.property_type c.1 = (Pair.of_arg c.1 c.2).value.g_type) →
      VOption.set_operation operation (VOption.new.set_all calls).options =
        .ok ((calls.filter (fun c => c.2.is_value)).map
          (fun c => (c.1, (Pair.of_arg c.1 c.2).value)))) ∧
    ((∀ c ∈ calls, c.2.is_value = false →
        ∃ v, produced.lookup c.1 = some v ∧ v.g_type = (Pair.of_arg c.1 c.2).value.g_type) →
      VOption.get_operation produced (VOption.new.set_all calls).options =
        .ok ((calls.filter (fun c => !c.2.is_value)).filterMap
          (fun c => (produced.lookup c.1).map
            (fun v => ((Pair.of_arg c.1 c.2).vimage, v))))) := by
  have hopt : (VOption.new.set_all calls).options =
      calls.map (fun c => Pair.of_arg c.1 c.2) := by
    rw [set_all_options]
    simp [VOption.new]
  refine ⟨hopt, ?_, ?_, ?_, ?_⟩
  · rw [hopt, List.length_map]
  · rw [hopt, List.map_map]
    apply List.map_congr_left
    intro c _
    exact of_arg_name c.1 c.2
  · intro htyped
    rw [hopt]
    exact set_operation_of_typed operation calls htyped
  · intro hprod
    rw [hopt]
    exact get_operation_of_produced produced calls hprod

/-- Witness for C16: an image input `"in"` and an `int *` output `"top"` on the
sample operation. -/
theorem options_keep_call_order_witness :
    VOption.set_operation sampleOperation
      (VOption.new.set_all
        [("in", Arg.image { toVObject := { vobject := 7 } }), ("top", Arg.int_out 100)]).options =
      .ok [("in", GValue.image 7)] :=
  (options_keep_call_order
    [("in", Arg.image { toVObject := { vobject := 7 } }), ("top", Arg.int_out 100)]
    sampleOperation []).2.2.2.1 (by
      intro c hc hv
      simp only [List.mem_cons, List.mem_singleton, List.not_mem_nil, or_false] at hc
      rcases hc with rfl | rfl
      · rfl
      · simp [Arg.is_value] at hv)

/-! ## Generic operation invocation -/

theorem set_operation_fails_on_mismatch (operation : VipsOperation) (pairs : List Pair)
    (p : Pair) (t : GType) (hmem : p ∈ pairs) (hin : p.input = true)
    (hdecl : operation.property_type p.name = some t) (hty : p.value.g_type ≠ some t) :
    ∃ e, VOption.set_operation operation pairs = .error e := by
  induction pairs with
  | nil => simp at hmem
  | cons q qs ih =>
    rcases List.mem_cons.mp hmem with hq | hq
    · subst hq
      exact ⟨Failure.VError, by simp [VOption.set_operation, hin, hdecl, hty]⟩
    · obtain ⟨e, he⟩ := ih hq
      unfold VOption.set_operation
      by_cases hqi : q.input = true
      · simp only [hqi, if_true]
        cases hprop : operation.property_type q.name with
        | none => exact ⟨Failure.VError, rfl⟩
        | some u =>
          by_cases hu : q.value.g_type = some u
          · simp only [hu, if_true, he]
            exact ⟨e, rfl⟩
          · simp only [hu, if_false]
            exact ⟨Failure.VError, rfl⟩
      · simp only [hqi]
        exact ⟨e, he⟩

/-- C17: when the operation name is known and the argument list holds an input
pair whose value type differs from the declared type of the property it
names, `call` raises `VError`; the operation is not executed (so not with a
coerced value) and the pair is not passed over. -/
theorem call_raises_on_wrong_typed_input (registry : Registry) (operation_name : String)
    (operation : VipsOperation) (o : VOption) (p : Pair) (t : GType)
    (hlookup : registry.vips_operation_new operation_name = some operation)
    (hmem : p ∈ o.options) (hin : p.input = true)
    (hdecl : operation.property_type p.name = some t) (hty : p.value.g_type ≠ some t) :
    (VImage.call registry operation_name (some o)).result = .error Failure.VError ∧
    CallEvent.build ∉ (VImage.call registry operation_name (some o)).events ∧
    (∃ e, VOption.set_operation operation o.options = .error e) := by
  obtain ⟨e, he⟩ := set_operation_fails_on_mismatch operation o.options p t hmem hin hdecl hty
  refine ⟨?_, ?_, e, he⟩
  · simp [VImage.call, hlookup, pairs_of, he]
  · simp [VImage.call, hlookup, pairs_of, he, delete_options]

/-- Witness for C17: the sample operation declares `"in"` as an image; the
list passes an int under that name. -/
theorem call_raises_on_wrong_typed_input_witness :
    (VImage.call sampleRegistry "find_top"
      (some (VOption.new.set "in" (Arg.int 5)))).result = .error Failure.VError :=
  (call_raises_on_wrong_typed_input sampleRegistry "find_top" sampleOperation
    (VOption.new.set "in" (Arg.int 5)) (Pair.of_arg "in" (Arg.int 5)) GType.image
    rfl (by simp [VOption.set, VOption.new]) rfl rfl (by decide)).1

/-- C18: on every exit path of `call` the argument list, when one was passed,
is deleted exactly once together with all its pairs, and the operation object
is released exactly once when the lookup created it (an unknown name creates
none, and none is released); and each failure path (unknown operation name,
failure while applying the inputs, failure while executing, a required output
not produced) raises `VError`, while the path without failure returns the
writes to caller storage. -/
theorem call_releases_on_every_path (registry : Registry) (operation_name : String)
    (options : Option VOption) :
    (VImage.call registry operation_name options).events.count CallEvent.operation_unref =
      (VImage.call registry operation_name options).events.count CallEvent.operation_new ∧
    (VImage.call registry operation_name options).events.count CallEvent.operation_new =
      (if (registry.vips_operation_new operation_name).isSome then 1 else 0) ∧
    (VImage.call registry operation_name options).events.filter CallEvent.is_delete =
      delete_options options ∧
    (∀ o, options = some o →
      (VImage.call registry operation_name options).events.count
        (CallEvent.options_delete (o.options.map Pair.name)) = 1) ∧
    (registry.vips_operation_new operation_name = none →
      (VImage.call registry operation_name options).result = .error Failure.VError) ∧
    (∀ operation, registry.vips_operation_new operation_name = some operation →
      (∀ e, VOption.set_operation operation (pairs_of options) = .error e →
        (VImage.call registry operation_name options).result = .error Failure.VError) ∧
      (∀ inputs, VOption.set_operation operation (pairs_of options) = .ok inputs →
        operation.build inputs = none →
        (VImage.call registry operation_name options).result = .error Failure.VError) ∧
      (∀ inputs produced e,
        VOption.set_operation operation (pairs_of options) = .ok inputs →
        operation.build inputs = some produced →
        VOption.get_operation produced (pairs_of options) = .error e →
        (VImage.call registry operation_name options).result = .error Failure.VError) ∧
      (∀ inputs produced writes,
        VOption.set_operation operation (pairs_of options) = .ok inputs →
        operation.build inputs = some produced →
        VOption.get_operation produced (pairs_of options) = .ok writes →
        (VImage.call registry operation_name options).result = .ok writes)) := by
  have hdel0 : ∀ e : CallEvent, e.is_delete = false → (delete_options options).count e = 0 := by
    intro e he
    cases options with
    | none => simp [delete_options]
    | some o =>
      simp only [delete_options, List.count_cons, List.count_nil, zero_add]
      split
      · rename_i hbeq
        have := eq_of_beq hbeq
        subst this
        simp [CallEvent.is_delete] at he
      · rfl
  have hdelf : (delete_options options).filter CallEvent.is_delete = delete_options options := by
    cases options <;> simp [delete_options, CallEvent.is_delete]
  have hu := hdel0 CallEvent.operation_unref rfl
  have hn := hdel0 CallEvent.operation_new rfl
  refine ⟨?_, ?_, ?_, ?_, ?_, ?_⟩
  · unfold VImage.call
    split
    · simp [hu, hn]
    · split
      · simp [List.count_cons, hu, hn]
      · split
        · simp [List.count_cons, hu, hn]
        · split
          · simp [List.count_cons, hu, hn]
          · simp [List.count_cons, List.count_append, hu, hn]
  · unfold VImage.call
    split
    · rename_i hl
      simp [hl, hn]
    · rename_i op hl
      split
      · simp [hl, List.count_cons, hn]
      · split
        · simp [hl, List.count_cons, hn]
        · split
          · simp [hl, List.count_cons, hn]
          · simp [hl, List.count_cons, List.count_append, hn]
  · unfold VImage.call
    split
    · exact hdelf
    · split
      · simp [List.filter_cons, CallEvent.is_delete, hdelf]
      · split
        · simp [List.filter_cons, CallEvent.is_delete, hdelf]
        · split
          · simp [List.filter_cons, CallEvent.is_delete, hdelf]
          · simp [List.filter_cons, List.filter_append, CallEvent.is_delete, hdelf]
  · intro o ho
    subst ho
    unfold VImage.call
    split
    · simp [delete_options]
    · split
      · simp [delete_options, List.count_cons]
      · split
        · simp [delete_options, List.count_cons]
        · split
          · simp [delete_options, List.count_cons]
          · simp [delete_options, List.count_cons]
  · intro hl
    simp [VImage.call, hl]
  · intro operation hl
    refine ⟨?_, ?_, ?_, ?_⟩
    · intro e he
      simp [VImage.call, hl, he]
    · intro inputs hi hb
      simp [VImage.call, hl, hi, hb]
    · intro inputs produced e hi hb hg
      simp [VImage.call, hl, hi, hb, hg]
    · intro inputs produced writes hi hb hg
      simp [VImage.call, hl, hi, hb, hg]

/-- Witness for C18: the sample operation run with an image input and an
`int *` output; the list of two pairs is deleted once and the result is the
write of the produced value to the registered storage. -/
theorem call_releases_on_every_path_witness :
    (VImage.call sampleRegistry "find_top"
      (some ((VOption.new.set "in" (Arg.image { toVObject := { vobject := 7 } })).set
        "top" (Arg.int_out 100)))).events.count
          (CallEvent.options_delete ["in", "top"]) = 1 ∧
    (VImage.call sampleRegistry "find_top"
      (some ((VOption.new.set "in" (Arg.image { toVObject := { vobject := 7 } })).set
        "top" (Arg.int_out 100)))).result = .ok [(100, GValue.int 3)] :=
  have w := call_releases_on_every_path sampleRegistry "find_top"
    (some ((VOption.new.set "in" (Arg.image { toVObject := { vobject := 7 } })).set
      "top" (Arg.int_out 100)))
  ⟨w.2.2.2.1 _ rfl,
    (w.2.2.2.2.2 sampleOperation rfl).2.2.2 [("in", GValue.image 7)] [("top", GValue.int 3)]
      [(100, GValue.int 3)] rfl rfl rfl⟩

/-! ## Generated members -/

set_option maxRecDepth 100000 in
/-- C20, as stated, fails: the generated member `find_trim` returns an `int`
and also takes three `int *` parameters, `top`, `width` and `height`, through
which further outputs are written; so not every generated member is free of
output pointer parameters. -/
theorem find_trim_writes_through_pointers :
    (∃ m ∈ generated_members, m.name = "find_trim" ∧ m.ret = CType.int ∧
      m.output_pointers = [(CType.ptr CType.int, "top"), (CType.ptr CType.int, "width"),
        (CType.ptr CType.int, "height")]) ∧
    ¬ (∀ m ∈ generated_members, m.output_pointers = []) := by
  have hmem : (⟨"find_trim", false, CType.int, [(CType.ptr CType.int, "top"),
      (CType.ptr CType.int, "width"), (CType.ptr CType.int, "height")]⟩ : Member) ∈
      generated_members := by
    decide
  refine ⟨⟨_, hmem, rfl, rfl, rfl⟩, ?_⟩
  intro hall
  have := hall _ hmem
  simp [Member.output_pointers, CType.is_output_pointer] at this

set_option maxRecDepth 100000 in
/-- C20, amended: each of the 286 generated members has one typed return value
(`void` for 34 of them); exactly three of them, `find_trim`, `profile` and
`project`, also take output pointer parameters (`int *top`, `int *width`,
`int *height`; `VImage *rows`; `VImage *rows`), none of these three returns
`void`, and no other generated member takes an output pointer parameter. -/
theorem generated_members_output_pointers :
    generated_members.length = 286 ∧
    (generated_members.filter (fun m => m.ret = CType.void)).length = 34 ∧
    (generated_members.filter (fun m => !m.output_pointers.isEmpty)).map
        (fun m => (m.name, m.ret, m.output_pointers)) =
      [("find_trim", CType.int, [(CType.ptr CType.int, "top"), (CType.ptr CType.int, "width"),
          (CType.ptr CType.int, "height")]),
        ("profile", CType.VImage, [(CType.ptr CType.VImage, "rows")]),
        ("project", CType.VImage, [(CType.ptr CType.VImage, "rows")])] ∧
    (generated_members.filter (fun m => m.output_pointers.isEmpty)).length = 283 := by
  refine ⟨by rfl, by decide, by decide, by decide⟩

/-! ## Vectors at the native boundary -/

theorem static_cast_int_of_small (n : Nat) (hn : n < 2 ^ 31) :
    static_cast_int n = (n : Int) := by
  unfold static_cast_int
  rw [Int.bmod_def]
  have hmod : (n : Int) % ((2 ^ 32 : Nat) : Int) = (n : Int) :=
    Int.emod_eq_of_lt (by omega) (by norm_num; omega)
  simp only [hmod]
  norm_num
  omega

theorem vector_element_address_zero {α : Type} (v : List α) (hne : v ≠ []) :
    vector_element_address v 0 = .ok v := by
  have hlen : 0 < v.length := List.length_pos.mpr hne
  simp [vector_element_address, hlen]

theorem set_vector_of_replicate (n : Nat) (hn : 0 < n) :
    VImage.set_array_int_vector (fun _ _ _ c _ => c) sampleHeap
        { toVObject := { vobject := 7 } } "lut" (List.replicate n 0) 0 =
      .ok (static_cast_int n) := by
  have himg : VImage.get_image sampleHeap { toVObject := { vobject := 7 } } = .ok 7 :=
    get_image_of_valid sampleHeap _ (Or.inr (by decide))
  have hne : List.replicate n (0 : Int) ≠ [] := by
    intro hnil
    have hlen := congrArg List.length hnil
    rw [List.length_replicate] at hlen
    simp at hlen
    omega
  simp only [VImage.set_array_int_vector, himg, vector_element_address_zero _ hne,
    List.length_replicate]

/-- C26, as stated, fails: for a vector of `2 ^ 31` ints the count handed to
the native setter is `static_cast<int>( 2147483648 )`, that is `-2147483648`,
not the size of the vector. -/
theorem set_vector_count_wraps_at_int_max :
    VImage.set_array_int_vector (fun _ _ _ c _ => c) sampleHeap
        { toVObject := { vobject := 7 } } "lut" (List.replicate (2 ^ 31) 0) 0 =
      .ok (-2147483648) ∧
    ((List.replicate (2 ^ 31) (0 : Int)).length : Int) ≠ -2147483648 := by
  have hcast : static_cast_int (2 ^ 31) = -2147483648 := by
    unfold static_cast_int
    decide
  constructor
  · have hset := set_vector_of_replicate (2 ^ 31) (by norm_num)
    rw [hcast] at hset
    exact hset
  · rw [List.length_replicate]
    have hnonneg : (0 : Int) ≤ ((2 ^ 31 : Nat) : Int) := Int.ofNat_nonneg _
    omega

/-- C26, amended: on a well-formed handle `set( field, std::vector<int> )` and
`new_from_image( std::vector<double> )` hand the native call the elements of
the vector from element `0` on, in order, and the count
`static_cast<int>( size )`, which is the size of the vector whenever the
vector has fewer than `2 ^ 31` elements; the access to element `0` is in
bounds exactly for the non-empty vectors, and for the empty vector the call is
undefined. -/
theorem vector_overloads_forward_elements (h : GHeap) (self : VImage)
    (hv : self.toVObject.valid h) :
    (∀ (native : Ptr → String → List Int → Int → Nat → Nat) (field : String)
        (value : List Int) (m : Nat), value ≠ [] →
      VImage.set_array_int_vector native h self field value m =
        .ok (native self.toVObject.vobject field value (static_cast_int value.length) m)) ∧
    (∀ (native : Ptr → List Double → Int → NativeNew) (pixel : List Double), pixel ≠ [] →
      VImage.new_from_image native h self pixel =
        if (native self.toVObject.vobject pixel (static_cast_int pixel.length) h).1 = 0
        then .error Failure.VError
        else VImage.new_steal
          (native self.toVObject.vobject pixel (static_cast_int pixel.length) h).2
          (native self.toVObject.vobject pixel (static_cast_int pixel.length) h).1) ∧
    (∀ n : Nat, n < 2 ^ 31 → static_cast_int n = (n : Int)) ∧
    (∀ value : List Int, vector_element_address value 0 = .ok value ↔ value ≠ []) ∧
    (∀ pixel : List Double, vector_element_address pixel 0 = .ok pixel ↔ pixel ≠ []) ∧
    (∀ (native : Ptr → String → List Int → Int → Nat → Nat) (field : String) (m : Nat),
      VImage.set_array_int_vector native h self field [] m = .error Failure.undefined) ∧
    (∀ (native : Ptr → List Double → Int → NativeNew),
      VImage.new_from_image native h self [] = .error Failure.undefined) := by
  have himg := get_image_of_valid h self hv
  refine ⟨?_, ?_, static_cast_int_of_small, ?_, ?_, ?_, ?_⟩
  · intro native field value m hne
    simp [VImage.set_array_int_vector, himg, vector_element_address_zero value hne]
  · intro native pixel hne
    simp [VImage.new_from_image, himg, vector_element_address_zero pixel hne]
  · intro value
    constructor
    · intro hok hnil
      subst hnil
      simp [vector_element_address] at hok
    · exact vector_element_address_zero value
  · intro pixel
    constructor
    · intro hok hnil
      subst hnil
      simp [vector_element_address] at hok
    · exact vector_element_address_zero pixel
  · intro native field m
    simp [VImage.set_array_int_vector, himg, vector_element_address]
  · intro native
    simp [VImage.new_from_image, himg, vector_element_address]

/-- Witness for C26: the vector `[1, 2, 3]` set on the image at `7`, with a
native setter that records the elements and the count it is given. -/
theorem vector_overloads_forward_elements_witness :
    VImage.set_array_int_vector (fun _ _ data n _ => data.length + n.toNat) sampleHeap
      { toVObject := { vobject := 7 } } "lut" [1, 2, 3] 0 = .ok 6 :=
  (vector_overloads_forward_elements sampleHeap { toVObject := { vobject := 7 } }
    (Or.inr (by decide))).1 (fun _ _ data n _ => data.length + n.toNat) "lut" [1, 2, 3] 0
    (by decide)

/-- C27: on a well-formed handle, when the native getter succeeds and reports
an array of length `n ≥ 0`, the vector form of `get_array_int` returns a vector
of exactly `n` elements whose `i`-th element is the `i`-th element of the
native array, and the pointer form called on the same field exposes that same
array and length. -/
theorem get_array_int_vector_matches_native
    (native : NativeGet ((Nat → Int) × Int)) (h : GHeap) (self : VImage) (field : String)
    (uninit : (Nat → Int) × Int) (hv : self.toVObject.valid h)
    (hs : (native self.toVObject.vobject field uninit).1 = 0)
    (hn : 0 ≤ (native self.toVObject.vobject field uninit).2.2) :
    ∃ l, VImage.get_array_int native h self field uninit = .ok l ∧
      (l.length : Int) = (native self.toVObject.vobject field uninit).2.2 ∧
      (∀ i, i < l.length →
        l.get? i = some ((native self.toVObject.vobject field uninit).2.1 i)) ∧
      VImage.get_array_int_out native h self field uninit.1 uninit.2 =
        .ok (native self.toVObject.vobject field uninit).2 ∧
      l = (List.range (native self.toVObject.vobject field uninit).2.2.toNat).map
        (native self.toVObject.vobject field uninit).2.1 := by
  have himg := get_image_of_valid h self hv
  have hl2 : ¬ (native self.toVObject.vobject field uninit).2.2 < 0 := by omega
  refine ⟨(List.range (native self.toVObject.vobject field uninit).2.2.toNat).map
    (native self.toVObject.vobject field uninit).2.1, ?_, ?_, ?_, ?_, rfl⟩
  · simp [VImage.get_array_int, himg, hs, vector_of_range, hl2]
  · simp only [List.length_map, List.length_range]
    exact Int.toNat_of_nonneg hn
  · intro i hi
    simp only [List.length_map, List.length_range] at hi
    simp [List.getElem?_range hi]
  · simp [VImage.get_array_int_out, himg, hs]

/-- Witness for C27: a native getter that reports the three-element array
`10, 11, 12` for the image at `7`. -/
theorem get_array_int_vector_matches_native_witness :
    ∃ l, VImage.get_array_int (fun _ _ _ => (0, (fun i => 10 + (i : Int)), 3)) sampleHeap
        { toVObject := { vobject := 7 } } "lut" ((fun _ => 0), 0) = .ok l ∧
      l = [10, 11, 12] := by
  obtain ⟨l, hget, -, -, -, hl⟩ :=
    get_array_int_vector_matches_native (fun _ _ _ => (0, (fun i => 10 + (i : Int)), 3))
      sampleHeap { toVObject := { vobject := 7 } } "lut" ((fun _ => 0), 0)
      (Or.inr (by decide)) rfl (by decide)
  refine ⟨l, hget, ?_⟩
  rw [hl]
  decide

/-- C28: a pair made by `Pair( name )` records the name, has `input == false`,
a null output pointer through every member of the union, and an all-zero value
slot of no type; and a pair built by a `set` overload is an input pair exactly
when the overload takes a value. -/
theorem fresh_pair_is_not_input (name : String) :
    (Pair.new name).name = name ∧
    (Pair.new name).input = false ∧
    (Pair.new name).vimage = 0 ∧ (Pair.new name).vbool = 0 ∧ (Pair.new name).vint = 0 ∧
    (Pair.new name).vdouble = 0 ∧ (Pair.new name).vvector = 0 ∧ (Pair.new name).vblob = 0 ∧
    (Pair.new name).value = GValue.zero ∧ (Pair.new name).value.g_type = none ∧
    (∀ arg : Arg, (Pair.of_arg name arg).input = true ↔ arg.is_value = true) := by
  refine ⟨rfl, rfl, rfl, rfl, rfl, rfl, rfl, rfl, rfl, rfl, ?_⟩
  intro arg
  rw [of_arg_input]

/-! ## Hand-written convenience members -/

theorem int_mul_of_small (a b : Int) (h0 : 0 ≤ a * b) (h1 : a * b < 2 ^ 31) :
    int_mul a b = a * b := by
  unfold int_mul
  rw [Int.bmod_def]
  have hmod : (a * b) % ((2 ^ 32 : Nat) : Int) = a * b :=
    Int.emod_eq_of_lt h0 (by norm_num; omega)
  simp only [hmod]
  norm_num
  omega

/-- C22: `median( size )` is the call `rank( size, size, index )` with
`index = (size * size) / 2` under truncating division of the 32-bit product.
For `1 ≤ size ≤ 46340` the product does not overflow (it is below `2 ^ 31`),
`0 ≤ index < size * size`, and for odd `size` the index is
`(size * size - 1) / 2`, the exact middle; the default `size = 3` gives
`rank( 3, 3, 4 )`. -/
theorem median_is_rank_at_middle (self : VImage) (options : Option VOption) (size : Int)
    (hlo : 1 ≤ size) (hhi : size ≤ 46340) :
    int_mul size size = size * size ∧ size * size < 2 ^ 31 ∧
    self.median size options = self.rank size size (size * size / 2) options ∧
    Int.tdiv (size * size) 2 = size * size / 2 ∧
    0 ≤ size * size / 2 ∧ size * size / 2 < size * size ∧
    (size % 2 = 1 → size * size / 2 = (size * size - 1) / 2 ∧
      2 * (size * size / 2) + 1 = size * size) ∧
    self.median_default = self.rank 3 3 4 none := by
  have hsq_lo : 1 ≤ size * size := by nlinarith
  have hsq_hi : size * size ≤ 46340 * 46340 := by nlinarith
  have hlt : size * size < 2 ^ 31 := by
    have : (46340 : Int) * 46340 < 2 ^ 31 := by norm_num
    omega
  have hmul := int_mul_of_small size size (by omega) hlt
  refine ⟨hmul, hlt, ?_, Int.tdiv_eq_ediv (by omega) (by decide), ?_, ?_, ?_, ?_⟩
  · unfold VImage.median
    rw [hmul, Int.tdiv_eq_ediv (by omega) (by decide)]
  · omega
  · omega
  · intro hodd
    have hsq_odd : size * size % 2 = 1 := by
      rw [Int.mul_emod, hodd]
      rfl
    constructor <;> omega
  · rfl

/-- Witness for C22: `median( 5 )` on the image at `7` is `rank( 5, 5, 12 )`. -/
theorem median_is_rank_at_middle_witness :
    VImage.median { toVObject := { vobject := 7 } } 5 none =
      VImage.rank { toVObject := { vobject := 7 } } 5 5 12 none :=
  (median_is_rank_at_middle { toVObject := { vobject := 7 } } none 5
    (by decide) (by decide)).2.2.1

/-- C23: each scalar overload is the vector overload at `to_vector` of the
scalar, with the other arguments and the options passed through: the three
mixed `linear` overloads are `linear` on vectors; `bandjoin( double )` is
`bandjoin_const`; `pow( double )` and `wop( double )` are `math2_const` with
`VIPS_OPERATION_MATH2_POW` and `VIPS_OPERATION_MATH2_WOP`; and each
`ifthenelse` overload with a `double` is the overload with a vector in that
place. -/
theorem scalar_overloads_are_vector_overloads (to_vector : Double → List Double)
    (self : VImage) (options : Option VOption) :
    (∀ a b : Double, self.linear_dd to_vector a b options =
      self.linear (to_vector a) (to_vector b) options) ∧
    (∀ (a : List Double) (b : Double), self.linear_vd to_vector a b options =
      self.linear a (to_vector b) options) ∧
    (∀ (a : Double) (b : List Double), self.linear_dv to_vector a b options =
      self.linear (to_vector a) b options) ∧
    (∀ c : Double, self.bandjoin_d to_vector c options =
      self.bandjoin_v (to_vector c) options ∧
      self.bandjoin_d to_vector c options = self.bandjoin_const (to_vector c) options) ∧
    (∀ c : Double, self.pow_d to_vector c options = self.pow_v (to_vector c) options ∧
      self.pow_d to_vector c options =
        self.math2_const VipsOperationMath2.VIPS_OPERATION_MATH2_POW (to_vector c) options) ∧
    (∀ c : Double, self.wop_d to_vector c options = self.wop_v (to_vector c) options ∧
      self.wop_d to_vector c options =
        self.math2_const VipsOperationMath2.VIPS_OPERATION_MATH2_WOP (to_vector c) options) ∧
    (∀ native h (th : Double) (el : VImage),
      self.ifthenelse_di to_vector native h th el options =
        self.ifthenelse_vi native h (to_vector th) el options) ∧
    (∀ native h (th : VImage) (el : Double),
      self.ifthenelse_id to_vector native h th el options =
        self.ifthenelse_iv native h th (to_vector el) options) ∧
    (∀ native h (th el : Double),
      self.ifthenelse_dd to_vector native h th el options =
        self.ifthenelse_vv native h (to_vector th) (to_vector el) options) := by
  refine ⟨?_, ?_, ?_, ?_, ?_, ?_, ?_, ?_, ?_⟩
  · intro a b; rfl
  · intro a b; rfl
  · intro a b; rfl
  · intro c; exact ⟨rfl, rfl⟩
  · intro c; exact ⟨rfl, rfl⟩
  · intro c; exact ⟨rfl, rfl⟩
  · intro native h th el; rfl
  · intro native h th el; rfl
  · intro native h th el; rfl

/-- C24: each named shortcut is the call of its generic member with the
enumerator of the same name, the mask (for `dilate` and `erode`) and the
options passed on unchanged; and within each family (`flip`, `rot`, `morph`,
`round`, `bandbool`, `complexget`, `complex`, `math`) no two shortcuts make the
same call, so no two share an enumerator. -/
theorem shortcuts_forward_named_constant (self mask : VImage) (options : Option VOption) :
    self.fliphor options = self.flip VipsDirection.VIPS_DIRECTION_HORIZONTAL options ∧
    self.flipver options = self.flip VipsDirection.VIPS_DIRECTION_VERTICAL options ∧
    self.rot90 options = self.rot VipsAngle.VIPS_ANGLE_D90 options ∧
    self.rot180 options = self.rot VipsAngle.VIPS_ANGLE_D180 options ∧
    self.rot270 options = self.rot VipsAngle.VIPS_ANGLE_D270 options ∧
    self.dilate mask options = self.morph mask VipsOperationMorphology.VIPS_OPERATION_MORPHOLOGY_DILATE options ∧
    self.erode mask options = self.morph mask VipsOperationMorphology.VIPS_OPERATION_MORPHOLOGY_ERODE options ∧
    self.floor options = self.round VipsOperationRound.VIPS_OPERATION_ROUND_FLOOR options ∧
    self.ceil options = self.round VipsOperationRound.VIPS_OPERATION_ROUND_CEIL options ∧
    self.rint options = self.round VipsOperationRound.VIPS_OPERATION_ROUND_RINT options ∧
    self.bandand options = self.bandbool VipsOperationBoolean.VIPS_OPERATION_BOOLEAN_AND options ∧
    self.bandor options = self.bandbool VipsOperationBoolean.VIPS_OPERATION_BOOLEAN_OR options ∧
    self.bandeor options = self.bandbool VipsOperationBoolean.VIPS_OPERATION_BOOLEAN_EOR options ∧
    self.real options = self.complexget VipsOperationComplexget.VIPS_OPERATION_COMPLEXGET_REAL options ∧
    self.imag options = self.complexget VipsOperationComplexget.VIPS_OPERATION_COMPLEXGET_IMAG options ∧
    self.polar options = self.complex VipsOperationComplex.VIPS_OPERATION_COMPLEX_POLAR options ∧
    self.rect options = self.complex VipsOperationComplex.VIPS_OPERATION_COMPLEX_RECT options ∧
    self.conj options = self.complex VipsOperationComplex.VIPS_OPERATION_COMPLEX_CONJ options ∧
    self.sin options = self.math VipsOperationMath.VIPS_OPERATION_MATH_SIN options ∧
    self.cos options = self.math VipsOperationMath.VIPS_OPERATION_MATH_COS options ∧
    self.tan options = self.math VipsOperationMath.VIPS_OPERATION_MATH_TAN options ∧
    self.asin options = self.math VipsOperationMath.VIPS_OPERATION_MATH_ASIN options ∧
    self.acos options = self.math VipsOperationMath.VIPS_OPERATION_MATH_ACOS options ∧
    self.atan options = self.math VipsOperationMath.VIPS_OPERATION_MATH_ATAN options ∧
    self.log options = self.math VipsOperationMath.VIPS_OPERATION_MATH_LOG options ∧
    self.log10 options = self.math VipsOperationMath.VIPS_OPERATION_MATH_LOG10 options ∧
    self.exp options = self.math VipsOperationMath.VIPS_OPERATION_MATH_EXP options ∧
    self.exp10 options = self.math VipsOperationMath.VIPS_OPERATION_MATH_EXP10 options ∧
    [self.fliphor options, self.flipver options].Nodup ∧
    [self.rot90 options, self.rot180 options, self.rot270 options].Nodup ∧
    [self.dilate mask options, self.erode mask options].Nodup ∧
    [self.floor options, self.ceil options, self.rint options].Nodup ∧
    [self.bandand options, self.bandor options, self.bandeor options].Nodup ∧
    [self.real options, self.imag options].Nodup ∧
    [self.polar options, self.rect options, self.conj options].Nodup ∧
    [self.sin options, self.cos options, self.tan options, self.asin options, self.acos options,
      self.atan options, self.log options, self.log10 options, self.exp options, self.exp10 options].Nodup := by
  refine ⟨rfl, rfl, rfl, rfl, rfl, rfl, rfl,
    rfl, rfl, rfl, rfl, rfl, rfl, rfl,
    rfl, rfl, rfl, rfl, rfl, rfl, rfl,
    rfl, rfl, rfl, rfl, rfl, rfl, rfl, ?_, ?_, ?_, ?_, ?_, ?_, ?_, ?_⟩ <;>
    simp [List.nodup_cons, VImage.fliphor, VImage.flipver, VImage.rot90, VImage.rot180, VImage.rot270, VImage.dilate,
      VImage.erode, VImage.floor, VImage.ceil, VImage.rint, VImage.bandand, VImage.bandor,
      VImage.bandeor, VImage.real, VImage.imag, VImage.polar, VImage.rect, VImage.conj,
      VImage.sin, VImage.cos, VImage.tan, VImage.asin, VImage.acos, VImage.atan, VImage.log,
      VImage.log10, VImage.exp, VImage.exp10, VImage.flip, VImage.rot, VImage.morph,
      VImage.round, VImage.bandbool, VImage.complexget, VImage.complex, VImage.math]

theorem new_steal_of_live (h : GHeap) (p : Ptr) (hlive : 0 < h.ref_count p) :
    VImage.new_steal h p = .ok ({ toVObject := { vobject := p } }, h) := by
  simp [VImage.new_steal, VImage.new, VObject.new, g_assert_object_of_pos h p hlive,
    VObject.new_calls, VSteal.toNat, GHeap.run]

theorem new_from_image_of_live (native : Ptr → List Double → Int → NativeNew) (h : GHeap)
    (self : VImage) (pixel : List Double) (r : Ptr × GHeap)
    (hv : self.toVObject.valid h) (hne : pixel ≠ [])
    (hr : native self.toVObject.vobject pixel (static_cast_int pixel.length) h = r)
    (hnn : r.1 ≠ 0) (hlive : 0 < r.2.ref_count r.1) :
    self.new_from_image native h pixel = .ok ({ toVObject := { vobject := r.1 } }, r.2) := by
  have himg := get_image_of_valid h self hv
  simp [VImage.new_from_image, himg, vector_element_address_zero pixel hne, hr, hnn,
    new_steal_of_live r.2 r.1 hlive]

/-- C25: in the `ifthenelse` overloads taking a constant vector the constant
image is made by `new_from_image` on the other branch when that branch is an
image (a constant `then` from `el`, a constant `else` from `th`) and on the
image the member is called on only when both branches are constants; the image
branch is handed on unchanged, and `then` stays the first and `else` the second
argument of the generated `ifthenelse`. Stated for non-empty constants and a
native creation call that returns a live image. -/
theorem ifthenelse_constant_from_other_branch
    (native : Ptr → List Double → Int → NativeNew) (h : GHeap) (self : VImage)
    (options : Option VOption) :
    (∀ (th : List Double) (el : VImage) (r : Ptr × GHeap), el.toVObject.valid h → th ≠ [] →
      native el.toVObject.vobject th (static_cast_int th.length) h = r →
      r.1 ≠ 0 → 0 < r.2.ref_count r.1 →
      self.ifthenelse_vi native h th el options =
        .ok ({ member := "ifthenelse", self := self,
               args := [CallArg.image { toVObject := { vobject := r.1 } }, CallArg.image el],
               options := options }, r.2)) ∧
    (∀ (th : VImage) (el : List Double) (r : Ptr × GHeap), th.toVObject.valid h → el ≠ [] →
      native th.toVObject.vobject el (static_cast_int el.length) h = r →
      r.1 ≠ 0 → 0 < r.2.ref_count r.1 →
      self.ifthenelse_iv native h th el options =
        .ok ({ member := "ifthenelse", self := self,
               args := [CallArg.image th, CallArg.image { toVObject := { vobject := r.1 } }],
               options := options }, r.2)) ∧
    (∀ (th el : List Double) (r1 r2 : Ptr × GHeap), self.toVObject.valid h → th ≠ [] →
      el ≠ [] →
      native self.toVObject.vobject th (static_cast_int th.length) h = r1 →
      r1.1 ≠ 0 → 0 < r1.2.ref_count r1.1 → self.toVObject.valid r1.2 →
      native self.toVObject.vobject el (static_cast_int el.length) r1.2 = r2 →
      r2.1 ≠ 0 → 0 < r2.2.ref_count r2.1 →
      self.ifthenelse_vv native h th el options =
        .ok ({ member := "ifthenelse", self := self,
               args := [CallArg.image { toVObject := { vobject := r1.1 } },
                 CallArg.image { toVObject := { vobject := r2.1 } }],
               options := options }, r2.2)) := by
  refine ⟨?_, ?_, ?_⟩
  · intro th el r hv hne hr hnn hlive
    simp [VImage.ifthenelse_vi, new_from_image_of_live native h el th r hv hne hr hnn hlive,
      VImage.ifthenelse]
  · intro th el r hv hne hr hnn hlive
    simp [VImage.ifthenelse_iv, new_from_image_of_live native h th el r hv hne hr hnn hlive,
      VImage.ifthenelse]
  · intro th el r1 r2 hv hth hel hr1 hnn1 hlive1 hv1 hr2 hnn2 hlive2
    simp [VImage.ifthenelse_vv,
      new_from_image_of_live native h self th r1 hv hth hr1 hnn1 hlive1,
      new_from_image_of_live native r1.2 self el r2 hv1 hel hr2 hnn2 hlive2,
      VImage.ifthenelse]

/-- Witness for C25: a constant `then` with the image at `7` as `else`; the
native creation call is given the address `7` and makes the constant at `8`. -/
theorem ifthenelse_constant_from_other_branch_witness :
    ∃ h1, VImage.ifthenelse_vi sampleNewFromImage sampleHeap { toVObject := { vobject := 3 } }
        [{ bits := 0 }] { toVObject := { vobject := 7 } } none =
      .ok ({ member := "ifthenelse", self := { toVObject := { vobject := 3 } },
             args := [CallArg.image { toVObject := { vobject := 8 } },
               CallArg.image { toVObject := { vobject := 7 } }],
             options := none }, h1) :=
  ⟨_, (ifthenelse_constant_from_other_branch sampleNewFromImage sampleHeap
    { toVObject := { vobject := 3 } } none).1 [{ bits := 0 }] { toVObject := { vobject := 7 } }
    (sampleNewFromImage 7 [{ bits := 0 }] (static_cast_int 1) sampleHeap)
    (Or.inr (by decide)) (by decide) rfl (by decide) (by decide)⟩

/-! ## Programs of handle operations -/

theorem wrapping_append_single (p : Ptr) (l : List VObject) (x : VObject) :
    wrapping p (l ++ [x]) = wrapping p l + (if x.vobject = p then 1 else 0) := by
  induction l with
  | nil => simp [wrapping]
  | cons y ys ih =>
    show wrapping p (y :: (ys ++ [x])) = wrapping p (y :: ys) + _
    simp only [wrapping, ih]
    omega

theorem wrapping_eraseIdx (p : Ptr) (l : List VObject) (i : Nat) (x : VObject)
    (hx : l.get? i = some x) :
    wrapping p (l.eraseIdx i) + (if x.vobject = p then 1 else 0) = wrapping p l := by
  induction l generalizing i with
  | nil => simp at hx
  | cons y ys ih =>
    cases i with
    | zero =>
      simp only [List.get?_cons_zero, Option.some.injEq] at hx
      subst hx
      simp only [List.eraseIdx_cons_zero, wrapping]
      omega
    | succ k =>
      simp only [List.get?_cons_succ] at hx
      have := ih k hx
      simp only [List.eraseIdx_cons_succ, wrapping]
      omega

theorem wrapping_set (p : Ptr) (l : List VObject) (i : Nat) (x y : VObject)
    (hx : l.get? i = some x) :
    wrapping p (l.set i y) + (if x.vobject = p then 1 else 0) =
      wrapping p l + (if y.vobject = p then 1 else 0) := by
  induction l generalizing i with
  | nil => simp at hx
  | cons z zs ih =>
    cases i with
    | zero =>
      simp only [List.get?_cons_zero, Option.some.injEq] at hx
      subst hx
      simp only [List.set_cons_zero, wrapping]
      omega
    | succ k =>
      simp only [List.get?_cons_succ] at hx
      have := ih k hx
      simp only [List.set_cons_succ, wrapping]
      omega

theorem wrapping_pos_of_get (l : List VObject) (i : Nat) (x : VObject)
    (hx : l.get? i = some x) : 1 ≤ wrapping x.vobject l := by
  have := wrapping_eraseIdx x.vobject l i x hx
  simp only [if_true] at this
  omega

theorem new_ok_inv (h : GHeap) (p : Ptr) (steal : VSteal) (x : VObject) (h1 : GHeap)
    (hr : VObject.new h p steal = .ok (x, h1)) :
    x = { vobject := p } ∧ h1 = h.run (VObject.new_calls p steal) := by
  unfold VObject.new at hr
  split at hr
  · simp only [Except.ok.injEq, Prod.mk.injEq] at hr
    exact ⟨hr.1.symm, hr.2.symm⟩
  · simp at hr

theorem copy_ok_inv (h : GHeap) (a c : VObject) (h1 : GHeap)
    (hr : VObject.copy h a = .ok (c, h1)) :
    c = { vobject := a.vobject } ∧ h1 = h.run (VObject.copy_calls a) := by
  unfold VObject.copy at hr
  split at hr
  · simp only [Except.ok.injEq, Prod.mk.injEq] at hr
    exact ⟨hr.1.symm, hr.2.symm⟩
  · simp at hr

theorem assign_ok_inv (h : GHeap) (x a x1 : VObject) (h1 : GHeap)
    (hr : VObject.assign h x a = .ok (x1, h1)) :
    x1 = { vobject := a.vobject } ∧ h1 = h.run (VObject.assign_calls x a) := by
  unfold VObject.assign at hr
  split at hr
  · split at hr
    · simp only [Except.ok.injEq, Prod.mk.injEq] at hr
      exact ⟨hr.1.symm, hr.2.symm⟩
    · simp at hr
  · simp at hr

theorem destroy_ok_inv (h : GHeap) (x : VObject) (h1 : GHeap)
    (hr : VObject.destroy h x = .ok h1) : h1 = h.run (VObject.destroy_calls x) := by
  unfold VObject.destroy at hr
  split at hr
  · simp only [Except.ok.injEq] at hr
    exact hr.symm
  · simp at hr

theorem run_new_calls_count (h : GHeap) (p q : Ptr) (steal : VSteal) (hq : q ≠ 0) :
    (h.run (VObject.new_calls p steal)).ref_count q =
      h.ref_count q + (if steal = VSteal.NOSTEAL ∧ p = q then 1 else 0) := by
  have hq0 : ¬ (0 = q) := fun e => hq e.symm
  cases steal
  · by_cases hp : p = q
    · subst hp
      simp [VObject.new_calls, VSteal.toNat, hq, GHeap.run, GCall.exec, g_object_ref]
    · have hqp : q ≠ p := fun e => hp e.symm
      by_cases h0 : p = 0
      · simp [VObject.new_calls, VSteal.toNat, h0, GHeap.run, hq0]
      · simp [VObject.new_calls, VSteal.toNat, h0, GHeap.run, GCall.exec, g_object_ref,
          hp, hqp]
  · simp [VObject.new_calls, VSteal.toNat, GHeap.run]

theorem run_copy_calls_count (h : GHeap) (a : VObject) (q : Ptr) (hq : q ≠ 0) :
    (h.run (VObject.copy_calls a)).ref_count q =
      h.ref_count q + (if a.vobject = q then 1 else 0) := by
  have hq0 : ¬ (0 = q) := fun e => hq e.symm
  by_cases hp : a.vobject = q
  · subst hp
    simp [VObject.copy_calls, hq, GHeap.run, GCall.exec, g_object_ref]
  · have hqp : q ≠ a.vobject := fun e => hp e.symm
    by_cases h0 : a.vobject = 0
    · simp [VObject.copy_calls, h0, GHeap.run, hq0]
    · simp [VObject.copy_calls, h0, GHeap.run, GCall.exec, g_object_ref, hp, hqp]

theorem run_destroy_calls_count (h : GHeap) (x : VObject) (q : Ptr) (hq : q ≠ 0)
    (hlive : x.vobject = q → 1 ≤ h.ref_count q) :
    (h.run (VObject.destroy_calls x)).ref_count q + (if x.vobject = q then 1 else 0) =
      h.ref_count q := by
  have hq0 : ¬ (0 = q) := fun e => hq e.symm
  by_cases hp : x.vobject = q
  · have := hlive hp
    subst hp
    simp [VObject.destroy_calls, hq, GHeap.run, GCall.exec, g_object_unref]
    omega
  · have hqp : q ≠ x.vobject := fun e => hp e.symm
    by_cases h0 : x.vobject = 0
    · simp [VObject.destroy_calls, h0, GHeap.run, hq0]
    · simp [VObject.destroy_calls, h0, GHeap.run, GCall.exec, g_object_unref, hp, hqp]

theorem run_assign_calls_count (h : GHeap) (x a : VObject) (q : Ptr) (hq : q ≠ 0)
    (hlive : x.vobject = q → 1 ≤ h.ref_count q) :
    (h.run (VObject.assign_calls x a)).ref_count q + (if x.vobject = q then 1 else 0) =
      h.ref_count q + (if a.vobject = q then 1 else 0) := by
  have hsplit : h.run (VObject.assign_calls x a) =
      (h.run (VObject.copy_calls a)).run (VObject.destroy_calls x) := by
    unfold VObject.assign_calls VObject.copy_calls VObject.destroy_calls
    by_cases ha : a.vobject = 0 <;> by_cases hx : x.vobject = 0 <;>
      simp [ha, hx, GHeap.run]
  rw [hsplit]
  have hc := run_copy_calls_count h a q hq
  have hd := run_destroy_calls_count (h.run (VObject.copy_calls a)) x q hq (by
    intro hxq
    have := hlive hxq
    omega)
  omega

theorem step_keeps_balance (s s1 : HandleState) (op : HandleOp) (hbal : s.balanced)
    (hstep : s.step op = some s1) : s1.balanced := by
  intro q hq
  have hb := hbal q hq
  cases op with
  | new p steal =>
    simp only [HandleState.step] at hstep
    split at hstep
    · simp at hstep
    · rename_i hpre
      split at hstep
      · simp at hstep
      · rename_i x h1 hnew
        obtain ⟨hx, hh1⟩ := new_ok_inv _ _ _ _ _ hnew
        simp only [Option.some.injEq] at hstep
        subst hstep
        subst hx hh1
        simp only [wrapping_append_single, run_new_calls_count _ _ _ _ hq]
        cases steal
        · simp only [true_and, reduceCtorEq, false_and, if_false]
          omega
        · by_cases hpq : p = q
          · subst hpq
            have hout : s.outside p ≠ 0 := by
              intro h0
              exact hpre ⟨rfl, hq, h0⟩
            simp only [reduceCtorEq, false_and, if_false, if_true, true_and, hq, ne_eq,
              not_false_eq_true, and_self]
            omega
          · have hqp : ¬ q = p := fun e => hpq e.symm
            simp only [reduceCtorEq, false_and, if_false, hpq, hqp, and_false]
            omega
  | copy i =>
    simp only [HandleState.step] at hstep
    split at hstep
    · simp at hstep
    · rename_i a ha
      split at hstep
      · simp at hstep
      · rename_i c h1 hcopy
        obtain ⟨hc, hh1⟩ := copy_ok_inv _ _ _ _ hcopy
        simp only [Option.some.injEq] at hstep
        subst hstep
        subst hc hh1
        simp only [wrapping_append_single, run_copy_calls_count _ _ _ hq]
        omega
  | assign i j =>
    simp only [HandleState.step] at hstep
    split at hstep
    · rename_i x a hx ha
      split at hstep
      · simp at hstep
      · rename_i x1 h1 hassign
        obtain ⟨hx1, hh1⟩ := assign_ok_inv _ _ _ _ _ hassign
        simp only [Option.some.injEq] at hstep
        subst hstep
        subst hx1 hh1
        have hw := wrapping_set q s.handles i x { vobject := a.vobject } hx
        have hpos := wrapping_pos_of_get s.handles i x hx
        have hc := run_assign_calls_count s.heap x a q hq (by
          intro hxq
          rw [hxq] at hpos
          omega)
        simp only at hw ⊢
        omega
    · simp at hstep
  | destroy i =>
    simp only [HandleState.step] at hstep
    split at hstep
    · simp at hstep
    · rename_i x hx
      split at hstep
      · simp at hstep
      · rename_i h1 hdestroy
        have hh1 := destroy_ok_inv _ _ _ hdestroy
        simp only [Option.some.injEq] at hstep
        subst hstep
        subst hh1
        have hw := wrapping_eraseIdx q s.handles i x hx
        have hpos := wrapping_pos_of_get s.handles i x hx
        have hc := run_destroy_calls_count s.heap x q hq (by
          intro hxq
          rw [hxq] at hpos
          omega)
        simp only at hw ⊢
        omega

theorem run_keeps_balance (ops : List HandleOp) (s s1 : HandleState) (hbal : s.balanced)
    (hrun : s.run ops = some s1) : s1.balanced := by
  induction ops generalizing s with
  | nil =>
    simp only [HandleState.run, Option.some.injEq] at hrun
    subst hrun
    exact hbal
  | cons op ops ih =>
    simp only [HandleState.run] at hrun
    split at hrun
    · simp at hrun
    · rename_i s2 hstep
      exact ih s2 (step_keeps_balance s s2 op hbal hstep) hrun

theorem balanced_handle_valid (s : HandleState) (hbal : s.balanced) (i : Nat) (x : VObject)
    (hx : s.handles.get? i = some x) : x.valid s.heap := by
  by_cases h0 : x.vobject = 0
  · exact Or.inl h0
  · right
    have hpos := wrapping_pos_of_get s.handles i x hx
    have hb := hbal x.vobject h0
    omega

theorem balanced_step_exists (s : HandleState) (hbal : s.balanced) :
    (∀ (p : Ptr) (steal : VSteal),
      (p = 0 ∨ (steal = VSteal.STEAL ∧ 1 ≤ s.outside p) ∨
        (steal = VSteal.NOSTEAL ∧ 0 < s.heap.ref_count p)) →
      ∃ s1, s.step (HandleOp.new p steal) = some s1) ∧
    (∀ i, i < s.handles.length →
      (∃ s1, s.step (HandleOp.copy i) = some s1) ∧
      (∃ s1, s.step (HandleOp.destroy i) = some s1)) ∧
    (∀ i j, i < s.handles.length → j < s.handles.length →
      ∃ s1, s.step (HandleOp.assign i j) = some s1) := by
  refine ⟨?_, ?_, ?_⟩
  · intro p steal hpre
    have hvalid : p = 0 ∨ 0 < s.heap.ref_count p := by
      rcases hpre with h0 | ⟨-, hout⟩ | ⟨-, hlive⟩
      · exact Or.inl h0
      · by_cases h0 : p = 0
        · exact Or.inl h0
        · right
          have hb := hbal p h0
          omega
      · exact Or.inr hlive
    have hguard : ¬ (steal = VSteal.STEAL ∧ p ≠ 0 ∧ s.outside p = 0) := by
      rintro ⟨hs, hp, hz⟩
      rcases hpre with h0 | ⟨-, hout⟩ | ⟨hn, -⟩
      · exact hp h0
      · omega
      · rw [hs] at hn
        exact absurd hn (by decide)
    simp only [HandleState.step, hguard, if_false, new_of_valid s.heap p steal hvalid]
    exact ⟨_, rfl⟩
  · intro i hi
    obtain ⟨x, hx⟩ : ∃ x, s.handles.get? i = some x := by
      rw [List.get?_eq_getElem?]
      exact ⟨s.handles[i], List.getElem?_eq_getElem hi⟩
    have hassert := g_assert_object_of_valid s.heap x (balanced_handle_valid s hbal i x hx)
    constructor
    · simp only [HandleState.step, hx, VObject.copy, hassert, if_true]
      exact ⟨_, rfl⟩
    · simp only [HandleState.step, hx, VObject.destroy, hassert, if_true]
      exact ⟨_, rfl⟩
  · intro i j hi hj
    obtain ⟨x, hx⟩ : ∃ x, s.handles.get? i = some x := by
      rw [List.get?_eq_getElem?]
      exact ⟨s.handles[i], List.getElem?_eq_getElem hi⟩
    obtain ⟨a, ha⟩ : ∃ a, s.handles.get? j = some a := by
      rw [List.get?_eq_getElem?]
      exact ⟨s.handles[j], List.getElem?_eq_getElem hj⟩
    have hax := g_assert_object_of_valid s.heap x (balanced_handle_valid s hbal i x hx)
    have haa := g_assert_object_of_valid s.heap a (balanced_handle_valid s hbal j a ha)
    simp only [HandleState.step, hx, ha, VObject.assign, hax, haa, if_true]
    exact ⟨_, rfl⟩

/-- C21: start where no handle exists and every count is the number of
references owned outside handles. After any sequence of handle statements
(construct with `STEAL` or `NOSTEAL`, copy-construct, assign, destroy) the
count of every object is the number of live handles wrapping it plus the
references still owned outside, a `STEAL` construction having moved one of the
latter into the handle. So every live handle is null or wraps a live object,
every further statement on live handles runs without a failed assertion, and
once every handle is destroyed each count is again what is owned outside: no
reference taken by a handle remains and none was released twice. -/
theorem handle_programs_keep_balance (heap : GHeap) (ops : List HandleOp) (s1 : HandleState)
    (hrun : (HandleState.init heap).run ops = some s1) :
    s1.balanced ∧
    (s1.handles = [] → ∀ p, p ≠ 0 → s1.heap.ref_count p = s1.outside p) ∧
    (∀ i x, s1.handles.get? i = some x → x.valid s1.heap) ∧
    (∀ (p : Ptr) (steal : VSteal),
      (p = 0 ∨ (steal = VSteal.STEAL ∧ 1 ≤ s1.outside p) ∨
        (steal = VSteal.NOSTEAL ∧ 0 < s1.heap.ref_count p)) →
      ∃ s2, s1.step (HandleOp.new p steal) = some s2) ∧
    (∀ i, i < s1.handles.length →
      (∃ s2, s1.step (HandleOp.copy i) = some s2) ∧
      (∃ s2, s1.step (HandleOp.destroy i) = some s2)) ∧
    (∀ i j, i < s1.handles.length → j < s1.handles.length →
      ∃ s2, s1.step (HandleOp.assign i j) = some s2) := by
  have hinit : (HandleState.init heap).balanced := by
    intro p _
    simp [HandleState.init, wrapping]
  have hbal := run_keeps_balance ops (HandleState.init heap) s1 hinit hrun
  have hprog := balanced_step_exists s1 hbal
  refine ⟨hbal, ?_, balanced_handle_valid s1 hbal, hprog.1, hprog.2.1, hprog.2.2⟩
  intro hnil p hp
  have hb := hbal p hp
  rw [hnil] at hb
  simpa [wrapping] using hb

/-- Witness for C21: the sample program on the sample heap (object `7`, count
`2`) ends with no handle, balanced, and the count of the object is `1`: the one
reference still owned outside, the other having been stolen and released. -/
theorem handle_programs_keep_balance_witness :
    ∃ s1, (HandleState.init sampleHeap).run sampleProgram = some s1 ∧
      s1.balanced ∧ s1.handles = [] ∧ s1.heap.ref_count 7 = 1 ∧ s1.outside 7 = 1 := by
  refine ⟨_, rfl, ?_, rfl, by decide, by decide⟩
  exact (handle_programs_keep_balance sampleHeap sampleProgram _ rfl).1

end vips
